import Mathlib

/-!
# Ninja-Seeds: control-and-export layer in front of the Transmission daemon

Shallow embedding of
* `backend/utils/transmission.js` and the copy of the same class in `backend/routes/torrents.js`
  (`TransmissionAPI`: `getSessionId`, `makeRequest`, `getStatusText`),
* the browse handler of `backend/api/files.js`,
* the export handlers of `backend/api/torrents.js` and `backend/routes/torrents.js`, with their
  parsing of the `Range` header,
* `CleanupManager` of `backend/utils/cleanup.js`, over a model of the shell commands it runs,
* the typed calls of `TransmissionAPI` (`addMagnet`, `getTorrents`, ...), the add-magnet
  handler, the file-list handlers with the `fileTree` they build, and the browse and export
  handlers over a model of the filesystem.

Asynchronous code is modelled by explicit state passing: a call takes the client state and the
requests the daemon has already seen, and returns its outcome, the new client state and the
requests it sent, in order.
-/

namespace NinjaSeeds

/-! ## Session client (`TransmissionAPI`) -/

/-- Values held by `this.sessionId`: `null` after construction, `undefined` when a 409 response
has no `x-transmission-session-id` header, otherwise the header string. -/
inductive Cred where
  | null
  | undefined
  | str (s : String)
deriving DecidableEq, Repr

/-- JavaScript truthiness, as tested by `!this.sessionId`: `null`, `undefined` and the empty
string are falsy. -/
def Cred.truthy : Cred → Bool
  | .null => false
  | .undefined => false
  | .str s => decide (s ≠ "")

/-- Result of `error.response.headers['x-transmission-session-id']`: `undefined` when the header
is missing. -/
def headerCred : Option String → Cred
  | none => .undefined
  | some s => .str s

/-- One `axios.post(this.baseURL, data, config)`. `body = none` is the empty object `{}` of the
handshake probe, `body = some (method, arguments)` is `{ method, arguments }`.
`sessionHeader = none` means no `headers` were given, `some c` is
`'X-Transmission-Session-Id': c`. `timeout = none` means no `timeout` was given. -/
structure Request (A : Type) where
  body : Option (String × A)
  sessionHeader : Option Cred
  timeout : Option Nat
deriving DecidableEq, Repr

/-- Rejection of `axios.post`: either the daemon answered with an error status
(`error.response` is set, with its status and its `x-transmission-session-id` header, if any) or
no response arrived (`error.response` is undefined: timeout, connection refused, ...). -/
inductive AxiosError where
  | response (status : Nat) (sessionHeader : Option String)
  | noResponse (code : String)
deriving DecidableEq, Repr

/-- Values thrown by the client: an axios rejection passed on as it is, or `new Error(message)`. -/
inductive Thrown where
  | axios (e : AxiosError)
  | error (message : String)
deriving DecidableEq, Repr

/-- The daemon (and the transport to it), as seen by the client: given the requests received so
far and a new request, either a response body or a rejection. -/
abbrev Daemon (A D : Type) := List (Request A) → Request A → Except AxiosError D

/-- Client state: the fields of `TransmissionAPI` that `getSessionId` and `makeRequest` read or
write. (`baseURL` is a constant, the same in every request.) -/
structure TransmissionAPI where
  sessionId : Cred
deriving DecidableEq, Repr

/-- The constructor: `this.sessionId = null`. -/
def TransmissionAPI.new : TransmissionAPI := { sessionId := .null }

/-- Outcome of an asynchronous method: returned value or thrown error, client state afterwards,
requests sent (oldest first). -/
structure Run (A R : Type) where
  result : Except Thrown R
  api : TransmissionAPI
  sent : List (Request A)

/-- `error.response && error.response.status === 409`, giving the session header of the
rejection when the test holds. -/
def rejection409 : Thrown → Option (Option String)
  | .axios (.response status h) => if status = 409 then some h else none
  | .axios (.noResponse _) => none
  | .error _ => none

/-- The handshake probe `axios.post(this.baseURL, {})`. -/
def probe {A : Type} : Request A := { body := none, sessionHeader := none, timeout := none }

/-- The request `axios.post(this.baseURL, { method, arguments }, { headers, timeout })`. -/
def callRequest {A : Type} (timeout : Nat) (method : String) (arguments_obj : A) (sessionId : Cred) :
    Request A :=
  { body := some (method, arguments_obj), sessionHeader := some sessionId, timeout := some timeout }

/-- `TransmissionAPI.getSessionId`. A probe that is answered without error makes the method
return `undefined` and leaves the state alone. -/
def getSessionId {A D : Type} (daemon : Daemon A D) (hist : List (Request A))
    (api : TransmissionAPI) : Run A Cred :=
  match daemon hist probe with
  | .ok _ => { result := .ok .undefined, api := api, sent := [probe] }
  | .error e =>
    match rejection409 (.axios e) with
    | some h =>
      let api2 : TransmissionAPI := { api with sessionId := headerCred h }
      { result := .ok api2.sessionId, api := api2, sent := [probe] }
    | none =>
      { result := .error (.error "Failed to get session ID from Transmission"),
        api := api, sent := [probe] }

/-- The first statement of the `try` block of `makeRequest`:
`if (!this.sessionId) { await this.getSessionId(); }`. -/
def handshake {A D : Type} (daemon : Daemon A D) (hist : List (Request A))
    (api : TransmissionAPI) : Run A Unit :=
  if !api.sessionId.truthy then
    let r := getSessionId daemon hist api
    { result := r.result.map (fun _ => ()), api := r.api, sent := r.sent }
  else
    { result := .ok (), api := api, sent := [] }

/-- The `try` block of `makeRequest`: handshake if needed, then the first send of the call. -/
def makeRequestTry {A D : Type} (timeout : Nat) (method : String) (arguments_obj : A)
    (daemon : Daemon A D) (hist : List (Request A)) (api : TransmissionAPI) : Run A D :=
  let hs := handshake daemon hist api
  match hs.result with
  | .error e => { result := .error e, api := hs.api, sent := hs.sent }
  | .ok () =>
    let req := callRequest timeout method arguments_obj hs.api.sessionId
    match daemon (hist ++ hs.sent) req with
    | .ok data => { result := .ok data, api := hs.api, sent := hs.sent ++ [req] }
    | .error e => { result := .error (.axios e), api := hs.api, sent := hs.sent ++ [req] }

/-- `TransmissionAPI.makeRequest(method, arguments_obj)`: the `try` block, and the `catch` block
applied to whatever the `try` block threw. The retry inside `catch` is not guarded. `timeout` is
15000 in `utils/transmission.js` and 10000 in `routes/torrents.js`. -/
def makeRequest {A D : Type} (timeout : Nat) (method : String) (arguments_obj : A)
    (daemon : Daemon A D) (hist : List (Request A)) (api : TransmissionAPI) : Run A D :=
  let t := makeRequestTry timeout method arguments_obj daemon hist api
  match t.result with
  | .ok data => { result := .ok data, api := t.api, sent := t.sent }
  | .error e =>
    match rejection409 e with
    | some h =>
      let api2 : TransmissionAPI := { t.api with sessionId := headerCred h }
      let req := callRequest timeout method arguments_obj api2.sessionId
      match daemon (hist ++ t.sent) req with
      | .ok data => { result := .ok data, api := api2, sent := t.sent ++ [req] }
      | .error e2 => { result := .error (.axios e2), api := api2, sent := t.sent ++ [req] }
    | none => { result := .error e, api := t.api, sent := t.sent }

/-- `makeRequest` of `backend/utils/transmission.js`. -/
def utils_makeRequest {A D : Type} := @makeRequest A D 15000

/-- `makeRequest` of the class in `backend/routes/torrents.js`. -/
def routes_makeRequest {A D : Type} := @makeRequest A D 10000

/-- A request is a send of the call (as opposed to a handshake probe) when it has a
`{ method, arguments }` body. -/
def Request.isCall {A : Type} (r : Request A) : Bool := r.body.isSome

/-- The `statusMap` object literal of `getStatusText`. -/
def statusMap : List (Int × String) :=
  [(0, "stopped"), (1, "check-wait"), (2, "checking"), (3, "download-wait"),
   (4, "downloading"), (5, "seed-wait"), (6, "seeding")]

/-- `TransmissionAPI.getStatusText(status)` for an integer `status`:
`statusMap[status] || 'unknown'`. -/
def getStatusText (status : Int) : String :=
  match statusMap.lookup status with
  | some text => if text ≠ "" then text else "unknown"
  | none => "unknown"

/-! ### Example daemons -/

/-- A daemon that rejects every request not carrying the credential `"s1"` with 409 and the
header `"s1"`, and answers `"done"` otherwise. -/
def strictDaemon : Daemon Nat String := fun _ req =>
  if req.sessionHeader = some (.str "s1") then .ok "done" else .error (.response 409 (some "s1"))

/-- A daemon that rejects every request with 409, announcing the credential `"s1"`. -/
def rejectingDaemon : Daemon Nat String := fun _ _ => .error (.response 409 (some "s1"))

/-- A daemon that cannot be reached. -/
def deadDaemon : Daemon Nat String := fun _ _ => .error (.noResponse "ECONNREFUSED")

/-- A daemon that completes the handshake and then times out on every call. -/
def stallingDaemon : Daemon Nat String := fun _ req =>
  if req.body.isSome then .error (.noResponse "ECONNABORTED")
  else .error (.response 409 (some "s1"))

/-- A daemon that announces the empty string as credential and accepts it. -/
def emptyCredDaemon : Daemon Nat String := fun _ req =>
  if req.sessionHeader = some (.str "") then .ok "done" else .error (.response 409 (some ""))

/-- A daemon that answers every request, whatever its credential. -/
def openDaemon : Daemon Nat String := fun _ _ => .ok "done"



/-! ## Paths (`path.join`, `path.resolve` of Node, POSIX flavour) -/

/-- `str.split('/')` on a list of characters: the segments between slashes, at least one. -/
def splitSlash : List Char → List (List Char)
  | [] => [[]]
  | c :: cs =>
    match splitSlash cs with
    | [] => if c = '/' then [[], []] else [[c]]
    | seg :: rest => if c = '/' then [] :: seg :: rest else (c :: seg) :: rest

/-- Segments joined with `/`. -/
def joinSlash : List (List Char) → List Char
  | [] => []
  | [seg] => seg
  | seg :: rest => seg ++ '/' :: joinSlash rest

/-- One step of Node's `normalizeString`, on the stack of segments kept so far (last kept segment
first): empty segments and `.` are dropped; `..` removes the last kept segment unless there is
none or it is itself `..`, in which case `..` is kept when `allowAboveRoot` and dropped
otherwise. -/
def normalizeStep (allowAboveRoot : Bool) (kept : List (List Char)) (seg : List Char) :
    List (List Char) :=
  if seg = [] ∨ seg = ['.'] then kept
  else if seg = ['.', '.'] then
    match kept with
    | top :: rest =>
      if top ≠ ['.', '.'] then rest
      else if allowAboveRoot then seg :: kept else kept
    | [] => if allowAboveRoot then [seg] else []
  else seg :: kept

/-- Node's `normalizeString(path, allowAboveRoot, '/', isPosixPathSeparator)`. -/
def normalizeString (path : List Char) (allowAboveRoot : Bool) : List Char :=
  joinSlash (((splitSlash path).foldl (normalizeStep allowAboveRoot) []).reverse)

/-- `path.normalize(path)` on characters. -/
def normalizeChars (path : List Char) : List Char :=
  if path = [] then ['.']
  else
    let isAbsolute := path.head? = some '/'
    let trailingSeparator := path.getLast? = some '/'
    let n := normalizeString path (!isAbsolute)
    if n = [] then
      if isAbsolute then ['/'] else if trailingSeparator then ['.', '/'] else ['.']
    else
      let n2 := if trailingSeparator then n ++ ['/'] else n
      if isAbsolute then '/' :: n2 else n2

/-- `path.join(a, b)`: the non-empty arguments joined with `/`, then normalised; `'.'` when both
are empty. -/
def path_join (a b : String) : String :=
  let parts := [a.toList, b.toList].filter (fun p => p ≠ [])
  if parts = [] then "." else String.mk (normalizeChars (joinSlash parts))

/-- `path.resolve(p)` with `process.cwd() = cwd`: `p` if absolute, otherwise `cwd/p`;
normalised, without trailing slash. -/
def path_resolve (cwd p : String) : String :=
  let r0 : List Char := if p.toList = [] then [] else p.toList ++ ['/']
  let abs0 : Bool := p.toList.head? = some '/'
  let r1 : List Char := if abs0 ∨ cwd.toList = [] then r0 else cwd.toList ++ '/' :: r0
  let abs1 : Bool := abs0 || (cwd.toList.head? = some '/')
  let n := normalizeString r1 (!abs1)
  if abs1 then String.mk ('/' :: n) else if n ≠ [] then String.mk n else "."

/-- `full.startsWith(root)` on characters. -/
def startsWithChars : List Char → List Char → Bool
  | _, [] => true
  | [], _ :: _ => false
  | c :: cs, d :: ds => c = d && startsWithChars cs ds

/-- `full.startsWith(root)`. -/
def startsWith (full root : String) : Bool := startsWithChars full.toList root.toList

/-! ## Request handlers -/

/-- One entry of `torrent.files`, with the `fileStats` entry of the same index. -/
structure TorrentFile where
  name : String
  length : Nat
  bytesCompleted : Nat
  priority : Int := 0
  wanted : Bool := true
deriving DecidableEq, Repr

/-- A torrent as reported by the daemon in `result.arguments.torrents` (the fields the handlers
read). `percentDone` is the value of the reported number. -/
structure Torrent where
  id : Int
  name : String
  downloadDir : String
  isFinished : Bool
  percentDone : ℚ
  status : Int
  files : List TorrentFile
deriving DecidableEq

/-- The body returned by `makeRequest('torrent-get', ...)`: `result.result` and
`result.arguments.torrents`. -/
structure RpcResult where
  result : String
  torrents : List Torrent
deriving DecidableEq

/-- Error bodies of the handlers.
* `torrentNotFound`: `'Torrent not found'`
* `fileNotFound`: `'File not found'`
* `accessDenied`: `'Access denied - path outside torrent directory'`
* `notComplete`: `'Torrent is only N% complete...'`
* `notReady`: `'Torrent not ready. Progress: N%'`
* `failed`: the body written by the outer `catch` of the handler. -/
inductive Reason where
  | torrentNotFound
  | fileNotFound
  | accessDenied
  | notComplete
  | notReady
  | failed
deriving DecidableEq, Repr

/-- A handler up to its first filesystem access: either it has answered (`reply`) without
touching the filesystem, or it goes on to `fs.stat(path)` and then lists, streams or archives
that same `path`. -/
inductive Guarded where
  | reply (status : Nat) (reason : Reason)
  | access (path : String)
deriving DecidableEq, Repr

/-- The security check of the browse handler (`api/files.js`):
`normalizedFullPath.startsWith(normalizedTorrentPath)`. -/
def browseGuard (cwd downloadDir name subPath : String) : Bool :=
  let torrentPath := path_join downloadDir name
  let fullPath := path_join torrentPath subPath
  let normalizedTorrentPath := path_resolve cwd torrentPath
  let normalizedFullPath := path_resolve cwd fullPath
  startsWith normalizedFullPath normalizedTorrentPath

/-- `router.get('/browse/:id/*')` of `api/files.js`, up to `fs.stat(fullPath)`. `rpc` is the
outcome of the `torrent-get` request, `subPath` is `req.params[0] || ''`. -/
def files_browse (cwd : String) (rpc : Except Thrown RpcResult) (subPath : String) : Guarded :=
  match rpc with
  | .error _ => .reply 500 .failed
  | .ok result =>
    if result.result ≠ "success" then .reply 404 .torrentNotFound
    else
      match result.torrents with
      | [] => .reply 404 .torrentNotFound
      | torrent :: _ =>
        if !browseGuard cwd torrent.downloadDir torrent.name subPath then
          .reply 403 .accessDenied
        else .access (path_join (path_join torrent.downloadDir torrent.name) subPath)

/-- The completion gate of both `download/:id` handlers:
`!torrent.isFinished && torrent.percentDone < 0.90`. The literal `0.90` and a reported `0.90`
are the same number, written `9 / 10` here. -/
def completionGate (torrent : Torrent) : Bool :=
  !torrent.isFinished && decide (torrent.percentDone < 9 / 10)

/-- `router.get('/download/:id')` of `routes/torrents.js`, up to `fs.stat(torrentPath)`. -/
def routes_download (rpc : Except Thrown RpcResult) : Guarded :=
  match rpc with
  | .error _ => .reply 500 .failed
  | .ok result =>
    if result.result ≠ "success" then .reply 404 .torrentNotFound
    else
      match result.torrents with
      | [] => .reply 404 .torrentNotFound
      | torrent :: _ =>
        if completionGate torrent then .reply 400 .notComplete
        else .access (path_join torrent.downloadDir torrent.name)

/-- `router.get('/download/:id')` of `api/torrents.js`, up to `fs.stat(torrentPath)`. -/
def api_download (rpc : Except Thrown RpcResult) : Guarded :=
  match rpc with
  | .error _ => .reply 500 .failed
  | .ok result =>
    if result.result ≠ "success" then .reply 404 .torrentNotFound
    else
      match result.torrents with
      | [] => .reply 404 .torrentNotFound
      | torrent :: _ =>
        if completionGate torrent then .reply 400 .notComplete
        else .access (path_join torrent.downloadDir torrent.name)

/-- `router.get('/:id/speed-download')` of `routes/torrents.js`, up to `fs.stat(torrentPath)`:
ready when `torrent.percentDone >= 1.0 || torrent.status === 6`. -/
def routes_speedDownload (rpc : Except Thrown RpcResult) : Guarded :=
  match rpc with
  | .error _ => .reply 500 .failed
  | .ok result =>
    if result.result ≠ "success" then .reply 404 .torrentNotFound
    else
      match result.torrents with
      | [] => .reply 404 .torrentNotFound
      | torrent :: _ =>
        if decide (torrent.percentDone ≥ 1) || decide (torrent.status = 6) then
          .access (path_join torrent.downloadDir torrent.name)
        else .reply 400 .notReady

/-- `torrent.files[parseInt(fileIndex)]`: `fileIndex = none` stands for `NaN`; negative and too
large indices give `undefined`. -/
def fileAt (files : List TorrentFile) (fileIndex : Option Int) : Option TorrentFile :=
  match fileIndex with
  | none => none
  | some i => if i < 0 then none else files.get? i.toNat

/-- `router.get('/:id/file/:fileIndex')` of `routes/torrents.js`, up to `fs.stat(filePath)`.
`fileIndex` is the value of `parseInt(fileIndex)`. -/
def routes_fileDownload (rpc : Except Thrown RpcResult) (fileIndex : Option Int) : Guarded :=
  match rpc with
  | .error _ => .reply 500 .failed
  | .ok result =>
    if result.result ≠ "success" then .reply 404 .torrentNotFound
    else
      match result.torrents with
      | [] => .reply 404 .torrentNotFound
      | torrent :: _ =>
        match fileAt torrent.files fileIndex with
        | none => .reply 404 .fileNotFound
        | some file => .access (path_join torrent.downloadDir file.name)


/-! ### Example torrents -/

/-- A finished torrent named `Show`, stored under `downloadDir`. -/
def showTorrent (downloadDir : String) : Torrent :=
  { id := 1, name := "Show", downloadDir := downloadDir, isFinished := true, percentDone := 1,
    status := 6,
    files := [{ name := "Show/episode.mkv", length := 1000, bytesCompleted := 1000 }] }

/-- A finished torrent whose reported name and file name climb out of the download directory. -/
def climbingTorrent : Torrent :=
  { id := 2, name := "../../etc", downloadDir := "/mnt/ninjaseeds", isFinished := true,
    percentDone := 1, status := 6,
    files := [{ name := "../../etc/passwd", length := 1000, bytesCompleted := 1000 }] }

/-- A torrent named `Show` under `/data` in the given state of completion. -/
def showAt (isFinished : Bool) (percentDone : ℚ) : Torrent :=
  { id := 1, name := "Show", downloadDir := "/data", isFinished := isFinished,
    percentDone := percentDone, status := 4, files := [] }

/-- The daemon's answer reporting exactly the torrent `t`. -/
def found (t : Torrent) : Except Thrown RpcResult := .ok { result := "success", torrents := [t] }


/-! ## JavaScript numbers and strings used by the range and usage parsers -/

/-- A JavaScript number as the handlers meet it: `NaN` or an integer. Integers are exact here;
JavaScript keeps them exact up to 2^53. -/
inductive JsNum where
  | nan
  | int (n : Int)
deriving DecidableEq, Repr

/-- `a - b`. -/
def JsNum.sub : JsNum → JsNum → JsNum
  | .int a, .int b => .int (a - b)
  | _, _ => .nan

/-- `a + b`. -/
def JsNum.add : JsNum → JsNum → JsNum
  | .int a, .int b => .int (a + b)
  | _, _ => .nan

/-- `a > b`: false as soon as one side is `NaN`. -/
def JsNum.gt : JsNum → JsNum → Bool
  | .int a, .int b => decide (a > b)
  | _, _ => false

/-- Decimal digits of `n`, most significant first, in front of `acc`; `fuel` bounds the number
of digits. -/
def decimalAux : Nat → Nat → List Char → List Char
  | 0, _, acc => acc
  | fuel + 1, n, acc =>
    if n < 10 then Nat.digitChar n :: acc
    else decimalAux fuel (n / 10) (Nat.digitChar (n % 10) :: acc)

/-- The decimal numeral of a natural number, as JavaScript prints it. -/
def decimal (n : Nat) : List Char := decimalAux (n + 1) n []

/-- Number to string conversion of a template literal: `NaN`, or the decimal numeral with a
minus sign for negative integers. -/
def JsNum.toChars : JsNum → List Char
  | .nan => ['N', 'a', 'N']
  | .int (Int.ofNat n) => decimal n
  | .int (Int.negSucc n) => '-' :: decimal (n + 1)

/-- White space for `parseInt` and for `\s` in a regular expression. -/
def isJsWhitespace (c : Char) : Bool :=
  c.toNat ∈ [0x09, 0x0A, 0x0B, 0x0C, 0x0D, 0x20, 0xA0, 0x1680, 0x2000, 0x2001, 0x2002, 0x2003,
    0x2004, 0x2005, 0x2006, 0x2007, 0x2008, 0x2009, 0x200A, 0x2028, 0x2029, 0x202F, 0x205F,
    0x3000, 0xFEFF]

/-- Value of `c` as a digit in base `radix` (2 to 36), if it is one. -/
def digitValue (radix : Nat) (c : Char) : Option Nat :=
  let v : Option Nat :=
    if '0' ≤ c ∧ c ≤ '9' then some (c.toNat - 48)
    else if 'a' ≤ c ∧ c ≤ 'z' then some (c.toNat - 97 + 10)
    else if 'A' ≤ c ∧ c ≤ 'Z' then some (c.toNat - 65 + 10)
    else none
  match v with
  | some d => if d < radix then some d else none
  | none => none

/-- The longest run of base-`radix` digits at the front of `s`, as a number read so far
(`none` while no digit has been read). -/
def readDigits (radix : Nat) : List Char → Option Nat → Option Nat
  | [], acc => acc
  | c :: cs, acc =>
    match digitValue radix c with
    | some d => readDigits radix cs (some (acc.getD 0 * radix + d))
    | none => acc

/-- Sign handling of `parseInt`: an optional `+` or `-`. -/
def readSign : List Char → Bool × List Char
  | '-' :: cs => (true, cs)
  | '+' :: cs => (false, cs)
  | cs => (false, cs)

/-- `parseInt(s, radix)`; `radix = none` is the call without radix, which reads a leading `0x`
or `0X` as base 16 and everything else as base 10. Leading white space is skipped; `NaN` when
no digit follows. -/
def parseInt (s : List Char) (radix : Option Nat) : JsNum :=
  let s1 := s.dropWhile isJsWhitespace
  let (neg, s2) := readSign s1
  let (r, s3) : Nat × List Char :=
    if radix = none ∨ radix = some 16 then
      match s2 with
      | '0' :: 'x' :: rest => (16, rest)
      | '0' :: 'X' :: rest => (16, rest)
      | _ => (radix.getD 10, s2)
    else (radix.getD 10, s2)
  match readDigits r s3 none with
  | none => .nan
  | some v => .int (if neg then - (v : Int) else v)

/-- `s.split(sep)` for a one-character separator: the pieces between separators, at least
one. -/
def splitChar (sep : Char) : List Char → List (List Char)
  | [] => [[]]
  | c :: cs =>
    match splitChar sep cs with
    | [] => if c = sep then [[], []] else [[c]]
    | piece :: rest => if c = sep then [] :: piece :: rest else (c :: piece) :: rest

/-- `s.replace(pat, '')` for a literal pattern: the first occurrence of `pat` is removed. -/
def removeFirst (pat : List Char) : List Char → List Char
  | [] => []
  | c :: cs =>
    if startsWithChars (c :: cs) pat then (c :: cs).drop pat.length
    else c :: removeFirst pat cs

/-- `s.split(/\s+/)`: the pieces between maximal runs of white space; a run at the very start
or end leaves an empty piece there. `inRun` tells that the previous character was white
space. -/
def splitWhitespaceAux : List Char → Bool → List (List Char)
  | [], _ => [[]]
  | c :: cs, inRun =>
    if isJsWhitespace c then
      if inRun then splitWhitespaceAux cs true else [] :: splitWhitespaceAux cs true
    else
      match splitWhitespaceAux cs false with
      | [] => [[c]]
      | piece :: rest => (c :: piece) :: rest

/-- `s.split(/\s+/)`. -/
def splitWhitespace (s : List Char) : List (List Char) := splitWhitespaceAux s false


/-! ## Serving a single file -/

/-- What a handler has put on the response at the moment it calls `createReadStream` for a
single file: the status code, the `Content-Length` and `Content-Range` headers, and the
`start`/`end` options handed to `createReadStream` (`none`: no such options, the whole file is
read). Nothing has been sent at that moment; `FileAnswer` tells what is sent. -/
structure FileResponse where
  status : Nat
  contentLength : JsNum
  contentRange : Option String
  readOptions : Option (JsNum × JsNum)
deriving DecidableEq, Repr

/-- The parsing of a `Range` header in the handlers of `routes/torrents.js`:
`parts = range.replace(/bytes=/, "").split("-")`, `start = parseInt(parts[0], 10)`,
`end = parts[1] ? parseInt(parts[1], 10) : stats.size - 1`. -/
def rangeBounds (range : String) (size : Nat) : JsNum × JsNum :=
  let parts := splitChar '-' (removeFirst "bytes=".toList range.toList)
  let start := parseInt (parts.headD []) (some 10)
  let stop :=
    match parts.get? 1 with
    | some p => if p ≠ [] then parseInt p (some 10) else JsNum.sub (.int size) (.int 1)
    | none => JsNum.sub (.int size) (.int 1)
  (start, stop)

/-- The header value built by the template `bytes START-END/SIZE`. -/
def contentRangeValue (start stop : JsNum) (size : Nat) : String :=
  String.mk ("bytes ".toList ++ start.toChars ++ '-' :: stop.toChars ++ '/' :: decimal size)

/-- The single-file branch of `router.get('/download/:id')` in `routes/torrents.js`, for a file
of `stats.size = size` and `req.headers.range = range` (`none`: no such header), up to its call
of `createReadStream`: the response as prepared and the options of the call. The call throws on
some options; `routes_download_answer` gives the answer with that taken into account. -/
def routes_download_file (size : Nat) (range : Option String) : FileResponse :=
  match range with
  | some r =>
    if r ≠ "" then
      let (start, stop) := rangeBounds r size
      { status := 206,
        contentRange := some (contentRangeValue start stop size),
        contentLength := JsNum.add (JsNum.sub stop start) (.int 1),
        readOptions := some (start, stop) }
    else
      { status := 200, contentLength := .int size, contentRange := none, readOptions := none }
  | none =>
    { status := 200, contentLength := .int size, contentRange := none, readOptions := none }

/-- The streaming part of `router.get('/:id/file/:fileIndex')` in `routes/torrents.js`, up to
its call of `createReadStream`: `Content-Length` is first set to `stats.size` and then set again
in the range branch. The call throws on some options; `routes_fileDownload_answer` gives the
answer with that taken into account. -/
def routes_fileDownload_file (size : Nat) (range : Option String) : FileResponse :=
  let plain : FileResponse :=
    { status := 200, contentLength := .int size, contentRange := none, readOptions := none }
  match range with
  | some r =>
    if r ≠ "" then
      let (start, stop) := rangeBounds r size
      { plain with
        status := 206,
        contentRange := some (contentRangeValue start stop size),
        contentLength := JsNum.add (JsNum.sub stop start) (.int 1),
        readOptions := some (start, stop) }
    else plain
  | none => plain

/-- The single-file branch of `router.get('/download/:id')` in `api/torrents.js`; the handler
does not look at the `Range` header. -/
def api_download_file (size : Nat) : FileResponse :=
  { status := 200, contentLength := .int size, contentRange := none, readOptions := none }

/-- The single-file branch of `router.get('/:id/speed-download')` in `routes/torrents.js`; the
handler does not look at the `Range` header. -/
def routes_speedDownload_file (size : Nat) : FileResponse :=
  { status := 200, contentLength := .int size, contentRange := none, readOptions := none }

/-- `Number.MAX_SAFE_INTEGER`, `2^53 - 1`. -/
def maxSafeInteger : Int := 9007199254740991

/-- The check Node's `fs.createReadStream` makes on its `start` and `end` options before it
returns a stream: each is an integer from 0 to `Number.MAX_SAFE_INTEGER`, and `start <= end`;
otherwise it throws synchronously. Without options it never throws. -/
def readOptionsAccepted : Option (JsNum × JsNum) → Bool
  | none => true
  | some (.int a, .int b) =>
    decide (0 ≤ a ∧ a ≤ maxSafeInteger ∧ 0 ≤ b ∧ b ≤ maxSafeInteger ∧ a ≤ b)
  | some _ => false

/-- What the client is sent by a single-file branch.
* `streamed r`: `createReadStream` returned a stream, which is piped into the response prepared
  as `r`.
* `rejected status error`: `createReadStream` threw on its options; nothing had been sent, and
  the `catch` block that caught the error answered with this status and the JSON body
  `{ success: false, error }`. -/
inductive FileAnswer where
  | streamed (r : FileResponse)
  | rejected (status : Nat) (error : String)
deriving DecidableEq, Repr

/-- The status code of the answer. -/
def FileAnswer.status : FileAnswer → Nat
  | .streamed r => r.status
  | .rejected status _ => status

/-- The single-file branch of `router.get('/download/:id')` in `routes/torrents.js` to its end.
The call of `createReadStream` is inside the outer `try` only: when it throws, the outer `catch`
finds `res.headersSent` false and answers 500 `'Download failed'`. -/
def routes_download_answer (size : Nat) (range : Option String) : FileAnswer :=
  let r := routes_download_file size range
  if readOptionsAccepted r.readOptions then .streamed r else .rejected 500 "Download failed"

/-- The streaming part of `router.get('/:id/file/:fileIndex')` in `routes/torrents.js` to its
end. The call of `createReadStream` is inside the inner `try`: when it throws, the inner `catch`
answers 404 `'File not found on disk'`. -/
def routes_fileDownload_answer (size : Nat) (range : Option String) : FileAnswer :=
  let r := routes_fileDownload_file size range
  if readOptionsAccepted r.readOptions then .streamed r
  else .rejected 404 "File not found on disk"

/-- A torrent named `Show` under `/data` with one file, in the given state. -/
def showWithFile (isFinished : Bool) (percentDone : ℚ) (status : Int) : Torrent :=
  { id := 1, name := "Show", downloadDir := "/data", isFinished := isFinished,
    percentDone := percentDone, status := status,
    files := [{ name := "Show/episode.mkv", length := 1000, bytesCompleted := 500 }] }

/-! ## Eviction manager (`CleanupManager`, `utils/cleanup.js`) -/

/-- The fields set by the constructor of `CleanupManager`. -/
structure CleanupManager where
  downloadDir : String
  tempDir : String
  maxStoragePercent : Int
deriving DecidableEq, Repr

/-- The constructor; `envDownloadDir` is `process.env.DOWNLOAD_DIR` (`none`: not set). -/
def CleanupManager.new (envDownloadDir : Option String) : CleanupManager :=
  { downloadDir :=
      match envDownloadDir with
      | some d => if d ≠ "" then d else "/mnt/ninjaseeds"
      | none => "/mnt/ninjaseeds",
    tempDir := "/tmp",
    maxStoragePercent := 90 }

/-- A regular file on disk: its absolute path, the time since its last modification, and
whether the torrent it belongs to has reached its completion target (the commands never look at
this). Directories are not tracked: no command below removes a directory that still holds a
file. -/
structure DiskFile where
  path : String
  ageSeconds : Nat
  torrentComplete : Bool
deriving DecidableEq, Repr

/-- The shell commands that `CleanupManager` runs through `execAsync`.
* `df dir`: `df -h DIR | tail -1`
* `findDelete root nameSuffix regularOnly days`:
  `find ROOT [-name "*SUFFIX"] [-type f] -mtime +DAYS -delete 2>/dev/null || true`
* `findEmptyDirs root`: `find ROOT -type d -empty -delete 2>/dev/null || true`
* `dropCaches`: `sync && echo 3 > /proc/sys/vm/drop_caches 2>/dev/null || true` -/
inductive Command where
  | df (dir : String)
  | findDelete (root : String) (nameSuffix : Option String) (regularOnly : Bool) (days : Nat)
  | findEmptyDirs (root : String)
  | dropCaches
deriving DecidableEq, Repr

/-- `path` is `root` or lies below it. -/
def inTree (root path : String) : Bool :=
  decide (path = root)
    || startsWithChars path.toList
        (if root.toList.getLast? = some '/' then root.toList else root.toList ++ ['/'])

/-- `path` ends with `suffix`. -/
def endsWith (path suffix : String) : Bool :=
  startsWithChars path.toList.reverse suffix.toList.reverse

/-- Whether a command deletes the regular file `f`. `-mtime +DAYS` holds when the age in whole
days (the fraction dropped) is greater than `DAYS`. -/
def Command.selects : Command → DiskFile → Bool
  | .findDelete root nameSuffix _ days, f =>
    inTree root f.path
      && (match nameSuffix with
          | some suffix => endsWith f.path suffix
          | none => true)
      && decide (f.ageSeconds / 86400 > days)
  | _, _ => false

/-- The regular files left by a command that runs to its end. -/
def Command.run (c : Command) (files : List DiskFile) : List DiskFile :=
  files.filter (fun f => !c.selects f)

/-- The shell as the manager sees it. `df log files` is the outcome of the `df` pipeline after
the commands `log`, with the files `files` on disk: its standard output, or the message of the
error `execAsync` rejects with. `rejects c` tells whether `execAsync` rejects for the command
`c`; a rejected command leaves the files alone. -/
structure Shell where
  df : List Command → List DiskFile → Except String String
  rejects : Command → Bool

/-- Files on disk and the commands issued so far (oldest first). -/
structure Machine where
  files : List DiskFile
  log : List Command
deriving DecidableEq, Repr

/-- `await execAsync(command)` for the commands other than `df`. -/
def exec (sh : Shell) (c : Command) (m : Machine) : Except String Unit × Machine :=
  if sh.rejects c then (.error "Command failed", { m with log := m.log ++ [c] })
  else (.ok (), { files := c.run m.files, log := m.log ++ [c] })

/-- The call `execAsync(command)` alone: the command is handed to the shell, and its promise is
awaited later. -/
def issue (c : Command) (m : Machine) : Machine := { m with log := m.log ++ [c] }

/-- The end of a command issued earlier, as the `await` on its promise sees it: the promise is
rejected, or the command has run to its end. -/
def settle (sh : Shell) (c : Command) (m : Machine) : Except String Unit × Machine :=
  if sh.rejects c then (.error "Command failed", m)
  else (.ok (), { m with files := c.run m.files })

/-- `CleanupManager.getStorageUsage`: field 4 of the output split at white space, without its
first `%`, read by `parseInt`; 0 when the command fails or the field is missing (the `catch`
block). -/
def getStorageUsage (mgr : CleanupManager) (sh : Shell) (m : Machine) : JsNum × Machine :=
  let m2 : Machine := { m with log := m.log ++ [.df mgr.downloadDir] }
  match sh.df m.log m.files with
  | .error _ => (.int 0, m2)
  | .ok stdout =>
    match (splitWhitespace stdout.toList).get? 4 with
    | none => (.int 0, m2)
    | some field => (parseInt (removeFirst ['%'] field) none, m2)

/-- The first command of `cleanTempFiles`. -/
def tempTorrentsCommand : Command := .findDelete "/tmp" (some ".torrent") false 1

/-- The second command of `cleanTempFiles`. -/
def tempFilesCommand : Command := .findDelete "/tmp" none true 7

/-- The first command of `cleanTransmissionCache`. -/
def resumeCommand : Command :=
  .findDelete "/var/lib/transmission-daemon/.config/transmission-daemon/resume"
    (some ".resume") false 1

/-- The second command of `cleanTransmissionCache`. -/
def torrentsCommand : Command :=
  .findDelete "/var/lib/transmission-daemon/.config/transmission-daemon/torrents"
    (some ".torrent") false 1

/-- The payload deletion of `forceCleanup`:
`find DOWNLOAD_DIR -type f -mtime +7 -delete 2>/dev/null || true`. -/
def payloadCommand (mgr : CleanupManager) : Command := .findDelete mgr.downloadDir none true 7

/-- Two commands run one after the other inside one `try` block whose `catch` only logs: the
second runs when the first did not reject, and the method never throws. -/
def tryTwo (sh : Shell) (c1 c2 : Command) (m : Machine) : Except String Unit × Machine :=
  match exec sh c1 m with
  | (.error _, m1) => (.ok (), m1)
  | (.ok _, m1) =>
    match exec sh c2 m1 with
    | (.error _, m2) => (.ok (), m2)
    | (.ok _, m2) => (.ok (), m2)

/-- `CleanupManager.cleanTempFiles`, awaited on its own. -/
def cleanTempFiles (sh : Shell) (m : Machine) : Except String Unit × Machine :=
  tryTwo sh tempTorrentsCommand tempFilesCommand m

/-- `CleanupManager.cleanTransmissionCache`, awaited on its own. -/
def cleanTransmissionCache (sh : Shell) (m : Machine) : Except String Unit × Machine :=
  tryTwo sh resumeCommand torrentsCommand m

/-- `CleanupManager.cleanOrphanedFiles`, awaited on its own. -/
def cleanOrphanedFiles (mgr : CleanupManager) (sh : Shell) (m : Machine) :
    Except String Unit × Machine :=
  match exec sh (.findEmptyDirs mgr.downloadDir) m with
  | (.error _, m1) => (.ok (), m1)
  | (.ok _, m1) => (.ok (), m1)

/-- `CleanupManager.forceCleanup`: one usage sample, then, when `usage > this.maxStoragePercent`,
the payload deletion followed by the cache drop, all inside one `try` block whose `catch` only
logs. -/
def forceCleanup (mgr : CleanupManager) (sh : Shell) (m : Machine) :
    Except String Unit × Machine :=
  let (usage, m1) := getStorageUsage mgr sh m
  if usage.gt (.int mgr.maxStoragePercent) then
    tryTwo sh (payloadCommand mgr) .dropCaches m1
  else (.ok (), m1)

/-- A method of two commands (`tryTwo`) from the end of its first command on, that command
having been issued before: the second command is issued when the first was not rejected. -/
def tryTwoRest (sh : Shell) (c1 c2 : Command) (m : Machine) : Except String Unit × Machine :=
  match settle sh c1 m with
  | (.error _, m1) => (.ok (), m1)
  | (.ok _, m1) =>
    match exec sh c2 m1 with
    | (.error _, m2) => (.ok (), m2)
    | (.ok _, m2) => (.ok (), m2)

/-- `cleanOrphanedFiles` from the end of its command on, the command having been issued
before. -/
def cleanOrphanedFilesRest (mgr : CleanupManager) (sh : Shell) (m : Machine) :
    Except String Unit × Machine :=
  match settle sh (.findEmptyDirs mgr.downloadDir) m with
  | (.error _, m1) => (.ok (), m1)
  | (.ok _, m1) => (.ok (), m1)

/-- `Promise.all([this.cleanTempFiles(), this.cleanTransmissionCache(),
this.cleanOrphanedFiles()])` in `fullCleanup`: the outcome of the three promises and the machine
once all of them are settled. The three methods are called while the array is built, and each
runs up to its first `await`: the first commands of the three methods are issued, in the order
of the array, before any of them has ended. A method goes on when its first command has ended;
`tempFirst` tells whether the first command of `cleanTempFiles` ends before the first command of
`cleanTransmissionCache`, which decides which of the two second commands is issued first. -/
def fullCleanup_sweeps (mgr : CleanupManager) (sh : Shell) (tempFirst : Bool) (m : Machine) :
    (Except String Unit × Except String Unit × Except String Unit) × Machine :=
  let m0 :=
    issue (.findEmptyDirs mgr.downloadDir) (issue resumeCommand (issue tempTorrentsCommand m))
  if tempFirst then
    let (r1, m1) := tryTwoRest sh tempTorrentsCommand tempFilesCommand m0
    let (r2, m2) := tryTwoRest sh resumeCommand torrentsCommand m1
    let (r3, m3) := cleanOrphanedFilesRest mgr sh m2
    ((r1, r2, r3), m3)
  else
    let (r2, m1) := tryTwoRest sh resumeCommand torrentsCommand m0
    let (r1, m2) := tryTwoRest sh tempTorrentsCommand tempFilesCommand m1
    let (r3, m3) := cleanOrphanedFilesRest mgr sh m2
    ((r1, r2, r3), m3)

/-- `CleanupManager.fullCleanup`; the value is the usage logged at the end. `Promise.all`
rejects when one of its promises does; `forceCleanup` starts once all three are settled. -/
def fullCleanup (mgr : CleanupManager) (sh : Shell) (tempFirst : Bool) (m : Machine) :
    Except String JsNum × Machine :=
  match fullCleanup_sweeps mgr sh tempFirst m with
  | ((.ok _, .ok _, .ok _), m3) =>
    match forceCleanup mgr sh m3 with
    | (.error e, m4) => (.error e, m4)
    | (.ok _, m4) =>
      let (usage, m5) := getStorageUsage mgr sh m4
      (.ok usage, m5)
  | ((.error e, _, _), m3) => (.error e, m3)
  | ((_, .error e, _), m3) => (.error e, m3)
  | ((_, _, .error e), m3) => (.error e, m3)

/-! ### Example disks and shells -/

/-- A payload file under `/mnt/ninjaseeds`, `days` days old. -/
def payloadFile (name : String) (days : Nat) (torrentComplete : Bool) : DiskFile :=
  { path := "/mnt/ninjaseeds/" ++ name, ageSeconds := days * 86400,
    torrentComplete := torrentComplete }

/-- A shell in which no command fails and `df` always reports 95%. -/
def fullShell : Shell :=
  { df := fun _ _ => .ok "/dev/sda1        50G   45G  2.5G  95% /mnt/ninjaseeds\n",
    rejects := fun _ => false }

/-- A shell in which no command fails and every file takes 10% of a disk that is otherwise 75%
full: 95% with two files, 85% with one, 75% with none. -/
def tenPercentShell : Shell :=
  { df := fun _ files =>
      match files with
      | [] => .ok "/dev/sda1        50G   37G   13G  75% /mnt/ninjaseeds\n"
      | [_] => .ok "/dev/sda1        50G   42G    8G  85% /mnt/ninjaseeds\n"
      | _ => .ok "/dev/sda1        50G   45G  2.5G  95% /mnt/ninjaseeds\n",
    rejects := fun _ => false }

/-- A shell in which `df` reports exactly 90%. -/
def ninetyShell : Shell :=
  { df := fun _ _ => .ok "/dev/sda1        50G   45G    5G  90% /mnt/ninjaseeds\n",
    rejects := fun _ => false }

/-- A shell in which every command fails. -/
def brokenShell : Shell :=
  { df := fun _ _ => .error "Command failed", rejects := fun _ => true }

/-- A shell in which no command fails and `df` always reports 40% for `/tmp/dl`. -/
def idleShell : Shell :=
  { df := fun _ _ => .ok "/dev/sda1        50G   20G   30G  40% /tmp/dl\n",
    rejects := fun _ => false }

/-- Ten payload files, 1 to 10 days old. -/
def tenFiles : List DiskFile :=
  [payloadFile "f1" 1 true, payloadFile "f2" 2 true, payloadFile "f3" 3 true,
   payloadFile "f4" 4 true, payloadFile "f5" 5 true, payloadFile "f6" 6 true,
   payloadFile "f7" 7 true, payloadFile "f8" 8 true, payloadFile "f9" 9 true,
   payloadFile "f10" 10 true]



/-! ## Typed calls of `TransmissionAPI` -/

/-- The texts of errors raised by libraries: `error.message` of an axios rejection, of the
`TypeError` for reading a property of `undefined`, and of the `TypeError` for calling
`startsWith` on a value that has no such method. -/
structure Messages where
  axios : AxiosError → String
  typeError : String
  notAFunction : String

/-- `error.message` of a thrown value. -/
def Thrown.message (msgs : Messages) : Thrown → String
  | .axios e => msgs.axios e
  | .error message => message

/-- The object under `result.arguments['torrent-added']` or
`result.arguments['torrent-duplicate']`. -/
structure AddedTorrent where
  id : Int
  name : String
  hashString : String
deriving DecidableEq, Repr

/-- The body answered to `torrent-add`: `result.result` and the two entries of
`result.arguments` that the client reads (`none`: absent). -/
structure AddBody where
  result : String
  torrentAdded : Option AddedTorrent
  torrentDuplicate : Option AddedTorrent
deriving DecidableEq, Repr

/-- The object returned by `addMagnet`, `addTorrentFile`, `removeTorrent`, `pauseTorrent` and
`resumeTorrent`: `success`, `error` (`none`: `null` or absent) and, after a successful add,
`hash`, `id` and `name`. -/
structure CallResult where
  success : Bool
  error : Option String
  added : Option AddedTorrent
deriving DecidableEq, Repr

/-- The part of `addMagnet` and `addTorrentFile` after `makeRequest('torrent-add', ...)` has
returned `result`. Reading `torrent.name` when neither entry is present throws a `TypeError`,
which the `catch` block of the method turns into its message. -/
def addedResult (msgs : Messages) (result : AddBody) : CallResult :=
  if result.result = "success" then
    match result.torrentAdded <|> result.torrentDuplicate with
    | some torrent => { success := true, error := none, added := some torrent }
    | none => { success := false, error := some msgs.typeError, added := none }
  else { success := false, error := some result.result, added := none }

/-- `TransmissionAPI.addMagnet(magnetLink)`, given the outcome `rpc` of its
`makeRequest('torrent-add', ...)`. -/
def addMagnet (msgs : Messages) (rpc : Except Thrown AddBody) : CallResult :=
  match rpc with
  | .error e => { success := false, error := some (e.message msgs), added := none }
  | .ok result => addedResult msgs result

/-- `TransmissionAPI.addTorrentFile(filePath)`, given the outcome of `fs.readFile(filePath)`
(`.error message` when it throws) and the outcome `rpc` of `makeRequest('torrent-add', ...)`.
The `torrent-start` request that follows a successful add has its own `try` block and does not
change the returned object. -/
def addTorrentFile (msgs : Messages) (readFile : Except String Unit)
    (rpc : Except Thrown AddBody) : CallResult :=
  match readFile with
  | .error message => { success := false, error := some message, added := none }
  | .ok _ =>
    match rpc with
    | .error e => { success := false, error := some (e.message msgs), added := none }
    | .ok result => addedResult msgs result

/-- The body shared by `removeTorrent`, `pauseTorrent` and `resumeTorrent` after their
`makeRequest`: `success: result.result === 'success'`,
`error: result.result !== 'success' ? result.result : null`. -/
def statusResult (msgs : Messages) (rpc : Except Thrown RpcResult) : CallResult :=
  match rpc with
  | .error e => { success := false, error := some (e.message msgs), added := none }
  | .ok result =>
    { success := decide (result.result = "success"),
      error := if result.result ≠ "success" then some result.result else none,
      added := none }

/-- `TransmissionAPI.removeTorrent(torrentId, deleteData)`, given the outcome of its
`makeRequest('torrent-remove', ...)`. -/
def removeTorrent (msgs : Messages) (rpc : Except Thrown RpcResult) : CallResult :=
  statusResult msgs rpc

/-- `TransmissionAPI.pauseTorrent(torrentId)`, given the outcome of its
`makeRequest('torrent-stop', ...)`. -/
def pauseTorrent (msgs : Messages) (rpc : Except Thrown RpcResult) : CallResult :=
  statusResult msgs rpc

/-- `TransmissionAPI.resumeTorrent(torrentId)`, given the outcome of its
`makeRequest('torrent-start', ...)`. -/
def resumeTorrent (msgs : Messages) (rpc : Except Thrown RpcResult) : CallResult :=
  statusResult msgs rpc

/-- One element of the list returned by `getTorrents` (the fields this development reads; the
transfer rates, peer counts and dates are copied next to them). -/
structure TorrentSummary where
  id : Int
  name : String
  progress : ℚ
  status : String
  downloadDir : String
  isFinished : Bool
deriving DecidableEq

/-- The object returned by `getTorrents`. -/
structure TorrentsResult where
  success : Bool
  error : Option String
  torrents : Option (List TorrentSummary)
deriving DecidableEq

/-- `TransmissionAPI.getTorrents()`, given the outcome of its `makeRequest('torrent-get', ...)`. -/
def getTorrents (msgs : Messages) (rpc : Except Thrown RpcResult) : TorrentsResult :=
  match rpc with
  | .error e => { success := false, error := some (e.message msgs), torrents := none }
  | .ok result =>
    if result.result = "success" then
      { success := true, error := none,
        torrents := some (result.torrents.map fun torrent =>
          { id := torrent.id, name := torrent.name, progress := torrent.percentDone,
            status := getStatusText torrent.status, downloadDir := torrent.downloadDir,
            isFinished := torrent.isFinished }) }
    else { success := false, error := some result.result, torrents := none }

/-- Library messages used in examples. -/
def sampleMessages : Messages :=
  { axios := fun e =>
      match e with
      | .response status _ => "Request failed with status code " ++ toString status
      | .noResponse code => code,
    typeError := "Cannot read properties of undefined (reading 'name')",
    notAFunction := "magnetLink.startsWith is not a function" }

/-! ## The add-magnet handler -/

/-- A value as it can stand in `req.body.magnetLink`: `object` covers arrays and objects. -/
inductive JsValue where
  | undefined
  | null
  | bool (b : Bool)
  | number (n : JsNum)
  | string (s : String)
  | object
deriving DecidableEq, Repr

/-- JavaScript truthiness. -/
def JsValue.truthy : JsValue → Bool
  | .undefined => false
  | .null => false
  | .bool b => b
  | .number .nan => false
  | .number (.int n) => decide (n ≠ 0)
  | .string s => decide (s ≠ "")
  | .object => true

/-- What the add-magnet handler did: the status of its answer, its error text (`none` on
success) and the magnet link handed to `transmissionAPI.addMagnet`, if that was called. -/
structure AddMagnetOutcome where
  status : Nat
  error : Option String
  daemonCall : Option String
deriving DecidableEq, Repr

/-- `router.post('/add-magnet')` of `api/torrents.js` and of `routes/torrents.js`, from the
extracted `magnetLink` on. `addMagnet link` is the object returned by
`transmissionAPI.addMagnet(link)`. A truthy `magnetLink` that is not a string has no
`startsWith` method: the call throws a `TypeError`, and the outer `catch` answers 500 with its
message. -/
def add_magnet (msgs : Messages) (magnetLink : JsValue) (addMagnet : String → CallResult) :
    AddMagnetOutcome :=
  if !magnetLink.truthy then
    { status := 400, error := some "Invalid magnet URL. Must start with \"magnet:\"",
      daemonCall := none }
  else
    match magnetLink with
    | .string link =>
      if !startsWith link "magnet:" then
        { status := 400, error := some "Invalid magnet URL. Must start with \"magnet:\"",
          daemonCall := none }
      else
        let result := addMagnet link
        if result.success then { status := 200, error := none, daemonCall := some link }
        else
          { status := 500,
            error := some (match result.error with
              | some e => if e ≠ "" then e else "Failed to add magnet link"
              | none => "Failed to add magnet link"),
            daemonCall := some link }
    | _ =>
      { status := 500,
        error := some (if msgs.notAFunction ≠ "" then msgs.notAFunction
                       else "Internal server error while adding magnet link"),
        daemonCall := none }

/-! ## File lists and the file tree -/

/-- `path.extname(path)` of Node (POSIX): in the last non-empty segment, the text from the last
dot on; empty when there is no dot, when the dot is the first character, and for `..`. -/
def extnameChars (path : List Char) : List Char :=
  match ((splitSlash path).filter (fun seg => seg ≠ [])).getLast? with
  | none => []
  | some base =>
    let tail := base.reverse.takeWhile (fun c => c ≠ '.')
    if tail.length = base.length then []
    else if tail.length + 1 = base.length then []
    else if base = ['.', '.'] then []
    else '.' :: tail.reverse

/-- `path.extname(name).toLowerCase()`; the lower-casing covers the letters `A` to `Z`. -/
def extensionOf (name : String) : String :=
  String.mk ((extnameChars name.toList).map Char.toLower)

/-- One element of `files` in the answer of `router.get('/:id')` (`api/files.js`). `progress` is
the exact quotient, which JavaScript rounds to the nearest double. -/
structure FileEntry where
  index : Nat
  name : String
  size : Nat
  bytesCompleted : Nat
  priority : Int
  wanted : Bool
  progress : ℚ
  extension : String
  relativePath : String
deriving DecidableEq

/-- The callback of `torrent.files.map` in `api/files.js`. -/
def fileEntry (index : Nat) (file : TorrentFile) : FileEntry :=
  { index := index,
    name := file.name,
    size := file.length,
    bytesCompleted := file.bytesCompleted,
    priority := file.priority,
    wanted := file.wanted,
    progress := if file.length > 0 then (file.bytesCompleted : ℚ) / (file.length : ℚ) else 0,
    extension := extensionOf file.name,
    relativePath := file.name }

/-- `torrent.files.map((file, index) => ...)` in `api/files.js`. -/
def fileEntries (torrent : Torrent) : List FileEntry :=
  torrent.files.enum.map (fun p => fileEntry p.1 p.2)

/-- One element of `files` in the answer of `router.get('/:id/files')` (`routes/torrents.js`). -/
structure RoutesFileEntry where
  index : Nat
  name : String
  size : Nat
  bytesCompleted : Nat
  priority : Int
  wanted : Bool
  progress : ℚ
deriving DecidableEq

/-- The callback of `torrent.files.map` in `routes/torrents.js`. -/
def routesFileEntry (index : Nat) (file : TorrentFile) : RoutesFileEntry :=
  { index := index,
    name := file.name,
    size := file.length,
    bytesCompleted := file.bytesCompleted,
    priority := file.priority,
    wanted := file.wanted,
    progress := if file.length > 0 then (file.bytesCompleted : ℚ) / (file.length : ℚ) else 0 }

/-- `torrent.files.map((file, index) => ...)` in `routes/torrents.js`. -/
def routesFileEntries (torrent : Torrent) : List RoutesFileEntry :=
  torrent.files.enum.map (fun p => routesFileEntry p.1 p.2)

/-- A node of `fileTree`: `{ type: 'file', ...file }` or `{ type: 'directory', children }`.
The `children` object is given by its own properties and, when a file named `__proto__` was
stored in it, by the file node that became its prototype. -/
inductive TreeNode where
  | file (entry : FileEntry)
  | directory (own : List (String × TreeNode)) (proto : Option FileEntry)

/-- The properties every plain object inherits from `Object.prototype`; all are truthy and none
has a `children` property. -/
def objectPrototypeKeys : List String :=
  ["constructor", "__defineGetter__", "__defineSetter__", "hasOwnProperty", "__lookupGetter__",
   "__lookupSetter__", "isPrototypeOf", "propertyIsEnumerable", "toString", "valueOf",
   "__proto__", "toLocaleString"]

/-- Truthiness of the property `key` of a file node (`none`: no such property). -/
def FileEntry.truthyField (e : FileEntry) (key : String) : Option Bool :=
  if key = "type" then some true
  else if key = "index" then some (decide (e.index ≠ 0))
  else if key = "name" then some (decide (e.name ≠ ""))
  else if key = "size" then some (decide (e.size ≠ 0))
  else if key = "bytesCompleted" then some (decide (e.bytesCompleted ≠ 0))
  else if key = "priority" then some (decide (e.priority ≠ 0))
  else if key = "wanted" then some e.wanted
  else if key = "progress" then some (decide (e.progress ≠ 0))
  else if key = "extension" then some (decide (e.extension ≠ ""))
  else if key = "relativePath" then some (decide (e.relativePath ≠ ""))
  else none

/-- Whether `current[part]` is truthy for a `part` that is not an own property of `current`:
the value comes from the prototype chain. -/
def inheritedTruthy (proto : Option FileEntry) (part : String) : Bool :=
  match proto with
  | some e =>
    match e.truthyField part with
    | some b => b
    | none => decide (part ∈ objectPrototypeKeys)
  | none => decide (part ∈ objectPrototypeKeys)

/-- The own property `key` of an object. -/
def getOwn : List (String × TreeNode) → String → Option TreeNode
  | [], _ => none
  | (k, v) :: rest, key => if k = key then some v else getOwn rest key

/-- `current[key] = value` for a key other than `__proto__`: the own property is replaced or
added. (The order of the properties carries no meaning here.) -/
def setOwn : List (String × TreeNode) → String → TreeNode → List (String × TreeNode)
  | [], key, value => [(key, value)]
  | (k, v) :: rest, key, value =>
    if k = key then (key, value) :: rest else (k, v) :: setOwn rest key value

/-- The callback of `pathParts.forEach` run over the remaining parts, for the file `file` and
the object `current` given by `own` and `proto`; `none` when a `TypeError` is thrown.
* Last part: `current[part] = { type: 'file', ...file }`; for the part `__proto__` this
  assignment replaces the prototype of `current` and adds no property.
* Other parts: when `current[part]` is falsy a directory node is stored there; then
  `current = current[part].children`, which is `undefined` unless `current[part]` is a directory
  node, and the next part then throws. -/
def insertFile (file : FileEntry) :
    List String → List (String × TreeNode) → Option FileEntry →
      Option (List (String × TreeNode) × Option FileEntry)
  | [], own, proto => some (own, proto)
  | [part], own, proto =>
    if part = "__proto__" then some (own, some file)
    else some (setOwn own part (.file file), proto)
  | part :: next :: rest, own, proto =>
    match getOwn own part with
    | some (.directory childOwn childProto) =>
      match insertFile file (next :: rest) childOwn childProto with
      | some (c, p) => some (setOwn own part (.directory c p), proto)
      | none => none
    | some (.file _) => none
    | none =>
      if inheritedTruthy proto part then none
      else
        match insertFile file (next :: rest) [] none with
        | some (c, p) => some (setOwn own part (.directory c p), proto)
        | none => none

/-- `file.relativePath.split('/')`. -/
def pathParts (file : FileEntry) : List String :=
  (splitChar '/' file.relativePath.toList).map String.mk

/-- The `files.forEach` loop that builds `fileTree` from `{}`; `none` when it throws. -/
def buildFileTree (files : List FileEntry) :
    Option (List (String × TreeNode) × Option FileEntry) :=
  files.foldl
    (fun acc file =>
      match acc with
      | some (own, proto) => insertFile file (pathParts file) own proto
      | none => none)
    (some ([], none))

/-- `current[part]` followed through the tree for reading: the node reached from the object
`own` along `parts` (entering `children` at every directory node), looking at own properties
only. -/
def followPath : List String → List (String × TreeNode) → Option TreeNode
  | [], _ => none
  | [part], own => getOwn own part
  | part :: next :: rest, own =>
    match getOwn own part with
    | some (.directory childOwn _) => followPath (next :: rest) childOwn
    | _ => none

/-- The body of the answer of `router.get('/:id')` (`api/files.js`). -/
structure FileListBody where
  torrentId : Int
  torrentName : String
  downloadDir : String
  isFinished : Bool
  totalProgress : ℚ
  totalFiles : Nat
  files : List FileEntry
  fileTree : List (String × TreeNode) × Option FileEntry

/-- The answer of `router.get('/:id')` (`api/files.js`): an error reply or the file list. The
handler does not touch the filesystem. -/
inductive FileListResponse where
  | error (status : Nat) (reason : Reason)
  | ok (body : FileListBody)

/-- `router.get('/:id')` of `api/files.js`. A `TypeError` while the tree is built is caught by
the outer `catch`, which answers 500. -/
def files_list (rpc : Except Thrown RpcResult) : FileListResponse :=
  match rpc with
  | .error _ => .error 500 .failed
  | .ok result =>
    if result.result ≠ "success" then .error 404 .torrentNotFound
    else
      match result.torrents with
      | [] => .error 404 .torrentNotFound
      | torrent :: _ =>
        match buildFileTree (fileEntries torrent) with
        | none => .error 500 .failed
        | some fileTree =>
          .ok { torrentId := torrent.id, torrentName := torrent.name,
                downloadDir := torrent.downloadDir, isFinished := torrent.isFinished,
                totalProgress := torrent.percentDone,
                totalFiles := (fileEntries torrent).length,
                files := fileEntries torrent, fileTree := fileTree }

/-- The body of the answer of `router.get('/:id/files')` (`routes/torrents.js`). -/
structure RoutesFileListBody where
  torrentId : Int
  torrentName : String
  isFinished : Bool
  totalProgress : ℚ
  files : List RoutesFileEntry
deriving DecidableEq

/-- The answer of `router.get('/:id/files')` (`routes/torrents.js`). -/
inductive RoutesFileListResponse where
  | error (status : Nat) (reason : Reason)
  | ok (body : RoutesFileListBody)
deriving DecidableEq

/-- `router.get('/:id/files')` of `routes/torrents.js`. The handler does not touch the
filesystem. -/
def routes_files (rpc : Except Thrown RpcResult) : RoutesFileListResponse :=
  match rpc with
  | .error _ => .error 500 .failed
  | .ok result =>
    if result.result ≠ "success" then .error 404 .torrentNotFound
    else
      match result.torrents with
      | [] => .error 404 .torrentNotFound
      | torrent :: _ =>
        .ok { torrentId := torrent.id, torrentName := torrent.name,
              isFinished := torrent.isFinished, totalProgress := torrent.percentDone,
              files := routesFileEntries torrent }

/-- A torrent `Src` holding a JavaScript source tree: one of its directories is named
`constructor`. -/
def sourceTreeTorrent : Torrent :=
  { id := 3, name := "Src", downloadDir := "/data", isFinished := true, percentDone := 1,
    status := 6,
    files := [{ name := "Src/readme.md", length := 10, bytesCompleted := 10 },
              { name := "Src/constructor/index.js", length := 20, bytesCompleted := 20 }] }

/-- A torrent `Show` with two files in one directory and one file in a sub-directory. -/
def seasonTorrent : Torrent :=
  { id := 4, name := "Show", downloadDir := "/data", isFinished := true, percentDone := 1,
    status := 6,
    files := [{ name := "Show/e1.mkv", length := 10, bytesCompleted := 10 },
              { name := "Show/e2.mkv", length := 20, bytesCompleted := 20 },
              { name := "Show/extras/cast.txt", length := 0, bytesCompleted := 0 }] }

/-- A torrent `Show` one of whose files is named `__proto__`. -/
def protoTorrent : Torrent :=
  { id := 5, name := "Show", downloadDir := "/data", isFinished := true, percentDone := 1,
    status := 6,
    files := [{ name := "Show/e1.mkv", length := 10, bytesCompleted := 10 },
              { name := "Show/__proto__", length := 20, bytesCompleted := 20 }] }

/-- The status code of the answer. -/
def FileListResponse.status : FileListResponse → Nat
  | .error status _ => status
  | .ok _ => 200

/-- The `index` carried by a file node. -/
def TreeNode.fileIndex : TreeNode → Option Nat
  | .file entry => some entry.index
  | .directory _ _ => none

/-! ## Handlers over the filesystem -/

/-- The fields of `fs.Stats` that the handlers read (`mtime` in milliseconds). -/
structure Stats where
  isDirectory : Bool
  size : Nat
  mtime : Int
deriving DecidableEq, Repr

/-- An `fs.Dirent` of `readdir(path, { withFileTypes: true })`. -/
structure Dirent where
  name : String
  isDirectory : Bool
  isFile : Bool
deriving DecidableEq, Repr

/-- The filesystem as the handlers use it. `stat` and `readdir` follow symbolic links, as the
system calls do (`none`: the call throws). `realpath` tells where a path leads once its symbolic
links are resolved; no handler calls it. -/
structure FileSystem where
  stat : String → Option Stats
  readdir : String → Option (List Dirent)
  realpath : String → String

/-- `torrent.name.replace(/[^a-zA-Z0-9.-\s]/g, '_')`: every character other than a letter
`a-z`, `A-Z`, a digit, `.`, `-` and white space becomes `_`. -/
def safeFileName (name : String) : String :=
  String.mk (name.toList.map fun c =>
    if ('a' ≤ c ∧ c ≤ 'z') ∨ ('A' ≤ c ∧ c ≤ 'Z') ∨ ('0' ≤ c ∧ c ≤ '9') ∨ c = '.' ∨ c = '-'
        ∨ isJsWhitespace c = true
    then c else '_')

/-- The name of the first torrent of the daemon's answer (`torrent.name`). -/
def reportedName (rpc : Except Thrown RpcResult) : String :=
  match rpc with
  | .ok result =>
    match result.torrents with
    | torrent :: _ => torrent.name
    | [] => ""
  | .error _ => ""

/-- The answer of an export handler.
* `early`: answered before the first filesystem access.
* `statFailed`: the answer written by the `catch` block that caught the failure of `fs.stat`.
* `archive path rootName`: `archive.directory(path, rootName)` is streamed.
* `file r`: a single file is streamed.
* `readRejected`: the answer written by the `catch` block that caught the error thrown by
  `createReadStream` on its `start`/`end` options. -/
inductive ExportResponse where
  | early (status : Nat) (reason : Reason)
  | statFailed (status : Nat) (error : String)
  | archive (path rootName : String)
  | file (r : FileResponse)
  | readRejected (status : Nat) (error : String)
deriving DecidableEq, Repr

/-- The status code of the answer. -/
def ExportResponse.status : ExportResponse → Nat
  | .early status _ => status
  | .statFailed status _ => status
  | .archive _ _ => 200
  | .file r => r.status
  | .readRejected status _ => status

/-- `router.get('/download/:id')` of `routes/torrents.js`. `fs.stat` is not inside a `try` of
its own: when it throws, the outer `catch` answers 500 `'Download failed'`; so it does when
`createReadStream` throws. -/
def routes_download_full (rpc : Except Thrown RpcResult) (fs : FileSystem)
    (range : Option String) : ExportResponse :=
  match routes_download rpc with
  | .reply status reason => .early status reason
  | .access torrentPath =>
    match fs.stat torrentPath with
    | none => .statFailed 500 "Download failed"
    | some stats =>
      if stats.isDirectory then .archive torrentPath (safeFileName (reportedName rpc))
      else
        match routes_download_answer stats.size range with
        | .streamed r => .file r
        | .rejected status error => .readRejected status error

/-- `router.get('/:id/speed-download')` of `routes/torrents.js`. When `fs.stat` throws, the
outer `catch` answers 500 `'Speed download failed'`. -/
def routes_speedDownload_full (rpc : Except Thrown RpcResult) (fs : FileSystem) :
    ExportResponse :=
  match routes_speedDownload rpc with
  | .reply status reason => .early status reason
  | .access torrentPath =>
    match fs.stat torrentPath with
    | none => .statFailed 500 "Speed download failed"
    | some stats =>
      if stats.isDirectory then .archive torrentPath (safeFileName (reportedName rpc))
      else .file (routes_speedDownload_file stats.size)

/-- `router.get('/download/:id')` of `api/torrents.js`. `fs.stat` is inside an inner `try`
whose `catch` answers 404 `'Downloaded files not found on server'`. -/
def api_download_full (rpc : Except Thrown RpcResult) (fs : FileSystem) : ExportResponse :=
  match api_download rpc with
  | .reply status reason => .early status reason
  | .access torrentPath =>
    match fs.stat torrentPath with
    | none => .statFailed 404 "Downloaded files not found on server"
    | some stats =>
      if stats.isDirectory then .archive torrentPath (safeFileName (reportedName rpc))
      else .file (api_download_file stats.size)

/-- `router.get('/:id/file/:fileIndex')` of `routes/torrents.js`. `fs.stat` and
`createReadStream` are inside an inner `try` whose `catch` answers 404
`'File not found on disk'`. -/
def routes_fileDownload_full (rpc : Except Thrown RpcResult) (fileIndex : Option Int)
    (fs : FileSystem) (range : Option String) : ExportResponse :=
  match routes_fileDownload rpc fileIndex with
  | .reply status reason => .early status reason
  | .access filePath =>
    match fs.stat filePath with
    | none => .statFailed 404 "File not found on disk"
    | some stats =>
      match routes_fileDownload_answer stats.size range with
      | .streamed r => .file r
      | .rejected status error => .readRejected status error

/-- The `type` of an entry of a directory listing. -/
inductive EntryType where
  | directory
  | file
deriving DecidableEq, Repr

/-- One element of `contents` in the answer of the browse handler (`extension = none`:
`null`). -/
structure BrowseEntry where
  name : String
  type : EntryType
  size : Nat
  modified : Int
  extension : Option String
  relativePath : String
deriving DecidableEq, Repr

/-- The answer of the browse handler.
* `early`: answered before the first filesystem access.
* `inaccessible`: the answer of the inner `catch` (404 `'Path not found or not accessible'`).
* `listing currentPath contents`: the listing of a directory.
* `fileInfo`: the description of a single file. -/
inductive BrowseResponse where
  | early (status : Nat) (reason : Reason)
  | inaccessible (status : Nat) (error : String)
  | listing (currentPath : String) (contents : List BrowseEntry)
  | fileInfo (currentPath name : String) (size : Nat) (modified : Int) (extension : String)
deriving DecidableEq, Repr

/-- `path.basename(path)`: the last non-empty segment. -/
def basename (path : String) : String :=
  match ((splitSlash path.toList).filter (fun seg => seg ≠ [])).getLast? with
  | none => ""
  | some base => String.mk base

/-- The callback of `entries.map` in the browse handler; `none` when `fs.stat(entryPath)`
throws. -/
def browseEntry (fs : FileSystem) (fullPath subPath : String) (entry : Dirent) :
    Option BrowseEntry :=
  match fs.stat (path_join fullPath entry.name) with
  | none => none
  | some entryStats =>
    some { name := entry.name,
           type := if entry.isDirectory then .directory else .file,
           size := entryStats.size,
           modified := entryStats.mtime,
           extension := if entry.isFile then some (extensionOf entry.name) else none,
           relativePath := path_join subPath entry.name }

/-- `Promise.all` over the entries: all results, or `none` as soon as one is missing. -/
def allEntries : List (Option BrowseEntry) → Option (List BrowseEntry)
  | [] => some []
  | none :: _ => none
  | some e :: rest =>
    match allEntries rest with
    | some es => some (e :: es)
    | none => none

/-- The comparator handed to `contents.sort`: directories first, then `localeCompare` of the
names. -/
def compareEntries (localeCompare : String → String → Int) (a b : BrowseEntry) : Int :=
  if a.type ≠ b.type then (if a.type = .directory then -1 else 1)
  else localeCompare a.name b.name

/-- `contents.sort(comparator)`. The sort of JavaScript is stable; for a consistent comparator
every stable sort gives the same array, here the one of insertion sort. -/
def sortContents (localeCompare : String → String → Int) (contents : List BrowseEntry) :
    List BrowseEntry :=
  contents.insertionSort (fun a b => compareEntries localeCompare a b ≤ 0)

/-- `router.get('/browse/:id/*')` of `api/files.js`. -/
def files_browse_full (cwd : String) (rpc : Except Thrown RpcResult) (subPath : String)
    (localeCompare : String → String → Int) (fs : FileSystem) : BrowseResponse :=
  match files_browse cwd rpc subPath with
  | .reply status reason => .early status reason
  | .access fullPath =>
    match fs.stat fullPath with
    | none => .inaccessible 404 "Path not found or not accessible"
    | some stats =>
      if stats.isDirectory then
        match fs.readdir fullPath with
        | none => .inaccessible 404 "Path not found or not accessible"
        | some entries =>
          match allEntries (entries.map (browseEntry fs fullPath subPath)) with
          | none => .inaccessible 404 "Path not found or not accessible"
          | some contents => .listing subPath (sortContents localeCompare contents)
      else
        .fileInfo subPath (basename fullPath) stats.size stats.mtime (extensionOf fullPath)

/-! ### Example filesystems -/

/-- A filesystem on which nothing exists. -/
def emptyFs : FileSystem :=
  { stat := fun _ => none, readdir := fun _ => none, realpath := fun p => p }

/-- A filesystem in which `/data/Show/link` is a symbolic link to `/etc`. -/
def symlinkFs : FileSystem :=
  { stat := fun p =>
      if p = "/data/Show" then some { isDirectory := true, size := 4096, mtime := 0 }
      else if p = "/data/Show/link" then some { isDirectory := true, size := 4096, mtime := 0 }
      else if p = "/data/Show/link/passwd" then
        some { isDirectory := false, size := 1200, mtime := 0 }
      else none,
    readdir := fun p =>
      if p = "/data/Show" then some [{ name := "link", isDirectory := false, isFile := false }]
      else if p = "/data/Show/link" then
        some [{ name := "passwd", isDirectory := false, isFile := true }]
      else none,
    realpath := fun p =>
      if p = "/data/Show/link" then "/etc"
      else if p = "/data/Show/link/passwd" then "/etc/passwd"
      else p }

/-- A filesystem in which `/data/Show` holds two files and two directories. -/
def seasonFs : FileSystem :=
  { stat := fun p =>
      if p = "/data/Show" then some { isDirectory := true, size := 4096, mtime := 0 }
      else if p = "/data/Show/extras" then some { isDirectory := true, size := 4096, mtime := 5 }
      else if p = "/data/Show/art" then some { isDirectory := true, size := 4096, mtime := 6 }
      else if p = "/data/Show/e2.mkv" then some { isDirectory := false, size := 20, mtime := 7 }
      else if p = "/data/Show/e1.mkv" then some { isDirectory := false, size := 10, mtime := 8 }
      else none,
    readdir := fun p =>
      if p = "/data/Show" then
        some [{ name := "e2.mkv", isDirectory := false, isFile := true },
              { name := "extras", isDirectory := true, isFile := false },
              { name := "e1.mkv", isDirectory := false, isFile := true },
              { name := "art", isDirectory := true, isFile := false }]
      else none,
    realpath := fun p => p }

/-- A comparison of names by their length, standing in for `localeCompare` in examples. -/
def lengthCompare (a b : String) : Int := (a.length : Int) - (b.length : Int)

/-! ## Theorems -/

/-! ### Session client -/

theorem handshake_error_eq {A D : Type} (daemon : Daemon A D) (hist : List (Request A))
    (api : TransmissionAPI) (e : Thrown) (h : (handshake daemon hist api).result = .error e) :
    e = .error "Failed to get session ID from Transmission" := by
  unfold handshake at h
  split at h
  · unfold getSessionId at h
    split at h
    · simp [Except.map] at h
    · split at h
      · simp [Except.map] at h
      · simp [Except.map] at h
        exact h.symm
  · simp at h

theorem handshake_sent_no_call {A D : Type} (daemon : Daemon A D) (hist : List (Request A))
    (api : TransmissionAPI) :
    (handshake daemon hist api).sent.filter Request.isCall = [] := by
  unfold handshake
  split
  · unfold getSessionId
    split
    · simp [probe, Request.isCall]
    · split <;> simp [probe, Request.isCall]
  · simp

theorem handshake_cached {A D : Type} (daemon : Daemon A D) (hist : List (Request A))
    (api : TransmissionAPI) (h : api.sessionId.truthy = true) :
    handshake daemon hist api = { result := .ok (), api := api, sent := [] } := by
  simp [handshake, h]

theorem rejection409_none_of_ne (e : AxiosError) (h : ∀ hd, e ≠ .response 409 hd) :
    rejection409 (.axios e) = none := by
  cases e with
  | response status hd =>
    by_cases hs : status = 409
    · subst hs; exact absurd rfl (h hd)
    · simp [rejection409, hs]
  | noResponse c => rfl

theorem makeRequestTry_handshake_error {A D : Type} (timeout : Nat) (method : String)
    (arguments_obj : A) (daemon : Daemon A D) (hist : List (Request A)) (api : TransmissionAPI)
    (e : Thrown) (h : (handshake daemon hist api).result = .error e) :
    makeRequestTry timeout method arguments_obj daemon hist api
      = { result := .error e, api := (handshake daemon hist api).api,
          sent := (handshake daemon hist api).sent } := by
  simp [makeRequestTry, h]

theorem makeRequestTry_first_ok {A D : Type} (timeout : Nat) (method : String)
    (arguments_obj : A) (daemon : Daemon A D) (hist : List (Request A)) (api : TransmissionAPI)
    (d : D) (h : (handshake daemon hist api).result = .ok ())
    (hfirst : daemon (hist ++ (handshake daemon hist api).sent)
        (callRequest timeout method arguments_obj (handshake daemon hist api).api.sessionId)
        = .ok d) :
    makeRequestTry timeout method arguments_obj daemon hist api
      = { result := .ok d, api := (handshake daemon hist api).api,
          sent := (handshake daemon hist api).sent
            ++ [callRequest timeout method arguments_obj
                  (handshake daemon hist api).api.sessionId] } := by
  simp [makeRequestTry, h, hfirst]

theorem makeRequestTry_first_error {A D : Type} (timeout : Nat) (method : String)
    (arguments_obj : A) (daemon : Daemon A D) (hist : List (Request A)) (api : TransmissionAPI)
    (e : AxiosError) (h : (handshake daemon hist api).result = .ok ())
    (hfirst : daemon (hist ++ (handshake daemon hist api).sent)
        (callRequest timeout method arguments_obj (handshake daemon hist api).api.sessionId)
        = .error e) :
    makeRequestTry timeout method arguments_obj daemon hist api
      = { result := .error (.axios e), api := (handshake daemon hist api).api,
          sent := (handshake daemon hist api).sent
            ++ [callRequest timeout method arguments_obj
                  (handshake daemon hist api).api.sessionId] } := by
  simp [makeRequestTry, h, hfirst]

theorem isCall_callRequest {A : Type} (timeout : Nat) (method : String)
    (arguments_obj : A) (c : Cred) :
    (callRequest timeout method arguments_obj c).isCall = true := rfl

theorem filter_isCall_callRequest {A : Type} (timeout : Nat) (method : String)
    (arguments_obj : A) (c : Cred) (l : List (Request A)) :
    List.filter Request.isCall (callRequest timeout method arguments_obj c :: l)
      = callRequest timeout method arguments_obj c :: List.filter Request.isCall l := by
  simp [callRequest, Request.isCall]

/-- C1: a first send rejected with 409 carrying `s`, whose retry with `s` is answered with body
`d`, makes `makeRequest` send exactly one further request (same method, arguments, header `s`),
return `d` and cache `s`. -/
theorem makeRequest_retries_once_with_new_credential {A D : Type} (timeout : Nat)
    (method : String) (arguments_obj : A) (daemon : Daemon A D) (hist : List (Request A))
    (api : TransmissionAPI) (s : String) (d : D)
    (hhs : (handshake daemon hist api).result = .ok ())
    (hfirst : daemon (hist ++ (handshake daemon hist api).sent)
        (callRequest timeout method arguments_obj (handshake daemon hist api).api.sessionId)
        = .error (.response 409 (some s)))
    (hretry : daemon (hist ++ (handshake daemon hist api).sent
        ++ [callRequest timeout method arguments_obj (handshake daemon hist api).api.sessionId])
        (callRequest timeout method arguments_obj (.str s)) = .ok d) :
    (makeRequest timeout method arguments_obj daemon hist api).result = .ok d
    ∧ (makeRequest timeout method arguments_obj daemon hist api).api.sessionId = .str s
    ∧ (makeRequest timeout method arguments_obj daemon hist api).sent
        = (handshake daemon hist api).sent
          ++ [callRequest timeout method arguments_obj (handshake daemon hist api).api.sessionId,
              callRequest timeout method arguments_obj (.str s)] := by
  rw [List.append_assoc] at hretry
  simp [makeRequest, makeRequestTry_first_error _ _ _ _ _ _ _ hhs hfirst, rejection409,
    headerCred, hretry]

/-- Witness for C1: a client holding the stale credential `"old"` against `strictDaemon`. -/
theorem makeRequest_retries_once_with_new_credential_witness :
    (makeRequest 15000 "torrent-get" 7 strictDaemon [] { sessionId := .str "old" }).result
        = .ok "done"
    ∧ (makeRequest 15000 "torrent-get" 7 strictDaemon [] { sessionId := .str "old" }).api.sessionId
        = .str "s1"
    ∧ (makeRequest 15000 "torrent-get" 7 strictDaemon [] { sessionId := .str "old" }).sent
        = [callRequest 15000 "torrent-get" 7 (.str "old"),
           callRequest 15000 "torrent-get" 7 (.str "s1")] :=
  makeRequest_retries_once_with_new_credential 15000 "torrent-get" 7 strictDaemon []
    { sessionId := .str "old" } "s1" "done" rfl rfl rfl

/-- C2: whatever the daemon does, `makeRequest` sends the call at most twice; and when the first
send and the retry are both answered with 409, it throws the second rejection (one error) after
exactly two sends of the call. -/
theorem makeRequest_second_rejection_fatal {A D : Type} (timeout : Nat)
    (method : String) (arguments_obj : A) (daemon : Daemon A D) (hist : List (Request A))
    (api : TransmissionAPI) :
    ((makeRequest timeout method arguments_obj daemon hist api).sent.filter Request.isCall).length
        ≤ 2
    ∧ ∀ h1 h2 : Option String,
      (handshake daemon hist api).result = .ok () →
      daemon (hist ++ (handshake daemon hist api).sent)
        (callRequest timeout method arguments_obj (handshake daemon hist api).api.sessionId)
        = .error (.response 409 h1) →
      daemon (hist ++ (handshake daemon hist api).sent
        ++ [callRequest timeout method arguments_obj (handshake daemon hist api).api.sessionId])
        (callRequest timeout method arguments_obj (headerCred h1)) = .error (.response 409 h2) →
      (makeRequest timeout method arguments_obj daemon hist api).result
          = .error (.axios (.response 409 h2))
      ∧ (makeRequest timeout method arguments_obj daemon hist api).sent
          = (handshake daemon hist api).sent
            ++ [callRequest timeout method arguments_obj (handshake daemon hist api).api.sessionId,
                callRequest timeout method arguments_obj (headerCred h1)]
      ∧ ((makeRequest timeout method arguments_obj daemon hist api).sent.filter
            Request.isCall).length = 2 := by
  have hf := handshake_sent_no_call daemon hist api
  constructor
  · cases hr : (handshake daemon hist api).result with
    | error e =>
      have he := handshake_error_eq daemon hist api e hr
      subst he
      simp [makeRequest, makeRequestTry_handshake_error _ _ _ _ _ _ _ hr, rejection409, hf]
    | ok u =>
      cases u
      cases h1 : daemon (hist ++ (handshake daemon hist api).sent)
          (callRequest timeout method arguments_obj (handshake daemon hist api).api.sessionId) with
      | ok data =>
        simp [makeRequest, makeRequestTry_first_ok _ _ _ _ _ _ _ hr h1, List.filter_append, hf,
          filter_isCall_callRequest]
      | error e =>
        simp only [makeRequest, makeRequestTry_first_error _ _ _ _ _ _ _ hr h1]
        cases hrej : rejection409 (.axios e) with
        | none => simp [List.filter_append, hf, filter_isCall_callRequest]
        | some hd =>
          simp only []
          split <;> simp [List.filter_append, hf, filter_isCall_callRequest]
  · intro h1 h2 hhs hfirst hretry
    rw [List.append_assoc] at hretry
    simp [makeRequest, makeRequestTry_first_error _ _ _ _ _ _ _ hhs hfirst, rejection409, hretry,
      List.filter_append, hf, filter_isCall_callRequest]

/-- Witness for C2: a fresh client against a daemon that rejects everything. -/
theorem makeRequest_second_rejection_fatal_witness :
    (makeRequest 15000 "torrent-get" 7 rejectingDaemon [] TransmissionAPI.new).result
        = .error (.axios (.response 409 (some "s1")))
    ∧ (makeRequest 15000 "torrent-get" 7 rejectingDaemon [] TransmissionAPI.new).sent
        = [probe, callRequest 15000 "torrent-get" 7 (.str "s1"),
           callRequest 15000 "torrent-get" 7 (.str "s1")]
    ∧ ((makeRequest 15000 "torrent-get" 7 rejectingDaemon [] TransmissionAPI.new).sent.filter
          Request.isCall).length = 2 :=
  (makeRequest_second_rejection_fatal 15000 "torrent-get" 7 rejectingDaemon []
    TransmissionAPI.new).2 (some "s1") (some "s1") rfl rfl rfl


/-- C3, as stated, fails: a client without a cached credential calls a daemon that completes
the handshake with the credential `"s1"` and then times out on the call. `makeRequest` fails
with the timeout error and sends the call once, but the cached `sessionId`, `null` at entry, is
`"s1"` afterwards. -/
theorem makeRequest_failure_after_handshake_keeps_new_credential :
    (TransmissionAPI.new).sessionId = .null
    ∧ stallingDaemon [probe] (callRequest 15000 "torrent-get" 7 (.str "s1"))
        = .error (.noResponse "ECONNABORTED")
    ∧ (makeRequest 15000 "torrent-get" 7 stallingDaemon [] TransmissionAPI.new).result
        = .error (.axios (.noResponse "ECONNABORTED"))
    ∧ (makeRequest 15000 "torrent-get" 7 stallingDaemon [] TransmissionAPI.new).sent
        = [probe, callRequest 15000 "torrent-get" 7 (.str "s1")]
    ∧ (makeRequest 15000 "torrent-get" 7 stallingDaemon [] TransmissionAPI.new).api.sessionId
        = .str "s1"
    ∧ (makeRequest 15000 "torrent-get" 7 stallingDaemon [] TransmissionAPI.new).api.sessionId
        ≠ (TransmissionAPI.new).sessionId := by
  refine ⟨rfl, rfl, rfl, rfl, rfl, ?_⟩
  decide

/-- C3 (amended): when the first send of the call fails with anything other than a 409
response, `makeRequest` throws that very error, sends nothing after the failed send, and the
cached `sessionId` is the one that was attached to the failed send: the value at entry whenever
a credential was cached at entry, and otherwise the credential stored by the handshake that
preceded the send (the header of the 409 answer to the probe). -/
theorem makeRequest_other_failure_propagates {A D : Type} (timeout : Nat)
    (method : String) (arguments_obj : A) (daemon : Daemon A D) (hist : List (Request A))
    (api : TransmissionAPI) (e : AxiosError)
    (hhs : (handshake daemon hist api).result = .ok ())
    (hfirst : daemon (hist ++ (handshake daemon hist api).sent)
        (callRequest timeout method arguments_obj (handshake daemon hist api).api.sessionId)
        = .error e)
    (hne : ∀ hd : Option String, e ≠ .response 409 hd) :
    (makeRequest timeout method arguments_obj daemon hist api).result = .error (.axios e)
    ∧ (makeRequest timeout method arguments_obj daemon hist api).sent
        = (handshake daemon hist api).sent
          ++ [callRequest timeout method arguments_obj (handshake daemon hist api).api.sessionId]
    ∧ ((makeRequest timeout method arguments_obj daemon hist api).sent.filter
          Request.isCall).length = 1
    ∧ (makeRequest timeout method arguments_obj daemon hist api).api.sessionId
        = (handshake daemon hist api).api.sessionId
    ∧ (api.sessionId.truthy = true →
        (makeRequest timeout method arguments_obj daemon hist api).api = api)
    ∧ (api.sessionId.truthy = false → ∀ hd : Option String,
        daemon hist probe = .error (.response 409 hd) →
        (makeRequest timeout method arguments_obj daemon hist api).api.sessionId
          = headerCred hd) := by
  have hf := handshake_sent_no_call daemon hist api
  have hrej := rejection409_none_of_ne e hne
  refine ⟨?_, ?_, ?_, ?_, ?_, ?_⟩
  · simp [makeRequest, makeRequestTry_first_error _ _ _ _ _ _ _ hhs hfirst, hrej]
  · simp [makeRequest, makeRequestTry_first_error _ _ _ _ _ _ _ hhs hfirst, hrej]
  · simp [makeRequest, makeRequestTry_first_error _ _ _ _ _ _ _ hhs hfirst, hrej,
      List.filter_append, hf, filter_isCall_callRequest]
  · simp [makeRequest, makeRequestTry_first_error _ _ _ _ _ _ _ hhs hfirst, hrej]
  · intro hc
    simp [makeRequest, makeRequestTry_first_error _ _ _ _ _ _ _ hhs hfirst, hrej,
      handshake_cached daemon hist api hc]
  · intro hc hd hprobe
    simp [makeRequest, makeRequestTry_first_error _ _ _ _ _ _ _ hhs hfirst, hrej]
    simp [handshake, hc, getSessionId, hprobe, rejection409]

/-- Witness for C3 (amended): the call of a client with the cached credential `"s1"` is refused
by an unreachable daemon. -/
theorem makeRequest_other_failure_propagates_witness :
    (makeRequest 15000 "torrent-get" 7 deadDaemon [] { sessionId := .str "s1" }).result
        = .error (.axios (.noResponse "ECONNREFUSED"))
    ∧ (makeRequest 15000 "torrent-get" 7 deadDaemon [] { sessionId := .str "s1" }).sent
        = [callRequest 15000 "torrent-get" 7 (.str "s1")]
    ∧ ((makeRequest 15000 "torrent-get" 7 deadDaemon [] { sessionId := .str "s1" }).sent.filter
          Request.isCall).length = 1
    ∧ (makeRequest 15000 "torrent-get" 7 deadDaemon [] { sessionId := .str "s1" }).api.sessionId
        = .str "s1"
    ∧ (makeRequest 15000 "torrent-get" 7 deadDaemon [] { sessionId := .str "s1" }).api
        = { sessionId := .str "s1" } :=
  have h := makeRequest_other_failure_propagates 15000 "torrent-get" 7 deadDaemon []
    { sessionId := .str "s1" } (.noResponse "ECONNREFUSED") rfl rfl (by intro hd h; cases h)
  ⟨h.1, h.2.1, h.2.2.1, h.2.2.2.1, h.2.2.2.2.1 (by decide)⟩

/-- C4: with no credential cached, a handshake probe that fails with anything other than a 409
response makes `getSessionId` and `makeRequest` throw
`Error('Failed to get session ID from Transmission')`, which is no axios rejection (so not the
409 rejection thrown after a second credential rejection); only the probe is sent and the state
is untouched, so `sessionId` stays absent. -/
theorem makeRequest_handshake_unreachable {A D : Type} (timeout : Nat)
    (method : String) (arguments_obj : A) (daemon : Daemon A D) (hist : List (Request A))
    (api : TransmissionAPI) (e : AxiosError)
    (habsent : api.sessionId.truthy = false)
    (hprobe : daemon hist probe = .error e)
    (hne : ∀ hd : Option String, e ≠ .response 409 hd) :
    (getSessionId daemon hist api).result
        = .error (.error "Failed to get session ID from Transmission")
    ∧ (makeRequest timeout method arguments_obj daemon hist api).result
        = .error (.error "Failed to get session ID from Transmission")
    ∧ (∀ e2 : AxiosError,
        Thrown.error "Failed to get session ID from Transmission" ≠ Thrown.axios e2)
    ∧ (makeRequest timeout method arguments_obj daemon hist api).sent = [probe]
    ∧ (makeRequest timeout method arguments_obj daemon hist api).sent.filter Request.isCall = []
    ∧ (makeRequest timeout method arguments_obj daemon hist api).api = api
    ∧ (makeRequest timeout method arguments_obj daemon hist api).api.sessionId.truthy = false := by
  have hrej := rejection409_none_of_ne e hne
  have hg : getSessionId daemon hist api
      = { result := .error (.error "Failed to get session ID from Transmission"),
          api := api, sent := [probe] } := by
    simp [getSessionId, hprobe, hrej]
  have hh : handshake daemon hist api
      = { result := .error (.error "Failed to get session ID from Transmission"),
          api := api, sent := [probe] } := by
    simp [handshake, habsent, hg, Except.map]
  have hr : (handshake daemon hist api).result
      = .error (.error "Failed to get session ID from Transmission") := by rw [hh]
  have hm : makeRequest timeout method arguments_obj daemon hist api
      = { result := .error (.error "Failed to get session ID from Transmission"),
          api := api, sent := [probe] } := by
    simp [makeRequest, makeRequestTry_handshake_error _ _ _ _ _ _ _ hr, rejection409, hh]
  refine ⟨by rw [hg], by rw [hm], ?_, by rw [hm], ?_, by rw [hm], ?_⟩
  · intro e2 h; cases h
  · rw [hm]; simp [probe, Request.isCall]
  · rw [hm]; exact habsent

/-- Witness for C4: a fresh client and an unreachable daemon. -/
theorem makeRequest_handshake_unreachable_witness :
    (getSessionId deadDaemon [] TransmissionAPI.new).result
        = .error (.error "Failed to get session ID from Transmission")
    ∧ (makeRequest 15000 "torrent-get" 7 deadDaemon [] TransmissionAPI.new).result
        = .error (.error "Failed to get session ID from Transmission")
    ∧ (∀ e2 : AxiosError,
        Thrown.error "Failed to get session ID from Transmission" ≠ Thrown.axios e2)
    ∧ (makeRequest 15000 "torrent-get" 7 deadDaemon [] TransmissionAPI.new).sent = [probe]
    ∧ (makeRequest 15000 "torrent-get" 7 deadDaemon [] TransmissionAPI.new).sent.filter
        Request.isCall = []
    ∧ (makeRequest 15000 "torrent-get" 7 deadDaemon [] TransmissionAPI.new).api
        = TransmissionAPI.new
    ∧ (makeRequest 15000 "torrent-get" 7 deadDaemon [] TransmissionAPI.new).api.sessionId.truthy
        = false :=
  makeRequest_handshake_unreachable 15000 "torrent-get" 7 deadDaemon [] TransmissionAPI.new
    (.noResponse "ECONNREFUSED") rfl rfl (by intro hd h; cases h)

/-- C5, as stated, fails for the empty credential: after a probe rejected with the credential
`""` the cache holds `""`, and the next `makeRequest`, started with that cached value, sends a
handshake probe first. -/
theorem makeRequest_empty_credential_probes_again :
    (getSessionId emptyCredDaemon [] TransmissionAPI.new).api.sessionId = .str ""
    ∧ (makeRequest 15000 "torrent-get" 7 emptyCredDaemon [probe] { sessionId := .str "" }).sent
        = [probe, callRequest 15000 "torrent-get" 7 (.str "")] := by
  constructor <;> rfl

/-- C5 (amended): the credential is absent on a fresh client; a probe rejected with 409 carrying
`s` makes the cache hold `s`; a `makeRequest` started with a cached non-empty credential `s`
sends no probe and sends the call first, with header `s`; and a call answered on that first send
leaves the cached credential as it is (in general: a call answered on its first send leaves the
credential that was attached to it). -/
theorem credential_cached_and_attached {A D : Type} (timeout : Nat)
    (method : String) (arguments_obj : A) (daemon : Daemon A D) (hist : List (Request A))
    (api : TransmissionAPI) (s : String) :
    TransmissionAPI.new.sessionId = .null
    ∧ TransmissionAPI.new.sessionId.truthy = false
    ∧ (daemon hist probe = .error (.response 409 (some s)) →
        (getSessionId daemon hist api).api.sessionId = .str s
        ∧ (handshake daemon hist TransmissionAPI.new).api.sessionId = .str s)
    ∧ (api.sessionId = .str s → s ≠ "" →
        (makeRequest timeout method arguments_obj daemon hist api).sent.filter
            (fun r => !r.isCall) = []
        ∧ (makeRequest timeout method arguments_obj daemon hist api).sent.head?
            = some (callRequest timeout method arguments_obj (.str s))
        ∧ ∀ d : D, daemon hist (callRequest timeout method arguments_obj (.str s)) = .ok d →
            (makeRequest timeout method arguments_obj daemon hist api).result = .ok d
            ∧ (makeRequest timeout method arguments_obj daemon hist api).api.sessionId = .str s
            ∧ (makeRequest timeout method arguments_obj daemon hist api).sent
                = [callRequest timeout method arguments_obj (.str s)])
    ∧ (∀ d : D, (handshake daemon hist api).result = .ok () →
        daemon (hist ++ (handshake daemon hist api).sent)
          (callRequest timeout method arguments_obj (handshake daemon hist api).api.sessionId)
          = .ok d →
        (makeRequest timeout method arguments_obj daemon hist api).result = .ok d
        ∧ (makeRequest timeout method arguments_obj daemon hist api).api
            = (handshake daemon hist api).api) := by
  refine ⟨rfl, rfl, ?_, ?_, ?_⟩
  rotate_left 2
  · intro d hr h1
    simp [makeRequest, makeRequestTry_first_ok _ _ _ _ _ _ _ hr h1]
  · intro hp
    constructor
    · simp [getSessionId, hp, rejection409, headerCred]
    · simp [handshake, TransmissionAPI.new, Cred.truthy, getSessionId, hp, rejection409,
        headerCred]
  · intro hs hne
    have hc : api.sessionId.truthy = true := by simp [hs, Cred.truthy, hne]
    have hh := handshake_cached daemon hist api hc
    have hr : (handshake daemon hist api).result = .ok () := by rw [hh]
    have hsent : (handshake daemon hist api).sent = [] := by rw [hh]
    have hapi : (handshake daemon hist api).api.sessionId = .str s := by rw [hh]; exact hs
    cases h1 : daemon (hist ++ (handshake daemon hist api).sent)
        (callRequest timeout method arguments_obj (handshake daemon hist api).api.sessionId) with
    | ok data =>
      have hm := makeRequestTry_first_ok _ _ _ _ _ _ _ hr h1
      rw [hsent, hapi, List.append_nil] at h1
      simp [makeRequest, hm, hsent, hapi, isCall_callRequest, h1]
    | error e =>
      have hm := makeRequestTry_first_error _ _ _ _ _ _ _ hr h1
      rw [hsent, hapi, List.append_nil] at h1
      simp only [makeRequest, hm, hsent, hapi, h1]
      cases hrej : rejection409 (.axios e) with
      | none => simp [isCall_callRequest]
      | some hd =>
        simp only []
        split <;> simp [isCall_callRequest]

/-- Witness for C5 (amended): the handshake against `strictDaemon`, then a call with the cached
credential `"s1"`. -/
theorem credential_cached_and_attached_witness :
    (getSessionId strictDaemon [] TransmissionAPI.new).api.sessionId = .str "s1"
    ∧ (makeRequest 15000 "torrent-get" 7 strictDaemon [probe] { sessionId := .str "s1" }).sent
        = [callRequest 15000 "torrent-get" 7 (.str "s1")]
    ∧ (makeRequest 15000 "torrent-get" 7 strictDaemon [probe]
          { sessionId := .str "s1" }).api.sessionId = .str "s1" :=
  have h := credential_cached_and_attached 15000 "torrent-get" 7 strictDaemon [probe]
    { sessionId := .str "s1" } "s1"
  have h2 := (h.2.2.2.1 rfl (by decide)).2.2 "done" rfl
  ⟨(credential_cached_and_attached 15000 "torrent-get" 7 strictDaemon []
      TransmissionAPI.new "s1").2.2.1 rfl |>.1, h2.2.2, h2.2.1⟩

/-- C6: `getStatusText` is total on the integers, maps 0..6 to the seven status names and every
other integer to `'unknown'`, and so never leaves the eight strings. -/
theorem getStatusText_total (c : Int) :
    getStatusText 0 = "stopped" ∧ getStatusText 1 = "check-wait" ∧ getStatusText 2 = "checking"
    ∧ getStatusText 3 = "download-wait" ∧ getStatusText 4 = "downloading"
    ∧ getStatusText 5 = "seed-wait" ∧ getStatusText 6 = "seeding"
    ∧ getStatusText c
        = (if c = 0 then "stopped" else if c = 1 then "check-wait" else if c = 2 then "checking"
           else if c = 3 then "download-wait" else if c = 4 then "downloading"
           else if c = 5 then "seed-wait" else if c = 6 then "seeding" else "unknown")
    ∧ getStatusText c ∈ ["stopped", "check-wait", "checking", "download-wait", "downloading",
        "seed-wait", "seeding", "unknown"] := by
  have hc : getStatusText c
        = (if c = 0 then "stopped" else if c = 1 then "check-wait" else if c = 2 then "checking"
           else if c = 3 then "download-wait" else if c = 4 then "downloading"
           else if c = 5 then "seed-wait" else if c = 6 then "seeding" else "unknown") := by
    unfold getStatusText statusMap
    simp only [List.lookup]
    by_cases h0 : c = 0
    · subst h0; rfl
    by_cases h1 : c = 1
    · subst h1; rfl
    by_cases h2 : c = 2
    · subst h2; rfl
    by_cases h3 : c = 3
    · subst h3; rfl
    by_cases h4 : c = 4
    · subst h4; rfl
    by_cases h5 : c = 5
    · subst h5; rfl
    by_cases h6 : c = 6
    · subst h6; rfl
    have b0 : (c == 0) = false := by simpa using h0
    have b1 : (c == 1) = false := by simpa using h1
    have b2 : (c == 2) = false := by simpa using h2
    have b3 : (c == 3) = false := by simpa using h3
    have b4 : (c == 4) = false := by simpa using h4
    have b5 : (c == 5) = false := by simpa using h5
    have b6 : (c == 6) = false := by simpa using h6
    simp [b0, b1, b2, b3, b4, b5, b6, h0, h1, h2, h3, h4, h5, h6]
  refine ⟨rfl, rfl, rfl, rfl, rfl, rfl, rfl, hc, ?_⟩
  rw [hc]
  split_ifs <;> simp


/-! ### Sandbox guard -/

/-- C7: the browse guard answers 403 for the traversal `../../etc/passwd` out of `Show` (content
root `/data/Show`, read either as the download directory or as the torrent directory), but the
sub-path `../Show2/secret.txt`, which leaves the torrent directory `/data/Show` through `..`, is
not rejected: the handler goes on to `fs.stat('/data/Show2/secret.txt')`. -/
theorem browse_traversal_into_sibling_not_denied :
    files_browse "/srv/app" (found (showTorrent "/data/Show")) "../../etc/passwd"
        = .reply 403 .accessDenied
    ∧ files_browse "/srv/app" (found (showTorrent "/data")) "../../etc/passwd"
        = .reply 403 .accessDenied
    ∧ path_resolve "/srv/app" (path_join "/data" "Show") = "/data/Show"
    ∧ files_browse "/srv/app" (found (showTorrent "/data")) "../Show2/secret.txt"
        = .access "/data/Show2/secret.txt" := by
  refine ⟨?_, ?_, ?_, ?_⟩ <;> rfl

/-- C8: the browse guard accepts the target `/data/Showcase`, which is neither the root
`/data/Show` nor begins with `/data/Show/`: the test is a bare string prefix. -/
theorem browseGuard_accepts_sibling_name :
    path_resolve "/srv/app" (path_join "/data" "Show") = "/data/Show"
    ∧ path_resolve "/srv/app" (path_join (path_join "/data" "Show") "../Showcase")
        = "/data/Showcase"
    ∧ ("/data/Showcase" ≠ "/data/Show" ∧ startsWith "/data/Showcase" "/data/Show/" = false)
    ∧ browseGuard "/srv/app" "/data" "Show" "../Showcase" = true
    ∧ files_browse "/srv/app" (found (showTorrent "/data")) "../Showcase"
        = .access "/data/Showcase" := by
  refine ⟨?_, ?_, ⟨?_, ?_⟩, ?_, ?_⟩ <;> first | rfl | decide

/-- C9: no export handler checks the path it builds from the daemon's names. For a torrent
reported with name `../../etc` and file name `../../etc/passwd` under `/mnt/ninjaseeds`, the
three handlers of `routes/torrents.js` and the one of `api/torrents.js` hand `/etc`, resp.
`/etc/passwd`, to `fs.stat`; neither lies under `/mnt/ninjaseeds`. -/
theorem export_handlers_follow_climbing_names :
    routes_download (found climbingTorrent) = .access "/etc"
    ∧ api_download (found climbingTorrent) = .access "/etc"
    ∧ routes_speedDownload (found climbingTorrent) = .access "/etc"
    ∧ routes_fileDownload (found climbingTorrent) (some 0) = .access "/etc/passwd"
    ∧ startsWith "/etc" "/mnt/ninjaseeds" = false
    ∧ startsWith "/etc/passwd" "/mnt/ninjaseeds" = false := by
  refine ⟨?_, ?_, ?_, ?_, ?_, ?_⟩ <;> rfl

/-! ### Completion gate -/

theorem routes_download_cons (t : Torrent) (rest : List Torrent) :
    routes_download (.ok { result := "success", torrents := t :: rest })
      = if completionGate t then .reply 400 .notComplete
        else .access (path_join t.downloadDir t.name) := by
  simp [routes_download]

theorem api_download_cons (t : Torrent) (rest : List Torrent) :
    api_download (.ok { result := "success", torrents := t :: rest })
      = if completionGate t then .reply 400 .notComplete
        else .access (path_join t.downloadDir t.name) := by
  simp [api_download]

/-- C10: for every reported torrent, both `download/:id` handlers answer 400 (not complete)
exactly when `isFinished` is false and `percentDone < 0.90`; otherwise they go on to the file.
A torrent at 0.5, not finished, is rejected; at exactly 0.90, or finished at any fraction, it
passes. -/
theorem download_gate_iff (t : Torrent) (rest : List Torrent) (p : ℚ) :
    (routes_download (.ok { result := "success", torrents := t :: rest })
        = .reply 400 .notComplete ↔ (t.isFinished = false ∧ t.percentDone < 9 / 10))
    ∧ (api_download (.ok { result := "success", torrents := t :: rest })
        = .reply 400 .notComplete ↔ (t.isFinished = false ∧ t.percentDone < 9 / 10))
    ∧ (routes_download (.ok { result := "success", torrents := t :: rest })
          ≠ .reply 400 .notComplete ↔
        routes_download (.ok { result := "success", torrents := t :: rest })
          = .access (path_join t.downloadDir t.name))
    ∧ (api_download (.ok { result := "success", torrents := t :: rest })
          ≠ .reply 400 .notComplete ↔
        api_download (.ok { result := "success", torrents := t :: rest })
          = .access (path_join t.downloadDir t.name))
    ∧ routes_download (found (showAt false (1 / 2))) = .reply 400 .notComplete
    ∧ api_download (found (showAt false (1 / 2))) = .reply 400 .notComplete
    ∧ routes_download (found (showAt false (9 / 10))) = .access "/data/Show"
    ∧ api_download (found (showAt false (9 / 10))) = .access "/data/Show"
    ∧ routes_download (found (showAt true p)) = .access "/data/Show"
    ∧ api_download (found (showAt true p)) = .access "/data/Show" := by
  have hj : path_join "/data" "Show" = "/data/Show" := by rfl
  refine ⟨?_, ?_, ?_, ?_, ?_, ?_, ?_, ?_, ?_, ?_⟩
  · by_cases hg : completionGate t = true
    · have := hg
      simp only [completionGate, Bool.and_eq_true, Bool.not_eq_true', decide_eq_true_eq] at this
      simp [routes_download, hg, this]
    · have hg2 := hg
      simp only [completionGate, Bool.and_eq_true, Bool.not_eq_true', decide_eq_true_eq] at hg2
      simp [routes_download, hg, hg2]
  · by_cases hg : completionGate t = true
    · have := hg
      simp only [completionGate, Bool.and_eq_true, Bool.not_eq_true', decide_eq_true_eq] at this
      simp [api_download, hg, this]
    · have hg2 := hg
      simp only [completionGate, Bool.and_eq_true, Bool.not_eq_true', decide_eq_true_eq] at hg2
      simp [api_download, hg, hg2]
  · by_cases hg : completionGate t = true <;> simp [routes_download, hg]
  · by_cases hg : completionGate t = true <;> simp [api_download, hg]
  · have hg : completionGate (showAt false (1 / 2)) = true := by
      simp [completionGate, showAt]; norm_num
    rw [found, routes_download_cons, if_pos hg]
  · have hg : completionGate (showAt false (1 / 2)) = true := by
      simp [completionGate, showAt]; norm_num
    rw [found, api_download_cons, if_pos hg]
  · have hg : ¬ completionGate (showAt false (9 / 10)) = true := by
      simp [completionGate, showAt]
    rw [found, routes_download_cons, if_neg hg]
    exact congrArg Guarded.access hj
  · have hg : ¬ completionGate (showAt false (9 / 10)) = true := by
      simp [completionGate, showAt]
    rw [found, api_download_cons, if_neg hg]
    exact congrArg Guarded.access hj
  · have hg : ¬ completionGate (showAt true p) = true := by simp [completionGate, showAt]
    rw [found, routes_download_cons, if_neg hg]
    exact congrArg Guarded.access hj
  · have hg : ¬ completionGate (showAt true p) = true := by simp [completionGate, showAt]
    rw [found, api_download_cons, if_neg hg]
    exact congrArg Guarded.access hj


/-! ### Completion gate across the export endpoints -/

theorem routes_speedDownload_cons (t : Torrent) (rest : List Torrent) :
    routes_speedDownload (.ok { result := "success", torrents := t :: rest })
      = if decide (t.percentDone ≥ 1) || decide (t.status = 6) then
          .access (path_join t.downloadDir t.name)
        else .reply 400 .notReady := by
  simp [routes_speedDownload]

theorem routes_fileDownload_cons (t : Torrent) (rest : List Torrent) (fileIndex : Option Int) :
    routes_fileDownload (.ok { result := "success", torrents := t :: rest }) fileIndex
      = match fileAt t.files fileIndex with
        | none => .reply 404 .fileNotFound
        | some file => .access (path_join t.downloadDir file.name) := by
  simp [routes_fileDownload]

/-- C11, as stated, fails: an unfinished torrent at 0.95 with status 4 passes the gate of
`download/:id` and is rejected by `:id/speed-download`; an unfinished torrent at 0.5 is rejected
by `download/:id` and served by `:id/file/:fileIndex`. -/
theorem export_gates_disagree :
    routes_download (found (showWithFile false (19 / 20) 4)) = .access "/data/Show"
    ∧ routes_speedDownload (found (showWithFile false (19 / 20) 4)) = .reply 400 .notReady
    ∧ routes_download (found (showWithFile false (1 / 2) 4)) = .reply 400 .notComplete
    ∧ routes_fileDownload (found (showWithFile false (1 / 2) 4)) (some 0)
        = .access "/data/Show/episode.mkv" := by
  have hj : path_join "/data" "Show" = "/data/Show" := by rfl
  have hf : path_join "/data" "Show/episode.mkv" = "/data/Show/episode.mkv" := by rfl
  refine ⟨?_, ?_, ?_, ?_⟩
  · have hg : ¬ completionGate (showWithFile false (19 / 20) 4) = true := by
      simp [completionGate, showWithFile]; norm_num
    rw [found, routes_download_cons, if_neg hg]
    exact congrArg Guarded.access hj
  · rw [found, routes_speedDownload_cons]
    simp [showWithFile]; norm_num
  · have hg : completionGate (showWithFile false (1 / 2) 4) = true := by
      simp [completionGate, showWithFile]; norm_num
    rw [found, routes_download_cons, if_pos hg]
  · rw [found, routes_fileDownload_cons]
    exact congrArg Guarded.access hf

/-- C11 (amended): each export endpoint has its own gate. `download/:id` answers 400 exactly
when the torrent is not finished and `percentDone < 0.90`; `:id/speed-download` answers 400
exactly when `percentDone < 1.0` and the status is not 6; `:id/file/:fileIndex` has no
completion gate: it never answers 400 and serves every file the index selects. -/
theorem export_gates_per_endpoint (t : Torrent) (rest : List Torrent) (fileIndex : Option Int) :
    (routes_download (.ok { result := "success", torrents := t :: rest })
        = .reply 400 .notComplete ↔ (t.isFinished = false ∧ t.percentDone < 9 / 10))
    ∧ (routes_speedDownload (.ok { result := "success", torrents := t :: rest })
        = .reply 400 .notReady ↔ (t.percentDone < 1 ∧ t.status ≠ 6))
    ∧ (∀ r : Reason, routes_fileDownload (.ok { result := "success", torrents := t :: rest })
        fileIndex ≠ .reply 400 r)
    ∧ (∀ file : TorrentFile, fileAt t.files fileIndex = some file →
        routes_fileDownload (.ok { result := "success", torrents := t :: rest }) fileIndex
          = .access (path_join t.downloadDir file.name)) := by
  refine ⟨?_, ?_, ?_, ?_⟩
  · by_cases hg : completionGate t = true
    · have := hg
      simp only [completionGate, Bool.and_eq_true, Bool.not_eq_true', decide_eq_true_eq] at this
      simp [routes_download, hg, this]
    · have hg2 := hg
      simp only [completionGate, Bool.and_eq_true, Bool.not_eq_true', decide_eq_true_eq] at hg2
      simp [routes_download, hg, hg2]
  · rw [routes_speedDownload_cons]
    by_cases h1 : t.percentDone ≥ 1
    · simp [h1]
    · by_cases h6 : t.status = 6
      · simp [h6]
      · simp [h1, h6]
        exact lt_of_not_ge h1
  · intro r
    rw [routes_fileDownload_cons]
    cases fileAt t.files fileIndex <;> simp
  · intro file hfile
    rw [routes_fileDownload_cons, hfile]

/-- Witness for C11 (amended): the first file of an unfinished torrent at 0.5 is served. -/
theorem export_gates_per_endpoint_witness :
    routes_fileDownload (found (showWithFile false (1 / 2) 4)) (some 0)
      = .access (path_join "/data" "Show/episode.mkv") :=
  (export_gates_per_endpoint (showWithFile false (1 / 2) 4) [] (some 0)).2.2.2
    { name := "Show/episode.mkv", length := 1000, bytesCompleted := 500 } rfl

/-! ### Decimal numerals, `parseInt`, `split` -/

theorem digitValue_digitChar (d : Nat) (h : d < 10) : digitValue 10 (Nat.digitChar d) = some d := by
  interval_cases d <;> rfl

theorem decimalAux_append (fuel n : Nat) (acc : List Char) :
    decimalAux fuel n acc = decimalAux fuel n [] ++ acc := by
  induction fuel generalizing n acc with
  | zero => simp [decimalAux]
  | succ fuel ih =>
    unfold decimalAux
    split
    · simp
    · rw [ih (n / 10) (Nat.digitChar (n % 10) :: acc), ih (n / 10) [Nat.digitChar (n % 10)]]
      simp

theorem decimalAux_succ (fuel n : Nat) :
    decimalAux (fuel + 1) n []
      = if n < 10 then [Nat.digitChar n]
        else decimalAux fuel (n / 10) [] ++ [Nat.digitChar (n % 10)] := by
  conv_lhs => unfold decimalAux
  split
  · rfl
  · exact decimalAux_append fuel (n / 10) [Nat.digitChar (n % 10)]

theorem decimalAux_digits (fuel n : Nat) :
    ∀ c ∈ decimalAux fuel n [], ∃ d, d < 10 ∧ c = Nat.digitChar d := by
  induction fuel generalizing n with
  | zero => simp [decimalAux]
  | succ fuel ih =>
    intro c hc
    rw [decimalAux_succ] at hc
    split at hc
    · next h => exact ⟨n, h, by simpa using hc⟩
    · rcases List.mem_append.mp hc with h | h
      · exact ih (n / 10) c h
      · exact ⟨n % 10, Nat.mod_lt _ (by decide), by simpa using h⟩

theorem decimal_digits (n : Nat) : ∀ c ∈ decimal n, ∃ d, d < 10 ∧ c = Nat.digitChar d :=
  decimalAux_digits (n + 1) n

theorem decimal_eq_cons (n : Nat) : ∃ c cs, decimal n = c :: cs := by
  unfold decimal
  rw [decimalAux_succ]
  split
  · exact ⟨_, _, rfl⟩
  · cases h : decimalAux n (n / 10) [] with
    | nil => exact ⟨_, _, rfl⟩
    | cons c cs => exact ⟨c, cs ++ [Nat.digitChar (n % 10)], rfl⟩

theorem readDigits_append_digit (xs : List Char) (c : Char) (d : Nat) (acc : Option Nat)
    (hxs : ∀ x ∈ xs, ∃ k, k < 10 ∧ x = Nat.digitChar k) (hc : digitValue 10 c = some d) :
    readDigits 10 (xs ++ [c]) acc = some ((readDigits 10 xs acc).getD 0 * 10 + d) := by
  induction xs generalizing acc with
  | nil => simp [readDigits, hc]
  | cons x xs ih =>
    obtain ⟨k, hk, rfl⟩ := hxs x (by simp)
    have hx := digitValue_digitChar k hk
    simp only [List.cons_append, readDigits, hx]
    exact ih _ (fun y hy => hxs y (by simp [hy]))

theorem readDigits_decimalAux (fuel n : Nat) (h : n < fuel) :
    readDigits 10 (decimalAux fuel n []) none = some n := by
  induction fuel generalizing n with
  | zero => omega
  | succ fuel ih =>
    rw [decimalAux_succ]
    split
    · next h10 => simp [readDigits, digitValue_digitChar n h10]
    · next h10 =>
      have hlt : n / 10 < fuel := by omega
      rw [readDigits_append_digit _ _ (n % 10) none (decimalAux_digits fuel (n / 10))
        (digitValue_digitChar _ (Nat.mod_lt _ (by decide))), ih (n / 10) hlt]
      simp only [Option.getD_some]
      congr 1
      omega

theorem readDigits_decimal (n : Nat) : readDigits 10 (decimal n) none = some n :=
  readDigits_decimalAux (n + 1) n (Nat.lt_succ_self n)

theorem parseInt_digit_head (d : Nat) (hd : d < 10) (cs : List Char) :
    parseInt (Nat.digitChar d :: cs) (some 10)
      = match readDigits 10 (Nat.digitChar d :: cs) none with
        | none => .nan
        | some v => .int v := by
  interval_cases d <;> rfl

theorem parseInt_decimal (n : Nat) : parseInt (decimal n) (some 10) = .int n := by
  obtain ⟨c, cs, hcs⟩ := decimal_eq_cons n
  obtain ⟨d, hd, rfl⟩ := decimal_digits n c (by simp [hcs])
  have h := parseInt_digit_head d hd cs
  rw [← hcs, readDigits_decimal] at h
  exact h

theorem digitChar_ne_dash (d : Nat) (hd : d < 10) : Nat.digitChar d ≠ '-' := by
  interval_cases d <;> decide

theorem decimal_no_dash (n : Nat) : ∀ c ∈ decimal n, c ≠ '-' := by
  intro c hc
  obtain ⟨d, hd, rfl⟩ := decimal_digits n c hc
  exact digitChar_ne_dash d hd

theorem splitChar_no_sep (sep : Char) (xs : List Char) (h : ∀ c ∈ xs, c ≠ sep) :
    splitChar sep xs = [xs] := by
  induction xs with
  | nil => rfl
  | cons x xs ih =>
    have hx : x ≠ sep := h x (by simp)
    simp [splitChar, ih (fun c hc => h c (by simp [hc])), hx]

theorem splitChar_ne_nil (sep : Char) (xs : List Char) : splitChar sep xs ≠ [] := by
  cases xs with
  | nil => simp [splitChar]
  | cons x xs =>
    unfold splitChar
    split <;> split <;> simp

theorem splitChar_append_sep (sep : Char) (xs ys : List Char) (h : ∀ c ∈ xs, c ≠ sep) :
    splitChar sep (xs ++ sep :: ys) = xs :: splitChar sep ys := by
  induction xs with
  | nil =>
    simp only [List.nil_append, splitChar]
    cases hs : splitChar sep ys with
    | nil => exact absurd hs (splitChar_ne_nil sep ys)
    | cons p ps => simp
  | cons x xs ih =>
    have hx : x ≠ sep := h x (by simp)
    simp [splitChar, ih (fun c hc => h c (by simp [hc])), hx]

theorem startsWithChars_append (p r : List Char) : startsWithChars (p ++ r) p = true := by
  induction p with
  | nil => cases r <;> rfl
  | cons c cs ih => simp [startsWithChars, ih]

theorem removeFirst_append (c : Char) (cs rest : List Char) :
    removeFirst (c :: cs) (c :: cs ++ rest) = rest := by
  have h := startsWithChars_append (c :: cs) rest
  simp only [List.cons_append] at h
  simp only [List.cons_append]
  rw [removeFirst, if_pos h]
  simp

theorem toChars_ofNat (n : Nat) : JsNum.toChars (.int (n : Int)) = decimal n := rfl

theorem rangeBounds_mk (l : List Char) (size : Nat) :
    rangeBounds (String.mk l) size
      = (parseInt ((splitChar '-' (removeFirst "bytes=".toList l)).headD []) (some 10),
         match (splitChar '-' (removeFirst "bytes=".toList l)).get? 1 with
         | some p => if p ≠ [] then parseInt p (some 10) else JsNum.sub (.int size) (.int 1)
         | none => JsNum.sub (.int size) (.int 1)) := rfl

/-- Bounds parsed from the header `bytes=START-END` written with decimal numerals. -/
theorem rangeBounds_closed (size start stop : Nat) :
    rangeBounds (String.mk ("bytes=".toList ++ decimal start ++ '-' :: decimal stop)) size
      = (.int start, .int stop) := by
  obtain ⟨c, cs, hcs⟩ := decimal_eq_cons stop
  have hrm : removeFirst "bytes=".toList ("bytes=".toList ++ decimal start ++ '-' :: decimal stop)
      = decimal start ++ '-' :: decimal stop := by
    rw [List.append_assoc]
    exact removeFirst_append 'b' ['y', 't', 'e', 's', '='] _
  have hsplit : splitChar '-' (decimal start ++ '-' :: decimal stop)
      = [decimal start, decimal stop] := by
    rw [splitChar_append_sep _ _ _ (decimal_no_dash start),
      splitChar_no_sep _ _ (decimal_no_dash stop)]
  have hne : decimal stop ≠ [] := by rw [hcs]; simp
  rw [rangeBounds_mk, hrm, hsplit]
  simp [parseInt_decimal, hne]

/-- Bounds parsed from the header `bytes=START-` written with a decimal numeral. -/
theorem rangeBounds_open (size start : Nat) :
    rangeBounds (String.mk ("bytes=".toList ++ decimal start ++ ['-'])) size
      = (.int start, .int ((size : Int) - 1)) := by
  have hrm : removeFirst "bytes=".toList ("bytes=".toList ++ decimal start ++ ['-'])
      = decimal start ++ ['-'] := by
    rw [List.append_assoc]
    exact removeFirst_append 'b' ['y', 't', 'e', 's', '='] _
  have hsplit : splitChar '-' (decimal start ++ ['-']) = [decimal start, []] := by
    rw [splitChar_append_sep _ _ _ (decimal_no_dash start)]
    rfl
  rw [rangeBounds_mk, hrm, hsplit]
  simp [JsNum.sub, parseInt_decimal]

theorem mk_ne_empty (c : Char) (cs : List Char) : String.mk (c :: cs) ≠ "" := by
  intro h
  have := congrArg String.toList h
  simp at this

theorem mk_ne_empty_of_ne_nil (l : List Char) (h : l ≠ []) : String.mk l ≠ "" := by
  intro hs
  have := congrArg String.toList hs
  exact h (by simpa using this)

theorem routes_download_file_ranged (size : Nat) (r : String) (h : r ≠ "") :
    routes_download_file size (some r)
      = { status := 206,
          contentRange := some (contentRangeValue (rangeBounds r size).1 (rangeBounds r size).2 size),
          contentLength := JsNum.add (JsNum.sub (rangeBounds r size).2 (rangeBounds r size).1) (.int 1),
          readOptions := some ((rangeBounds r size).1, (rangeBounds r size).2) } := by
  simp [routes_download_file, h]

theorem routes_fileDownload_file_ranged (size : Nat) (r : String) (h : r ≠ "") :
    routes_fileDownload_file size (some r)
      = { status := 206,
          contentRange := some (contentRangeValue (rangeBounds r size).1 (rangeBounds r size).2 size),
          contentLength := JsNum.add (JsNum.sub (rangeBounds r size).2 (rangeBounds r size).1) (.int 1),
          readOptions := some ((rangeBounds r size).1, (rangeBounds r size).2) } := by
  simp [routes_fileDownload_file, h]

theorem routes_download_answer_eq (size : Nat) (range : Option String) :
    routes_download_answer size range
      = if readOptionsAccepted (routes_download_file size range).readOptions = true
        then .streamed (routes_download_file size range)
        else .rejected 500 "Download failed" := rfl

theorem routes_fileDownload_answer_eq (size : Nat) (range : Option String) :
    routes_fileDownload_answer size range
      = if readOptionsAccepted (routes_fileDownload_file size range).readOptions = true
        then .streamed (routes_fileDownload_file size range)
        else .rejected 404 "File not found on disk" := rfl

/-- A range inside a file whose size is a safe integer passes the check of `createReadStream`:
the response prepared for `bytes=START-END` is the one that is sent. -/
theorem ranged_answer_streamed (size start stop : Nat) (h1 : start ≤ stop) (h2 : stop < size)
    (h3 : (size : Int) ≤ maxSafeInteger) :
    routes_download_answer size
        (some (String.mk ("bytes=".toList ++ decimal start ++ '-' :: decimal stop)))
      = .streamed (routes_download_file size
          (some (String.mk ("bytes=".toList ++ decimal start ++ '-' :: decimal stop))))
    ∧ routes_fileDownload_answer size
        (some (String.mk ("bytes=".toList ++ decimal start ++ '-' :: decimal stop)))
      = .streamed (routes_fileDownload_file size
          (some (String.mk ("bytes=".toList ++ decimal start ++ '-' :: decimal stop)))) := by
  have hne : String.mk ("bytes=".toList ++ decimal start ++ '-' :: decimal stop) ≠ "" :=
    mk_ne_empty_of_ne_nil _ (by simp)
  have hacc : readOptionsAccepted (some (JsNum.int start, JsNum.int stop)) = true := by
    simp only [readOptionsAccepted, decide_eq_true_eq]
    omega
  rw [routes_download_answer_eq, routes_fileDownload_answer_eq,
    routes_download_file_ranged _ _ hne, routes_fileDownload_file_ranged _ _ hne,
    rangeBounds_closed]
  simp only [hacc, if_true, and_self]

/-- An open range that starts inside a file whose size is a safe integer passes the check of
`createReadStream`. -/
theorem open_answer_streamed (size start : Nat) (h : start < size)
    (h3 : (size : Int) ≤ maxSafeInteger) :
    routes_download_answer size (some (String.mk ("bytes=".toList ++ decimal start ++ ['-'])))
      = .streamed (routes_download_file size
          (some (String.mk ("bytes=".toList ++ decimal start ++ ['-']))))
    ∧ routes_fileDownload_answer size
        (some (String.mk ("bytes=".toList ++ decimal start ++ ['-'])))
      = .streamed (routes_fileDownload_file size
          (some (String.mk ("bytes=".toList ++ decimal start ++ ['-'])))) := by
  have hne : String.mk ("bytes=".toList ++ decimal start ++ ['-']) ≠ "" :=
    mk_ne_empty_of_ne_nil _ (by simp)
  have hacc : readOptionsAccepted (some (JsNum.int start, JsNum.int ((size : Int) - 1)))
      = true := by
    simp only [readOptionsAccepted, decide_eq_true_eq]
    omega
  rw [routes_download_answer_eq, routes_fileDownload_answer_eq,
    routes_download_file_ranged _ _ hne, routes_fileDownload_file_ranged _ _ hne,
    rangeBounds_open]
  simp only [hacc, if_true, and_self]

/-- Without a `Range` header `createReadStream` gets no options and returns a stream. -/
theorem plain_answer_streamed (size : Nat) :
    routes_download_answer size none = .streamed (routes_download_file size none)
    ∧ routes_fileDownload_answer size none = .streamed (routes_fileDownload_file size none) :=
  ⟨rfl, rfl⟩

/-! ### Range-aware file server -/

/-- C12: for the header `bytes=START-END` with `START <= END < size`, both single-file exports
of `routes/torrents.js` answer 206 with `Content-Range: bytes START-END/SIZE` and
`Content-Length` `END - START + 1`, and read from offset `START` to offset `END`; the length
does not exceed the bytes from `START` to the end of the file. For a file of 1000 bytes and
`bytes=100-199` that is 100 bytes and `bytes 100-199/1000`. Whenever the size is a safe integer,
`createReadStream` accepts these options, so this response is the one that is sent. -/
theorem ranged_export_partial_content (size start stop : Nat) (h1 : start ≤ stop)
    (h2 : stop < size) :
    routes_download_file size
        (some (String.mk ("bytes=".toList ++ decimal start ++ '-' :: decimal stop)))
      = { status := 206,
          contentRange := some (String.mk
            ("bytes ".toList ++ decimal start ++ '-' :: decimal stop ++ '/' :: decimal size)),
          contentLength := .int ((stop - start + 1 : Nat) : Int),
          readOptions := some (.int start, .int stop) }
    ∧ routes_fileDownload_file size
        (some (String.mk ("bytes=".toList ++ decimal start ++ '-' :: decimal stop)))
      = { status := 206,
          contentRange := some (String.mk
            ("bytes ".toList ++ decimal start ++ '-' :: decimal stop ++ '/' :: decimal size)),
          contentLength := .int ((stop - start + 1 : Nat) : Int),
          readOptions := some (.int start, .int stop) }
    ∧ stop - start + 1 ≤ size - start
    ∧ routes_download_file 1000 (some "bytes=100-199")
      = { status := 206, contentRange := some "bytes 100-199/1000", contentLength := .int 100,
          readOptions := some (.int 100, .int 199) }
    ∧ routes_fileDownload_file 1000 (some "bytes=100-199")
      = { status := 206, contentRange := some "bytes 100-199/1000", contentLength := .int 100,
          readOptions := some (.int 100, .int 199) }
    ∧ ((size : Int) ≤ maxSafeInteger →
        routes_download_answer size
            (some (String.mk ("bytes=".toList ++ decimal start ++ '-' :: decimal stop)))
          = .streamed (routes_download_file size
              (some (String.mk ("bytes=".toList ++ decimal start ++ '-' :: decimal stop))))
        ∧ routes_fileDownload_answer size
            (some (String.mk ("bytes=".toList ++ decimal start ++ '-' :: decimal stop)))
          = .streamed (routes_fileDownload_file size
              (some (String.mk ("bytes=".toList ++ decimal start ++ '-' :: decimal stop)))))
    ∧ routes_download_answer 1000 (some "bytes=100-199")
      = .streamed { status := 206, contentRange := some "bytes 100-199/1000",
                    contentLength := .int 100, readOptions := some (.int 100, .int 199) }
    ∧ routes_fileDownload_answer 1000 (some "bytes=100-199")
      = .streamed { status := 206, contentRange := some "bytes 100-199/1000",
                    contentLength := .int 100, readOptions := some (.int 100, .int 199) } := by
  have hne : String.mk ("bytes=".toList ++ decimal start ++ '-' :: decimal stop) ≠ "" :=
    mk_ne_empty_of_ne_nil _ (by simp)
  have hlen : ((stop : Int) - start + 1) = ((stop - start + 1 : Nat) : Int) := by omega
  refine ⟨?_, ?_, by omega, by decide, by decide,
    fun h3 => ranged_answer_streamed size start stop h1 h2 h3, by decide, by decide⟩
  · rw [routes_download_file_ranged _ _ hne, rangeBounds_closed]
    simp only [contentRangeValue, toChars_ofNat, JsNum.add, JsNum.sub, hlen]
  · rw [routes_fileDownload_file_ranged _ _ hne, rangeBounds_closed]
    simp only [contentRangeValue, toChars_ofNat, JsNum.add, JsNum.sub, hlen]

/-- Witness for C12: bytes 2 to 5 of a file of 10 bytes. -/
theorem ranged_export_partial_content_witness :
    routes_download_file 10 (some (String.mk ("bytes=".toList ++ decimal 2 ++ '-' :: decimal 5)))
      = { status := 206,
          contentRange := some (String.mk
            ("bytes ".toList ++ decimal 2 ++ '-' :: decimal 5 ++ '/' :: decimal 10)),
          contentLength := .int ((5 - 2 + 1 : Nat) : Int),
          readOptions := some (.int (2 : Nat), .int (5 : Nat)) } :=
  (ranged_export_partial_content 10 2 5 (by decide) (by decide)).1

/-- C13: for the header `bytes=START-` with `START < size`, both single-file exports of
`routes/torrents.js` take `end = size - 1`: `Content-Range` is `bytes START-(SIZE-1)/SIZE` and
`Content-Length` is `size - START`. Whenever the size is a safe integer, `createReadStream`
accepts these options, so this response is the one that is sent. -/
theorem open_range_defaults_to_last_byte (size start : Nat) (h : start < size) :
    routes_download_file size (some (String.mk ("bytes=".toList ++ decimal start ++ ['-'])))
      = { status := 206,
          contentRange := some (String.mk
            ("bytes ".toList ++ decimal start ++ '-' :: decimal (size - 1) ++ '/' :: decimal size)),
          contentLength := .int ((size - start : Nat) : Int),
          readOptions := some (.int start, .int ((size - 1 : Nat) : Int)) }
    ∧ routes_fileDownload_file size
        (some (String.mk ("bytes=".toList ++ decimal start ++ ['-'])))
      = { status := 206,
          contentRange := some (String.mk
            ("bytes ".toList ++ decimal start ++ '-' :: decimal (size - 1) ++ '/' :: decimal size)),
          contentLength := .int ((size - start : Nat) : Int),
          readOptions := some (.int start, .int ((size - 1 : Nat) : Int)) }
    ∧ ((size : Int) ≤ maxSafeInteger →
        routes_download_answer size
            (some (String.mk ("bytes=".toList ++ decimal start ++ ['-'])))
          = .streamed (routes_download_file size
              (some (String.mk ("bytes=".toList ++ decimal start ++ ['-']))))
        ∧ routes_fileDownload_answer size
            (some (String.mk ("bytes=".toList ++ decimal start ++ ['-'])))
          = .streamed (routes_fileDownload_file size
              (some (String.mk ("bytes=".toList ++ decimal start ++ ['-']))))) := by
  have hne : String.mk ("bytes=".toList ++ decimal start ++ ['-']) ≠ "" :=
    mk_ne_empty_of_ne_nil _ (by simp)
  have hlast : ((size : Int) - 1) = ((size - 1 : Nat) : Int) := by omega
  have hlen : (((size - 1 : Nat) : Int) - start + 1) = ((size - start : Nat) : Int) := by omega
  refine ⟨?_, ?_, fun h3 => open_answer_streamed size start h h3⟩
  · rw [routes_download_file_ranged _ _ hne, rangeBounds_open, hlast]
    simp only [contentRangeValue, toChars_ofNat, JsNum.add, JsNum.sub, hlen]
  · rw [routes_fileDownload_file_ranged _ _ hne, rangeBounds_open, hlast]
    simp only [contentRangeValue, toChars_ofNat, JsNum.add, JsNum.sub, hlen]

/-- Witness for C13: `bytes=100-` on a file of 1000 bytes. -/
theorem open_range_defaults_to_last_byte_witness :
    routes_download_file 1000 (some (String.mk ("bytes=".toList ++ decimal 100 ++ ['-'])))
      = { status := 206,
          contentRange := some (String.mk
            ("bytes ".toList ++ decimal 100 ++ '-' :: decimal (1000 - 1) ++ '/' :: decimal 1000)),
          contentLength := .int ((1000 - 100 : Nat) : Int),
          readOptions := some (.int (100 : Nat), .int ((1000 - 1 : Nat) : Int)) } :=
  (open_range_defaults_to_last_byte 1000 100 (by decide)).1

/-- C14, as stated, fails: for a file of 1000 bytes the header `bytes=0-1999` (end beyond the
file) and the header `bytes=5000-6000` (start beyond the file) are answered with 206 and a
`Content-Length` of 2000, resp. 1001, bytes, more than the file holds; and the header
`bytes=abc-` (start not a number) is answered with the generic error of the handler, 500
`'Download failed'` resp. 404 `'File not found on disk'`, not with a range error. -/
theorem range_beyond_file_answered_206 :
    routes_download_answer 1000 (some "bytes=0-1999")
      = .streamed { status := 206, contentRange := some "bytes 0-1999/1000",
                    contentLength := .int 2000, readOptions := some (.int 0, .int 1999) }
    ∧ routes_fileDownload_answer 1000 (some "bytes=0-1999")
      = .streamed { status := 206, contentRange := some "bytes 0-1999/1000",
                    contentLength := .int 2000, readOptions := some (.int 0, .int 1999) }
    ∧ routes_download_answer 1000 (some "bytes=5000-6000")
      = .streamed { status := 206, contentRange := some "bytes 5000-6000/1000",
                    contentLength := .int 1001, readOptions := some (.int 5000, .int 6000) }
    ∧ routes_fileDownload_answer 1000 (some "bytes=5000-6000")
      = .streamed { status := 206, contentRange := some "bytes 5000-6000/1000",
                    contentLength := .int 1001, readOptions := some (.int 5000, .int 6000) }
    ∧ routes_download_answer 1000 (some "bytes=abc-") = .rejected 500 "Download failed"
    ∧ routes_fileDownload_answer 1000 (some "bytes=abc-")
      = .rejected 404 "File not found on disk" := by
  refine ⟨?_, ?_, ?_, ?_, ?_, ?_⟩ <;> decide

/-- C14 (amended): the single-file exports of `routes/torrents.js` never compare the parsed
bounds with the file size and have no range error. A non-empty `Range` header whose parsed
`start` and `end` pass the check of `createReadStream` (integers from 0 to `2^53 - 1` with
`start <= end`) is answered with 206, `Content-Range: bytes START-END/SIZE`, a `Content-Length`
of `(end - start) + 1`, which is a positive integer, and a read from `start` to `end`; so is
`bytes=START-END` for every file size, also when `END` or `START` lies beyond the file. For
every other non-empty header `createReadStream` throws before anything is sent and the handler
answers with its generic error: 500 `'Download failed'` in `download/:id`, 404
`'File not found on disk'` in `:id/file/:fileIndex`. No answer has status 416. -/
theorem range_never_validated (size : Nat) (r : String) (hr : r ≠ "") :
    (readOptionsAccepted (some (rangeBounds r size)) = true →
      routes_download_answer size (some r)
        = .streamed
            { status := 206,
              contentRange :=
                some (contentRangeValue (rangeBounds r size).1 (rangeBounds r size).2 size),
              contentLength :=
                JsNum.add (JsNum.sub (rangeBounds r size).2 (rangeBounds r size).1) (.int 1),
              readOptions := some (rangeBounds r size) }
      ∧ routes_fileDownload_answer size (some r) = routes_download_answer size (some r)
      ∧ ∃ n : Int, 1 ≤ n
          ∧ JsNum.add (JsNum.sub (rangeBounds r size).2 (rangeBounds r size).1) (.int 1)
            = .int n)
    ∧ (readOptionsAccepted (some (rangeBounds r size)) = false →
      routes_download_answer size (some r) = .rejected 500 "Download failed"
      ∧ routes_fileDownload_answer size (some r) = .rejected 404 "File not found on disk")
    ∧ (routes_download_answer size (some r)).status ≠ 416
    ∧ (routes_fileDownload_answer size (some r)).status ≠ 416
    ∧ (∀ start stop : Nat, start ≤ stop → (stop : Int) ≤ maxSafeInteger →
        routes_download_answer size
            (some (String.mk ("bytes=".toList ++ decimal start ++ '-' :: decimal stop)))
          = .streamed
              { status := 206,
                contentRange := some (String.mk
                  ("bytes ".toList ++ decimal start ++ '-' :: decimal stop
                    ++ '/' :: decimal size)),
                contentLength := .int ((stop - start + 1 : Nat) : Int),
                readOptions := some (.int start, .int stop) }
        ∧ routes_fileDownload_answer size
            (some (String.mk ("bytes=".toList ++ decimal start ++ '-' :: decimal stop)))
          = .streamed
              { status := 206,
                contentRange := some (String.mk
                  ("bytes ".toList ++ decimal start ++ '-' :: decimal stop
                    ++ '/' :: decimal size)),
                contentLength := .int ((stop - start + 1 : Nat) : Int),
                readOptions := some (.int start, .int stop) }) := by
  have hd := routes_download_answer_eq size (some r)
  have hf := routes_fileDownload_answer_eq size (some r)
  rw [routes_download_file_ranged _ _ hr] at hd
  rw [routes_fileDownload_file_ranged _ _ hr] at hf
  refine ⟨?_, ?_, ?_, ?_, ?_⟩
  · intro hacc
    have hacc2 : readOptionsAccepted
        (some ((rangeBounds r size).1, (rangeBounds r size).2)) = true := hacc
    rw [hd, hf, if_pos hacc2, if_pos hacc2]
    refine ⟨rfl, rfl, ?_⟩
    revert hacc2
    generalize (rangeBounds r size).1 = x
    generalize (rangeBounds r size).2 = y
    intro hacc2
    cases x with
    | nan => simp [readOptionsAccepted] at hacc2
    | int a =>
      cases y with
      | nan => simp [readOptionsAccepted] at hacc2
      | int b =>
        simp only [readOptionsAccepted, decide_eq_true_eq] at hacc2
        exact ⟨b - a + 1, by omega, by simp [JsNum.add, JsNum.sub]⟩
  · intro hrej
    have hrej2 : readOptionsAccepted
        (some ((rangeBounds r size).1, (rangeBounds r size).2)) = false := hrej
    rw [hd, hf]
    simp [hrej2]
  · rw [hd]; split <;> simp [FileAnswer.status]
  · rw [hf]; split <;> simp [FileAnswer.status]
  · intro start stop h1 h2
    have hne : String.mk ("bytes=".toList ++ decimal start ++ '-' :: decimal stop) ≠ "" :=
      mk_ne_empty_of_ne_nil _ (by simp)
    have hacc : readOptionsAccepted (some (JsNum.int start, JsNum.int stop)) = true := by
      simp only [readOptionsAccepted, decide_eq_true_eq]
      omega
    have hlen : ((stop : Int) - start + 1) = ((stop - start + 1 : Nat) : Int) := by omega
    rw [routes_download_answer_eq, routes_fileDownload_answer_eq,
      routes_download_file_ranged _ _ hne, routes_fileDownload_file_ranged _ _ hne,
      rangeBounds_closed]
    simp only [hacc, if_true, contentRangeValue, toChars_ofNat, JsNum.add, JsNum.sub, hlen,
      and_self]

/-- Witness for C14 (amended): on a file of 1000 bytes `bytes=0-1999` passes the check of
`createReadStream` and is answered 206 with 2000 bytes declared, and `bytes=abc-` does not pass
it and is answered with the generic errors. -/
theorem range_never_validated_witness :
    (routes_download_answer 1000 (some "bytes=0-1999")
        = .streamed
            { status := 206,
              contentRange := some (contentRangeValue (rangeBounds "bytes=0-1999" 1000).1
                (rangeBounds "bytes=0-1999" 1000).2 1000),
              contentLength := JsNum.add (JsNum.sub (rangeBounds "bytes=0-1999" 1000).2
                (rangeBounds "bytes=0-1999" 1000).1) (.int 1),
              readOptions := some (rangeBounds "bytes=0-1999" 1000) }
      ∧ routes_fileDownload_answer 1000 (some "bytes=0-1999")
          = routes_download_answer 1000 (some "bytes=0-1999")
      ∧ ∃ n : Int, 1 ≤ n
          ∧ JsNum.add (JsNum.sub (rangeBounds "bytes=0-1999" 1000).2
              (rangeBounds "bytes=0-1999" 1000).1) (.int 1) = .int n)
    ∧ (routes_download_answer 1000 (some "bytes=abc-") = .rejected 500 "Download failed"
      ∧ routes_fileDownload_answer 1000 (some "bytes=abc-")
          = .rejected 404 "File not found on disk") :=
  ⟨(range_never_validated 1000 "bytes=0-1999" (by decide)).1 (by decide),
   (range_never_validated 1000 "bytes=abc-" (by decide)).2.1 (by decide)⟩

/-- C15: without a `Range` header every single-file export keeps status 200, declares
`Content-Length` equal to `stats.size`, sets no `Content-Range` and reads the whole file (no
`start`/`end` options). The handlers of `api/torrents.js` and `:id/speed-download` do so for
every request. `createReadStream` is called without options, which it never rejects, so this
response is the one that is sent. -/
theorem full_file_without_range (size : Nat) :
    routes_download_file size none
      = { status := 200, contentLength := .int size, contentRange := none, readOptions := none }
    ∧ routes_fileDownload_file size none
      = { status := 200, contentLength := .int size, contentRange := none, readOptions := none }
    ∧ api_download_file size
      = { status := 200, contentLength := .int size, contentRange := none, readOptions := none }
    ∧ routes_speedDownload_file size
      = { status := 200, contentLength := .int size, contentRange := none, readOptions := none }
    ∧ (routes_download_file size none).status ≠ 206
    ∧ (routes_fileDownload_file size none).status ≠ 206
    ∧ routes_download_answer size none
      = .streamed { status := 200, contentLength := .int size, contentRange := none,
                    readOptions := none }
    ∧ routes_fileDownload_answer size none
      = .streamed { status := 200, contentLength := .int size, contentRange := none,
                    readOptions := none } := by
  refine ⟨rfl, rfl, rfl, rfl, ?_, ?_, rfl, rfl⟩ <;>
    simp [routes_download_file, routes_fileDownload_file]

/-! ### Eviction manager -/

theorem run_dropCaches (files : List DiskFile) : Command.run .dropCaches files = files := by
  simp [Command.run, Command.selects]

theorem mem_run (c : Command) (files : List DiskFile) (f : DiskFile) (hf : f ∈ files)
    (hs : c.selects f = false) : f ∈ c.run files := by
  simp [Command.run, hf, hs]

theorem exec_rejected (sh : Shell) (c : Command) (m : Machine) (h : sh.rejects c = true) :
    exec sh c m = (.error "Command failed", { m with log := m.log ++ [c] }) := by
  simp [exec, h]

theorem exec_done (sh : Shell) (c : Command) (m : Machine) (h : sh.rejects c = false) :
    exec sh c m = (.ok (), { files := c.run m.files, log := m.log ++ [c] }) := by
  simp [exec, h]

theorem tryTwo_eq (sh : Shell) (c1 c2 : Command) (m : Machine) :
    tryTwo sh c1 c2 m
      = (.ok (),
         { files := if sh.rejects c1 = true then m.files
                    else if sh.rejects c2 = true then c1.run m.files
                    else c2.run (c1.run m.files),
           log := m.log ++ c1 :: (if sh.rejects c1 = true then [] else [c2]) }) := by
  cases h1 : sh.rejects c1
  · cases h2 : sh.rejects c2 <;> simp [tryTwo, exec, h1, h2]
  · simp [tryTwo, exec, h1]

theorem cleanOrphanedFiles_eq (mgr : CleanupManager) (sh : Shell) (m : Machine) :
    cleanOrphanedFiles mgr sh m
      = (.ok (), { files := m.files, log := m.log ++ [.findEmptyDirs mgr.downloadDir] }) := by
  unfold cleanOrphanedFiles
  cases h : sh.rejects (.findEmptyDirs mgr.downloadDir)
  · rw [exec_done sh _ m h]; simp [Command.run, Command.selects]
  · rw [exec_rejected sh _ m h]

theorem getStorageUsage_snd (mgr : CleanupManager) (sh : Shell) (m : Machine) :
    (getStorageUsage mgr sh m).2 = { files := m.files, log := m.log ++ [.df mgr.downloadDir] } := by
  unfold getStorageUsage
  split
  · rfl
  · split <;> rfl

theorem forceCleanup_eq (mgr : CleanupManager) (sh : Shell) (m : Machine) :
    forceCleanup mgr sh m
      = (.ok (),
         { files :=
             if (getStorageUsage mgr sh m).1.gt (.int mgr.maxStoragePercent) = true
                 ∧ sh.rejects (payloadCommand mgr) = false
             then (payloadCommand mgr).run m.files else m.files,
           log := m.log ++ .df mgr.downloadDir ::
             (if (getStorageUsage mgr sh m).1.gt (.int mgr.maxStoragePercent) = true
              then payloadCommand mgr ::
                (if sh.rejects (payloadCommand mgr) = true then [] else [.dropCaches])
              else []) }) := by
  unfold forceCleanup
  have hs := getStorageUsage_snd mgr sh m
  cases hg : getStorageUsage mgr sh m with
  | mk usage m1 =>
    rw [hg] at hs
    simp only at hs
    subst hs
    simp only
    cases hover : usage.gt (.int mgr.maxStoragePercent)
    · simp
    · rw [if_pos rfl, tryTwo_eq]
      cases hrej : sh.rejects (payloadCommand mgr)
      · cases hd : sh.rejects Command.dropCaches <;> simp [run_dropCaches]
      · simp

theorem gt_iff (usage : JsNum) (limit : Int) :
    usage.gt (.int limit) = true ↔ ∃ n : Int, usage = .int n ∧ limit < n := by
  cases usage with
  | nan => simp [JsNum.gt]
  | int n => simp [JsNum.gt]

theorem forceCleanup_new_commands (mgr : CleanupManager) (sh : Shell)
    (m : Machine) :
    (forceCleanup mgr sh m).2.log.drop m.log.length
      = .df mgr.downloadDir ::
          (if (getStorageUsage mgr sh m).1.gt (.int mgr.maxStoragePercent) = true
           then payloadCommand mgr ::
             (if sh.rejects (payloadCommand mgr) = true then [] else [.dropCaches])
           else []) := by
  rw [forceCleanup_eq]
  simp

/-- C16: `forceCleanup` issues the payload deletion exactly when the sampled usage is a number
greater than `maxStoragePercent`, which is 90; otherwise the sample is its only command and the
files are left as they are. At exactly 90% nothing is deleted. -/
theorem forceCleanup_deletes_iff_over_threshold (mgr : CleanupManager) (sh : Shell) (m : Machine)
    (envDownloadDir : Option String) :
    (CleanupManager.new envDownloadDir).maxStoragePercent = 90
    ∧ (payloadCommand mgr ∈ (forceCleanup mgr sh m).2.log.drop m.log.length
        ↔ ∃ n : Int, (getStorageUsage mgr sh m).1 = .int n ∧ mgr.maxStoragePercent < n)
    ∧ (forceCleanup mgr sh m).2.log.drop m.log.length
        = .df mgr.downloadDir ::
            (if (getStorageUsage mgr sh m).1.gt (.int mgr.maxStoragePercent) = true
             then payloadCommand mgr ::
               (if sh.rejects (payloadCommand mgr) = true then [] else [.dropCaches])
             else [])
    ∧ ((getStorageUsage mgr sh m).1.gt (.int mgr.maxStoragePercent) = true
        ↔ ∃ n : Int, (getStorageUsage mgr sh m).1 = .int n ∧ mgr.maxStoragePercent < n)
    ∧ (forceCleanup mgr sh m).2.files
        = (if (getStorageUsage mgr sh m).1.gt (.int mgr.maxStoragePercent) = true
              ∧ sh.rejects (payloadCommand mgr) = false
           then (payloadCommand mgr).run m.files else m.files)
    ∧ forceCleanup (CleanupManager.new none) ninetyShell { files := tenFiles, log := [] }
        = (.ok (), { files := tenFiles, log := [.df "/mnt/ninjaseeds"] }) := by
  have hlog : (forceCleanup mgr sh m).2.log.drop m.log.length
        = .df mgr.downloadDir ::
            (if (getStorageUsage mgr sh m).1.gt (.int mgr.maxStoragePercent) = true
             then payloadCommand mgr ::
               (if sh.rejects (payloadCommand mgr) = true then [] else [.dropCaches])
             else []) := by
    rw [forceCleanup_eq]
    simp
  refine ⟨rfl, ?_, hlog, gt_iff _ _, ?_, by rfl⟩
  · rw [hlog, ← gt_iff]
    cases (getStorageUsage mgr sh m).1.gt (.int mgr.maxStoragePercent) <;>
      simp [payloadCommand]
  · rw [forceCleanup_eq]

/-- C17, as stated, fails: with two candidates, 10 and 8 days old, on a disk at 95% where
deleting the older one alone brings usage to 85%, the younger candidate is deleted as well; the
usage is sampled once, before the single deletion command. -/
theorem escalation_deletes_younger_candidate_too :
    (getStorageUsage (CleanupManager.new none) tenPercentShell
        { files := [payloadFile "old" 10 true, payloadFile "recent" 8 true], log := [] }).1
      = .int 95
    ∧ (getStorageUsage (CleanupManager.new none) tenPercentShell
        { files := [payloadFile "recent" 8 true], log := [] }).1 = .int 85
    ∧ forceCleanup (CleanupManager.new none) tenPercentShell
        { files := [payloadFile "old" 10 true, payloadFile "recent" 8 true], log := [] }
      = (.ok (), { files := [],
                   log := [.df "/mnt/ninjaseeds", .findDelete "/mnt/ninjaseeds" none true 7,
                           .dropCaches] }) := by
  refine ⟨by decide, by decide, by rfl⟩

/-- C17 (amended): when the sampled usage is over the threshold and the deletion command runs,
escalation removes, with one command and in no order, every regular file under the download
directory whose age in whole days is greater than 7, and keeps all others; usage is sampled
once, before the deletion, and not again. -/
theorem escalation_is_one_bulk_deletion (mgr : CleanupManager) (sh : Shell) (m : Machine)
    (hover : (getStorageUsage mgr sh m).1.gt (.int mgr.maxStoragePercent) = true)
    (hruns : sh.rejects (payloadCommand mgr) = false) :
    (forceCleanup mgr sh m).2.files
      = m.files.filter
          (fun f => !(inTree mgr.downloadDir f.path && decide (f.ageSeconds / 86400 > 7)))
    ∧ (forceCleanup mgr sh m).2.log.drop m.log.length
        = [.df mgr.downloadDir, payloadCommand mgr, .dropCaches]
    ∧ ∀ f ∈ m.files, inTree mgr.downloadDir f.path = true → f.ageSeconds / 86400 > 7 →
        f ∉ (forceCleanup mgr sh m).2.files := by
  have hfiles : (forceCleanup mgr sh m).2.files
      = m.files.filter
          (fun f => !(inTree mgr.downloadDir f.path && decide (f.ageSeconds / 86400 > 7))) := by
    rw [forceCleanup_eq]
    simp only [hover, hruns, and_self, if_true]
    simp [Command.run, payloadCommand, Command.selects]
  refine ⟨hfiles, ?_, ?_⟩
  · rw [forceCleanup_eq]
    simp [hover, hruns]
  · intro f _ htree hage
    rw [hfiles]
    simp [htree, hage]

/-- Witness for C17 (amended): the two candidates of the counterexample. -/
theorem escalation_is_one_bulk_deletion_witness :
    (forceCleanup (CleanupManager.new none) tenPercentShell
        { files := [payloadFile "old" 10 true, payloadFile "recent" 8 true], log := [] }).2.log.drop 0
      = [.df "/mnt/ninjaseeds", payloadCommand (CleanupManager.new none), .dropCaches] :=
  (escalation_is_one_bulk_deletion (CleanupManager.new none) tenPercentShell
    { files := [payloadFile "old" 10 true, payloadFile "recent" 8 true], log := [] }
    (by decide) (by decide)).2.1

theorem within_retention_not_selected (root : String) (nameSuffix : Option String)
    (regularOnly : Bool) (f : DiskFile) (h : f.ageSeconds ≤ 7 * 86400) :
    (Command.findDelete root nameSuffix regularOnly 7).selects f = false := by
  have hd : ¬ f.ageSeconds / 86400 > 7 := by omega
  simp [Command.selects, hd]

theorem outside_not_selected (root : String) (nameSuffix : Option String)
    (regularOnly : Bool) (days : Nat) (f : DiskFile) (h : inTree root f.path = false) :
    (Command.findDelete root nameSuffix regularOnly days).selects f = false := by
  simp [Command.selects, h]

theorem mem_tryTwo (sh : Shell) (c1 c2 : Command) (m : Machine) (f : DiskFile)
    (hf : f ∈ m.files) (h1 : c1.selects f = false) (h2 : c2.selects f = false) :
    f ∈ (tryTwo sh c1 c2 m).2.files := by
  rw [tryTwo_eq]
  simp only
  split
  · exact hf
  · split
    · exact mem_run c1 _ f hf h1
    · exact mem_run c2 _ f (mem_run c1 _ f hf h1) h2

theorem mem_forceCleanup (mgr : CleanupManager) (sh : Shell) (m : Machine) (f : DiskFile)
    (hf : f ∈ m.files) (h : (payloadCommand mgr).selects f = false) :
    f ∈ (forceCleanup mgr sh m).2.files := by
  rw [forceCleanup_eq]
  simp only
  split
  · exact mem_run _ _ f hf h
  · exact hf

theorem tryTwoRest_eq (sh : Shell) (c1 c2 : Command) (m : Machine) :
    tryTwoRest sh c1 c2 m
      = (.ok (),
         { files := if sh.rejects c1 = true then m.files
                    else if sh.rejects c2 = true then c1.run m.files
                    else c2.run (c1.run m.files),
           log := m.log ++ (if sh.rejects c1 = true then [] else [c2]) }) := by
  cases h1 : sh.rejects c1
  · cases h2 : sh.rejects c2 <;> simp [tryTwoRest, settle, exec, h1, h2]
  · simp [tryTwoRest, settle, h1]

theorem tryTwo_eq_rest (sh : Shell) (c1 c2 : Command) (m : Machine) :
    tryTwo sh c1 c2 m = tryTwoRest sh c1 c2 (issue c1 m) := by
  rw [tryTwo_eq, tryTwoRest_eq]
  cases h1 : sh.rejects c1 <;> simp [issue]

theorem cleanOrphanedFilesRest_eq (mgr : CleanupManager) (sh : Shell) (m : Machine) :
    cleanOrphanedFilesRest mgr sh m = (.ok (), m) := by
  unfold cleanOrphanedFilesRest settle
  cases h : sh.rejects (.findEmptyDirs mgr.downloadDir) <;> simp [Command.run, Command.selects]

theorem cleanOrphanedFiles_eq_rest (mgr : CleanupManager) (sh : Shell) (m : Machine) :
    cleanOrphanedFiles mgr sh m
      = cleanOrphanedFilesRest mgr sh (issue (.findEmptyDirs mgr.downloadDir) m) := by
  rw [cleanOrphanedFiles_eq, cleanOrphanedFilesRest_eq]
  rfl

theorem mem_tryTwoRest (sh : Shell) (c1 c2 : Command) (m : Machine) (f : DiskFile)
    (hf : f ∈ m.files) (h1 : c1.selects f = false) (h2 : c2.selects f = false) :
    f ∈ (tryTwoRest sh c1 c2 m).2.files := by
  rw [tryTwoRest_eq]
  simp only
  split
  · exact hf
  · split
    · exact mem_run c1 _ f hf h1
    · exact mem_run c2 _ f (mem_run c1 _ f hf h1) h2

theorem fullCleanup_sweeps_fst (mgr : CleanupManager) (sh : Shell) (tempFirst : Bool)
    (m : Machine) : (fullCleanup_sweeps mgr sh tempFirst m).1 = (.ok (), .ok (), .ok ()) := by
  unfold fullCleanup_sweeps
  cases tempFirst <;> simp [tryTwoRest_eq, cleanOrphanedFilesRest_eq]

theorem fullCleanup_sweeps_log (mgr : CleanupManager) (sh : Shell) (tempFirst : Bool)
    (m : Machine) :
    (fullCleanup_sweeps mgr sh tempFirst m).2.log
      = m.log ++ ([tempTorrentsCommand, resumeCommand, .findEmptyDirs mgr.downloadDir]
          ++ (if tempFirst = true then
                (if sh.rejects tempTorrentsCommand = true then [] else [tempFilesCommand])
                  ++ (if sh.rejects resumeCommand = true then [] else [torrentsCommand])
              else
                (if sh.rejects resumeCommand = true then [] else [torrentsCommand])
                  ++ (if sh.rejects tempTorrentsCommand = true then []
                      else [tempFilesCommand]))) := by
  unfold fullCleanup_sweeps
  cases tempFirst <;> simp [tryTwoRest_eq, cleanOrphanedFilesRest_eq, issue]

theorem mem_fullCleanup_sweeps (mgr : CleanupManager) (sh : Shell) (tempFirst : Bool)
    (m : Machine) (f : DiskFile) (hf : f ∈ m.files)
    (h1 : tempTorrentsCommand.selects f = false) (h2 : tempFilesCommand.selects f = false)
    (h3 : resumeCommand.selects f = false) (h4 : torrentsCommand.selects f = false) :
    f ∈ (fullCleanup_sweeps mgr sh tempFirst m).2.files := by
  have hf0 : f ∈ (issue (.findEmptyDirs mgr.downloadDir)
      (issue resumeCommand (issue tempTorrentsCommand m))).files := hf
  unfold fullCleanup_sweeps
  cases tempFirst
  · simp only [cleanOrphanedFilesRest_eq, Bool.false_eq_true, if_false]
    exact mem_tryTwoRest _ _ _ _ _ (mem_tryTwoRest _ _ _ _ _ hf0 h3 h4) h1 h2
  · simp only [cleanOrphanedFilesRest_eq, if_true]
    exact mem_tryTwoRest _ _ _ _ _ (mem_tryTwoRest _ _ _ _ _ hf0 h1 h2) h3 h4

theorem fullCleanup_eq (mgr : CleanupManager) (sh : Shell) (tempFirst : Bool) (m : Machine) :
    fullCleanup mgr sh tempFirst m
      = (.ok (getStorageUsage mgr sh
            (forceCleanup mgr sh (fullCleanup_sweeps mgr sh tempFirst m).2).2).1,
         (getStorageUsage mgr sh
            (forceCleanup mgr sh (fullCleanup_sweeps mgr sh tempFirst m).2).2).2) := by
  have h := fullCleanup_sweeps_fst mgr sh tempFirst m
  unfold fullCleanup
  cases hs : fullCleanup_sweeps mgr sh tempFirst m with
  | mk r m3 =>
    rw [hs] at h
    simp only at h
    subst h
    simp only [forceCleanup_eq]

theorem mem_fullCleanup (mgr : CleanupManager) (sh : Shell) (tempFirst : Bool) (m : Machine)
    (f : DiskFile) (hf : f ∈ m.files)
    (h1 : tempTorrentsCommand.selects f = false) (h2 : tempFilesCommand.selects f = false)
    (h3 : resumeCommand.selects f = false) (h4 : torrentsCommand.selects f = false)
    (h5 : (payloadCommand mgr).selects f = false) :
    f ∈ (fullCleanup mgr sh tempFirst m).2.files := by
  rw [fullCleanup_eq, getStorageUsage_snd]
  simp only
  exact mem_forceCleanup _ _ _ _ (mem_fullCleanup_sweeps mgr sh tempFirst m f hf h1 h2 h3 h4) h5

theorem inTree_default_head (p : String) (h : inTree "/mnt/ninjaseeds" p = true) :
    ∃ t, p.toList = '/' :: 'm' :: t := by
  have hroot : (if "/mnt/ninjaseeds".toList.getLast? = some '/' then "/mnt/ninjaseeds".toList
      else "/mnt/ninjaseeds".toList ++ ['/']) = '/' :: 'm' :: "nt/ninjaseeds/".toList := by decide
  unfold inTree at h
  rw [hroot] at h
  rcases Bool.or_eq_true _ _ |>.mp h with h1 | h2
  · have hp : p = "/mnt/ninjaseeds" := by simpa using h1
    exact ⟨"nt/ninjaseeds".toList, by rw [hp]; rfl⟩
  · cases hl : p.toList with
    | nil => rw [hl] at h2; simp [startsWithChars] at h2
    | cons a t =>
      cases t with
      | nil => rw [hl] at h2; simp [startsWithChars] at h2
      | cons b t2 =>
        rw [hl] at h2
        simp only [startsWithChars, Bool.and_eq_true, decide_eq_true_eq] at h2
        exact ⟨t2, by rw [h2.1, h2.2.1]⟩

theorem not_inTree_of_head (root p : String) (c : Char) (r t : List Char)
    (hroot : root.toList = '/' :: c :: r) (hc : c ≠ 'm') (hp : p.toList = '/' :: 'm' :: t) :
    inTree root p = false := by
  have hne : p ≠ root := by
    intro h
    rw [h, hroot] at hp
    simp at hp
    exact hc hp.1
  have hc2 : ¬ 'm' = c := fun h => hc h.symm
  unfold inTree
  rw [hroot, hp]
  simp only [hne, decide_False, Bool.false_or]
  split <;> simp [startsWithChars, hc2]

/-- C18, as stated, fails: with `DOWNLOAD_DIR=/tmp/dl` the file `/tmp/dl/Show/a.torrent`, last
modified two days ago, lies under the download directory and within the 7-day retention window,
and `fullCleanup` deletes it at 40% usage, whichever first command ends first: the first command
of `cleanTempFiles` sweeps `/tmp` for `*.torrent` after one day. `forceCleanup` keeps the
file. -/
theorem fullCleanup_deletes_recent_file_under_tmp :
    (CleanupManager.new (some "/tmp/dl")).downloadDir = "/tmp/dl"
    ∧ inTree "/tmp/dl" "/tmp/dl/Show/a.torrent" = true
    ∧ 2 * 86400 ≤ 7 * 86400
    ∧ fullCleanup (CleanupManager.new (some "/tmp/dl")) idleShell true
        { files := [{ path := "/tmp/dl/Show/a.torrent", ageSeconds := 2 * 86400,
                      torrentComplete := true }], log := [] }
      = (.ok (.int 40),
         { files := [],
           log := [tempTorrentsCommand, resumeCommand, .findEmptyDirs "/tmp/dl",
                   tempFilesCommand, torrentsCommand, .df "/tmp/dl", .df "/tmp/dl"] })
    ∧ (fullCleanup (CleanupManager.new (some "/tmp/dl")) idleShell false
        { files := [{ path := "/tmp/dl/Show/a.torrent", ageSeconds := 2 * 86400,
                      torrentComplete := true }], log := [] }).2.files = []
    ∧ (forceCleanup (CleanupManager.new (some "/tmp/dl")) idleShell
        { files := [{ path := "/tmp/dl/Show/a.torrent", ageSeconds := 2 * 86400,
                      torrentComplete := true }], log := [] }).2.files
      = [{ path := "/tmp/dl/Show/a.torrent", ageSeconds := 2 * 86400,
           torrentComplete := true }] := by
  refine ⟨by decide, by decide, by decide, by rfl, by rfl, by rfl⟩

/-- C18 (amended): no regular file whose age is at most 7 days is deleted by `forceCleanup`,
whatever the usage; nor by `fullCleanup`, whichever first command ends first, when the file lies
outside the directories swept after one day by `cleanTempFiles` and `cleanTransmissionCache`
(`/tmp` and the resume and torrents directories of Transmission), as every file under the
default download directory `/mnt/ninjaseeds` does. With files aged 1 to 10 days under
`/mnt/ninjaseeds` at 95% usage, the files aged 1 to 7 days remain and every deleted file is
older than 7 days. -/
theorem fullCleanup_keeps_files_within_retention (mgr : CleanupManager) (sh : Shell)
    (tempFirst : Bool) (m : Machine) (f : DiskFile) (hf : f ∈ m.files)
    (hyoung : f.ageSeconds ≤ 7 * 86400) :
    f ∈ (forceCleanup mgr sh m).2.files
    ∧ (inTree "/tmp" f.path = false →
        inTree "/var/lib/transmission-daemon/.config/transmission-daemon/resume" f.path = false →
        inTree "/var/lib/transmission-daemon/.config/transmission-daemon/torrents" f.path = false →
        f ∈ (fullCleanup mgr sh tempFirst m).2.files)
    ∧ (inTree "/mnt/ninjaseeds" f.path = true →
        f ∈ (fullCleanup (CleanupManager.new none) sh tempFirst m).2.files)
    ∧ (fullCleanup (CleanupManager.new none) fullShell true
          { files := tenFiles, log := [] }).2.files = tenFiles.take 7
    ∧ (fullCleanup (CleanupManager.new none) fullShell false
          { files := tenFiles, log := [] }).2.files = tenFiles.take 7
    ∧ ∀ g ∈ tenFiles, ∀ order : Bool,
        g ∉ (fullCleanup (CleanupManager.new none) fullShell order
              { files := tenFiles, log := [] }).2.files →
        g.ageSeconds > 7 * 86400 := by
  have hgen : ∀ mgr2 : CleanupManager, inTree "/tmp" f.path = false →
      inTree "/var/lib/transmission-daemon/.config/transmission-daemon/resume" f.path = false →
      inTree "/var/lib/transmission-daemon/.config/transmission-daemon/torrents" f.path = false →
      f ∈ (fullCleanup mgr2 sh tempFirst m).2.files := by
    intro mgr2 h1 h2 h3
    exact mem_fullCleanup mgr2 sh tempFirst m f hf (outside_not_selected _ _ _ _ f h1)
      (within_retention_not_selected _ _ _ f hyoung) (outside_not_selected _ _ _ _ f h2)
      (outside_not_selected _ _ _ _ f h3) (within_retention_not_selected _ _ _ f hyoung)
  refine ⟨?_, hgen mgr, ?_, by decide, by decide, by decide⟩
  · exact mem_forceCleanup mgr sh m f hf (within_retention_not_selected _ _ _ f hyoung)
  · intro htree
    obtain ⟨t, ht⟩ := inTree_default_head f.path htree
    exact hgen _ (not_inTree_of_head "/tmp" f.path 't' "mp".toList t rfl (by decide) ht)
      (not_inTree_of_head _ f.path 'v'
        "ar/lib/transmission-daemon/.config/transmission-daemon/resume".toList t rfl
        (by decide) ht)
      (not_inTree_of_head _ f.path 'v'
        "ar/lib/transmission-daemon/.config/transmission-daemon/torrents".toList t rfl
        (by decide) ht)

/-- Witness for C18 (amended): the file aged 7 days among the ten files, at 95% usage. -/
theorem fullCleanup_keeps_files_within_retention_witness :
    payloadFile "f7" 7 true
      ∈ (fullCleanup (CleanupManager.new none) fullShell true
          { files := tenFiles, log := [] }).2.files :=
  (fullCleanup_keeps_files_within_retention (CleanupManager.new none) fullShell true
    { files := tenFiles, log := [] } (payloadFile "f7" 7 true) (by decide) (by decide)).2.2.1
    (by decide)

/-- C19: escalation deletes by age alone. At 95% usage the file of a torrent that has not
reached its completion target and was last written 9 days ago is deleted together with the file
of a completed torrent; the deletion command gives the same verdict whatever the completion
state. -/
theorem forceCleanup_deletes_file_of_incomplete_torrent :
    (payloadFile "Stalled/episode.mkv.part" 9 false).torrentComplete = false
    ∧ forceCleanup (CleanupManager.new none) fullShell
        { files := [payloadFile "Stalled/episode.mkv.part" 9 false,
                    payloadFile "Done/film.mkv" 9 true], log := [] }
      = (.ok (), { files := [],
                   log := [.df "/mnt/ninjaseeds", .findDelete "/mnt/ninjaseeds" none true 7,
                           .dropCaches] })
    ∧ (payloadCommand (CleanupManager.new none)).selects
        (payloadFile "Stalled/episode.mkv.part" 9 false) = true := by
  refine ⟨rfl, by rfl, by decide⟩

/-- C20: whichever commands fail and whichever first command ends first, `fullCleanup` resolves
(with the final usage sample). The first commands of `cleanTempFiles`, `cleanTransmissionCache`
and `cleanOrphanedFiles` are all issued, in this order, before anything else; the second command
of a method is left out only when the first command of that same method failed; then
`forceCleanup` takes its usage sample, and the last command is the final usage sample. -/
theorem fullCleanup_never_raises (mgr : CleanupManager) (sh : Shell) (tempFirst : Bool)
    (m : Machine) :
    (∃ usage : JsNum, (fullCleanup mgr sh tempFirst m).1 = .ok usage)
    ∧ (fullCleanup mgr sh tempFirst m).2.log.drop m.log.length
        = [tempTorrentsCommand, resumeCommand, .findEmptyDirs mgr.downloadDir]
          ++ (if tempFirst = true then
                (if sh.rejects tempTorrentsCommand = true then [] else [tempFilesCommand])
                  ++ (if sh.rejects resumeCommand = true then [] else [torrentsCommand])
              else
                (if sh.rejects resumeCommand = true then [] else [torrentsCommand])
                  ++ (if sh.rejects tempTorrentsCommand = true then []
                      else [tempFilesCommand]))
          ++ ((forceCleanup mgr sh (fullCleanup_sweeps mgr sh tempFirst m).2).2.log.drop
               (fullCleanup_sweeps mgr sh tempFirst m).2.log.length)
          ++ [.df mgr.downloadDir]
    ∧ ((forceCleanup mgr sh (fullCleanup_sweeps mgr sh tempFirst m).2).2.log.drop
          (fullCleanup_sweeps mgr sh tempFirst m).2.log.length).head?
        = some (.df mgr.downloadDir)
    ∧ (sh.rejects tempTorrentsCommand = false →
        tempFilesCommand ∈ (fullCleanup mgr sh tempFirst m).2.log.drop m.log.length)
    ∧ (sh.rejects resumeCommand = false →
        torrentsCommand ∈ (fullCleanup mgr sh tempFirst m).2.log.drop m.log.length)
    ∧ (((fullCleanup mgr sh tempFirst m).2.log.drop m.log.length).filter
          (fun c => decide (c = .df mgr.downloadDir))).length = 2
    ∧ (fullCleanup mgr sh tempFirst m).2.log.getLast? = some (.df mgr.downloadDir)
    ∧ fullCleanup (CleanupManager.new none) brokenShell tempFirst
          { files := tenFiles, log := [] }
        = (.ok (.int 0),
           { files := tenFiles,
             log := [tempTorrentsCommand, resumeCommand, .findEmptyDirs "/mnt/ninjaseeds",
                     .df "/mnt/ninjaseeds", .df "/mnt/ninjaseeds"] }) := by
  have hforce := forceCleanup_new_commands mgr sh (fullCleanup_sweeps mgr sh tempFirst m).2
  have hflog : (forceCleanup mgr sh (fullCleanup_sweeps mgr sh tempFirst m).2).2.log
      = (fullCleanup_sweeps mgr sh tempFirst m).2.log
        ++ (.df mgr.downloadDir ::
          (if (getStorageUsage mgr sh (fullCleanup_sweeps mgr sh tempFirst m).2).1.gt
                (.int mgr.maxStoragePercent) = true
           then payloadCommand mgr ::
             (if sh.rejects (payloadCommand mgr) = true then [] else [.dropCaches])
           else [])) := by
    rw [forceCleanup_eq]
  rw [hforce]
  have hlog : (fullCleanup mgr sh tempFirst m).2.log
      = m.log ++ ([tempTorrentsCommand, resumeCommand, .findEmptyDirs mgr.downloadDir]
          ++ (if tempFirst = true then
                (if sh.rejects tempTorrentsCommand = true then [] else [tempFilesCommand])
                  ++ (if sh.rejects resumeCommand = true then [] else [torrentsCommand])
              else
                (if sh.rejects resumeCommand = true then [] else [torrentsCommand])
                  ++ (if sh.rejects tempTorrentsCommand = true then []
                      else [tempFilesCommand]))
          ++ (.df mgr.downloadDir ::
              (if (getStorageUsage mgr sh (fullCleanup_sweeps mgr sh tempFirst m).2).1.gt
                    (.int mgr.maxStoragePercent) = true
               then payloadCommand mgr ::
                 (if sh.rejects (payloadCommand mgr) = true then [] else [.dropCaches])
               else []))
          ++ [.df mgr.downloadDir]) := by
    rw [fullCleanup_eq, getStorageUsage_snd]
    simp only
    rw [hflog, fullCleanup_sweeps_log]
    simp only [List.append_assoc]
  have hdrop := congrArg (List.drop m.log.length) hlog
  rw [List.drop_left] at hdrop
  refine ⟨⟨_, by rw [fullCleanup_eq]⟩, hdrop, rfl, ?_, ?_, ?_, ?_, ?_⟩
  · intro h; rw [hdrop]; cases tempFirst <;> simp [h]
  · intro h; rw [hdrop]; cases tempFirst <;> simp [h]
  · rw [hdrop]
    simp only [tempTorrentsCommand, tempFilesCommand, resumeCommand, torrentsCommand,
      payloadCommand]
    cases tempFirst <;> split_ifs <;> simp [List.filter]
  · rw [hlog, ← List.append_assoc]
    exact List.getLast?_concat _
  · cases tempFirst <;> rfl


/-! ### Typed calls -/

/-- C21: for every answer of the daemon whose result string `r` is not `'success'`, `addMagnet`,
`addTorrentFile` (once the file was read), `getTorrents`, `removeTorrent`, `pauseTorrent` and
`resumeTorrent` return `success: false` and `error: r`, the daemon's string as it is. -/
theorem daemon_result_passes_through (msgs : Messages) (r : String) (hr : r ≠ "success")
    (added duplicate : Option AddedTorrent) (torrents : List Torrent) :
    addMagnet msgs (.ok { result := r, torrentAdded := added, torrentDuplicate := duplicate })
      = { success := false, error := some r, added := none }
    ∧ addTorrentFile msgs (.ok ())
        (.ok { result := r, torrentAdded := added, torrentDuplicate := duplicate })
      = { success := false, error := some r, added := none }
    ∧ getTorrents msgs (.ok { result := r, torrents := torrents })
      = { success := false, error := some r, torrents := none }
    ∧ removeTorrent msgs (.ok { result := r, torrents := torrents })
      = { success := false, error := some r, added := none }
    ∧ pauseTorrent msgs (.ok { result := r, torrents := torrents })
      = { success := false, error := some r, added := none }
    ∧ resumeTorrent msgs (.ok { result := r, torrents := torrents })
      = { success := false, error := some r, added := none } := by
  refine ⟨?_, ?_, ?_, ?_, ?_, ?_⟩
  · simp [addMagnet, addedResult, hr]
  · simp [addTorrentFile, addedResult, hr]
  · simp [getTorrents, hr]
  · simp [removeTorrent, statusResult, hr]
  · simp [pauseTorrent, statusResult, hr]
  · simp [resumeTorrent, statusResult, hr]

/-- Witness for C21: the daemon answers `duplicate torrent`. -/
theorem daemon_result_passes_through_witness :
    addMagnet sampleMessages
        (.ok { result := "duplicate torrent", torrentAdded := none, torrentDuplicate := none })
      = { success := false, error := some "duplicate torrent", added := none } :=
  (daemon_result_passes_through sampleMessages "duplicate torrent" (by decide) none none []).1

/-! ### Add-magnet handler -/

/-- C28: the add-magnet handler calls `addMagnet` exactly when the extracted `magnetLink` is a
string that starts with `magnet:`; a falsy value or another string is answered 400 without a
daemon call; but the truthy number 123 is answered 500, with the message of the `TypeError`
thrown by `magnetLink.startsWith`, instead of 400. -/
theorem add_magnet_non_string_answers_500 (msgs : Messages) (magnetLink : JsValue)
    (addMagnet : String → CallResult) :
    ((add_magnet msgs magnetLink addMagnet).daemonCall.isSome = true
        ↔ ∃ link : String, magnetLink = .string link ∧ startsWith link "magnet:" = true)
    ∧ (∀ link : String, add_magnet msgs (.string link) addMagnet
          = { status := 400, error := some "Invalid magnet URL. Must start with \"magnet:\"",
              daemonCall := none }
        ∨ (add_magnet msgs (.string link) addMagnet).daemonCall = some link)
    ∧ add_magnet sampleMessages (.number (.int 123)) addMagnet
        = { status := 500, error := some "magnetLink.startsWith is not a function",
            daemonCall := none }
    ∧ add_magnet sampleMessages .undefined addMagnet
        = { status := 400, error := some "Invalid magnet URL. Must start with \"magnet:\"",
            daemonCall := none } := by
  refine ⟨?_, ?_, by rfl, by rfl⟩
  · cases magnetLink with
    | string link =>
      by_cases ht : (JsValue.string link).truthy = true
      · by_cases hs : startsWith link "magnet:" = true
        · simp only [add_magnet, ht, hs]
          by_cases hsucc : (addMagnet link).success = true <;> simp [hsucc, hs]
        · simp [add_magnet, ht, hs]
      · have hempty : link = "" := by simpa [JsValue.truthy] using ht
        subst hempty
        simp [add_magnet, JsValue.truthy]
        decide
    | undefined => simp [add_magnet, JsValue.truthy]
    | null => simp [add_magnet, JsValue.truthy]
    | bool b => cases b <;> simp [add_magnet, JsValue.truthy]
    | number n =>
      cases n with
      | nan => simp [add_magnet, JsValue.truthy]
      | int k => by_cases hk : k = 0 <;> simp [add_magnet, JsValue.truthy, hk]
    | object => simp [add_magnet, JsValue.truthy]
  · intro link
    by_cases ht : (JsValue.string link).truthy = true
    · by_cases hs : startsWith link "magnet:" = true
      · right
        simp only [add_magnet, ht, hs]
        by_cases hsucc : (addMagnet link).success = true <;> simp [hsucc]
      · left
        simp [add_magnet, ht, hs]
    · left
      simp [add_magnet, ht]

/-! ### Unreadable disk usage -/

/-- C29: when the `df` command fails, or its output has fewer than five white-space separated
fields, or `parseInt` of the fifth field is `NaN`, `getStorageUsage` of a manager built by the
constructor returns 0, resp. `NaN`
(it cannot raise), and `forceCleanup` issues only the usage sample and leaves the files as they
are. -/
theorem unreadable_usage_never_escalates (envDownloadDir : Option String) (sh : Shell)
    (m : Machine)
    (hbad : (∃ message, sh.df m.log m.files = .error message)
      ∨ (∃ stdout, sh.df m.log m.files = .ok stdout
          ∧ (splitWhitespace stdout.toList).length < 5)
      ∨ (∃ stdout field, sh.df m.log m.files = .ok stdout
          ∧ (splitWhitespace stdout.toList).get? 4 = some field
          ∧ parseInt (removeFirst ['%'] field) none = .nan)) :
    ((getStorageUsage (CleanupManager.new envDownloadDir) sh m).1 = .int 0 ∨ (getStorageUsage (CleanupManager.new envDownloadDir) sh m).1 = .nan)
    ∧ (forceCleanup (CleanupManager.new envDownloadDir) sh m).1 = .ok ()
    ∧ (forceCleanup (CleanupManager.new envDownloadDir) sh m).2.files = m.files
    ∧ (forceCleanup (CleanupManager.new envDownloadDir) sh m).2.log = m.log ++ [.df (CleanupManager.new envDownloadDir).downloadDir] := by
  have husage : (getStorageUsage (CleanupManager.new envDownloadDir) sh m).1 = .int 0 ∨ (getStorageUsage (CleanupManager.new envDownloadDir) sh m).1 = .nan := by
    rcases hbad with ⟨message, h⟩ | ⟨stdout, h, hlen⟩ | ⟨stdout, field, h, hfield, hnan⟩
    · left; simp [getStorageUsage, h]
    · left
      have hnone : (splitWhitespace stdout.toList).get? 4 = none :=
        List.get?_eq_none.mpr (by omega)
      simp only [getStorageUsage, h, hnone]
    · right; simp only [getStorageUsage, h, hfield, hnan]
  have hgt : (getStorageUsage (CleanupManager.new envDownloadDir) sh m).1.gt (.int (CleanupManager.new envDownloadDir).maxStoragePercent) = false := by
    rcases husage with h | h
    · rw [h]; simp [JsNum.gt, CleanupManager.new]
    · rw [h]; rfl
  refine ⟨husage, ?_, ?_, ?_⟩
  · rw [forceCleanup_eq]
  · rw [forceCleanup_eq]; simp [hgt]
  · rw [forceCleanup_eq]; simp [hgt]

/-- Witness for C29: every command fails. -/
theorem unreadable_usage_never_escalates_witness :
    (forceCleanup (CleanupManager.new none) brokenShell { files := tenFiles, log := [] }).2.files
      = tenFiles :=
  (unreadable_usage_never_escalates none brokenShell
    { files := tenFiles, log := [] } (Or.inl ⟨"Command failed", rfl⟩)).2.2.1

/-! ### Unknown torrents -/

/-- C22: when the daemon's result is not `'success'` or its torrent list is empty, the two
file-list handlers, the browse handler and the four export handlers answer 404
`'Torrent not found'`; the browse and export handlers do so before their first filesystem
access, whatever the filesystem holds, and the file-list handlers have none. -/
theorem unknown_torrent_answers_404 (cwd subPath r : String) (ts : List Torrent)
    (fileIndex : Option Int) (range : Option String) (localeCompare : String → String → Int)
    (fs : FileSystem) (h : r ≠ "success" ∨ ts = []) :
    files_list (.ok { result := r, torrents := ts }) = .error 404 .torrentNotFound
    ∧ routes_files (.ok { result := r, torrents := ts }) = .error 404 .torrentNotFound
    ∧ files_browse cwd (.ok { result := r, torrents := ts }) subPath
        = .reply 404 .torrentNotFound
    ∧ api_download (.ok { result := r, torrents := ts }) = .reply 404 .torrentNotFound
    ∧ routes_download (.ok { result := r, torrents := ts }) = .reply 404 .torrentNotFound
    ∧ routes_speedDownload (.ok { result := r, torrents := ts }) = .reply 404 .torrentNotFound
    ∧ routes_fileDownload (.ok { result := r, torrents := ts }) fileIndex
        = .reply 404 .torrentNotFound
    ∧ files_browse_full cwd (.ok { result := r, torrents := ts }) subPath localeCompare fs
        = .early 404 .torrentNotFound
    ∧ api_download_full (.ok { result := r, torrents := ts }) fs = .early 404 .torrentNotFound
    ∧ routes_download_full (.ok { result := r, torrents := ts }) fs range
        = .early 404 .torrentNotFound
    ∧ routes_speedDownload_full (.ok { result := r, torrents := ts }) fs
        = .early 404 .torrentNotFound
    ∧ routes_fileDownload_full (.ok { result := r, torrents := ts }) fileIndex fs range
        = .early 404 .torrentNotFound := by
  rcases h with h | h
  · simp [files_list, routes_files, files_browse, api_download, routes_download,
      routes_speedDownload, routes_fileDownload, files_browse_full, api_download_full,
      routes_download_full, routes_speedDownload_full, routes_fileDownload_full, h]
  · subst h
    simp [files_list, routes_files, files_browse, api_download, routes_download,
      routes_speedDownload, routes_fileDownload, files_browse_full, api_download_full,
      routes_download_full, routes_speedDownload_full, routes_fileDownload_full]

/-- Witness for C22: the daemon answers `success` with no torrent. -/
theorem unknown_torrent_answers_404_witness :
    routes_download (.ok { result := "success", torrents := [] })
      = .reply 404 .torrentNotFound :=
  (unknown_torrent_answers_404 "/srv/app" "" "success" [] none none lengthCompare emptyFs
    (Or.inr rfl)).2.2.2.2.1

/-! ### File progress -/

theorem get?_fileEntries (torrent : Torrent) (i : Nat) :
    (fileEntries torrent).get? i = (torrent.files.get? i).map (fileEntry i) := by
  simp only [fileEntries, List.get?_eq_getElem?, List.getElem?_map, List.getElem?_enum,
    Option.map_map]
  rfl

theorem get?_routesFileEntries (torrent : Torrent) (i : Nat) :
    (routesFileEntries torrent).get? i = (torrent.files.get? i).map (routesFileEntry i) := by
  simp only [routesFileEntries, List.get?_eq_getElem?, List.getElem?_map, List.getElem?_enum,
    Option.map_map]
  rfl

theorem quotient_in_unit_interval (a b : Nat) (h : a ≤ b) :
    0 ≤ (if b > 0 then (a : ℚ) / (b : ℚ) else 0)
    ∧ (if b > 0 then (a : ℚ) / (b : ℚ) else 0) ≤ 1 := by
  split
  · next hb =>
    have hb2 : (0 : ℚ) < (b : ℚ) := by exact_mod_cast hb
    have ha : (a : ℚ) ≤ (b : ℚ) := by exact_mod_cast h
    exact ⟨div_nonneg (by positivity) (le_of_lt hb2), (div_le_one hb2).mpr ha⟩
  · exact ⟨le_refl _, zero_le_one⟩

/-- C24: for every file entry of the daemon, at every index of the torrent reported first, both
file-list handlers answer, at that same index of `files`, an entry that carries the index, the
`length` of the daemon's entry as `size` and its `bytesCompleted`, and whose `progress` is the
daemon's `bytesCompleted / length` when `length > 0` and 0 when `length = 0`; with
`bytesCompleted <= length` it lies between 0 and 1. The lists have one entry per file of the
daemon. -/
theorem progress_is_quotient (torrent : Torrent) (rest : List Torrent) (i : Nat)
    (file : TorrentFile) (hfile : torrent.files.get? i = some file) :
    (∃ body, routes_files (.ok { result := "success", torrents := torrent :: rest }) = .ok body
      ∧ body.files.length = torrent.files.length
      ∧ ∃ e, body.files.get? i = some e
        ∧ e.index = i ∧ e.size = file.length ∧ e.bytesCompleted = file.bytesCompleted
        ∧ e.progress
            = (if file.length > 0 then (file.bytesCompleted : ℚ) / (file.length : ℚ) else 0)
        ∧ (file.length = 0 → e.progress = 0)
        ∧ (file.bytesCompleted ≤ file.length → 0 ≤ e.progress ∧ e.progress ≤ 1))
    ∧ (∀ body, files_list (.ok { result := "success", torrents := torrent :: rest }) = .ok body →
      body.files.length = torrent.files.length
      ∧ body.totalFiles = torrent.files.length
      ∧ ∃ e, body.files.get? i = some e
        ∧ e.index = i ∧ e.size = file.length ∧ e.bytesCompleted = file.bytesCompleted
        ∧ e.progress
            = (if file.length > 0 then (file.bytesCompleted : ℚ) / (file.length : ℚ) else 0)
        ∧ (file.length = 0 → e.progress = 0)
        ∧ (file.bytesCompleted ≤ file.length → 0 ≤ e.progress ∧ e.progress ≤ 1))
    ∧ (files_list (.ok { result := "success", torrents := torrent :: rest })
        = .error 500 .failed
      ∨ ∃ body, files_list (.ok { result := "success", torrents := torrent :: rest })
          = .ok body) := by
  have hroutes : routes_files (.ok { result := "success", torrents := torrent :: rest })
      = .ok { torrentId := torrent.id, torrentName := torrent.name,
              isFinished := torrent.isFinished, totalProgress := torrent.percentDone,
              files := routesFileEntries torrent } := by
    simp [routes_files]
  refine ⟨⟨_, hroutes, ?_, routesFileEntry i file, ?_, rfl, rfl, rfl, rfl, ?_,
    fun h => quotient_in_unit_interval _ _ h⟩, ?_, ?_⟩
  · simp [routesFileEntries]
  · simp only
    rw [get?_routesFileEntries, hfile]
    rfl
  · intro h0
    simp [routesFileEntry, h0]
  · intro body hbody
    have hfiles : body.files = fileEntries torrent ∧ body.totalFiles = (fileEntries torrent).length := by
      simp only [files_list, ne_eq, not_true_eq_false, if_false] at hbody
      split at hbody
      · cases hbody
      · injection hbody with hbody
        subst hbody
        exact ⟨rfl, rfl⟩
    rw [hfiles.1, hfiles.2]
    refine ⟨by simp [fileEntries], by simp [fileEntries], fileEntry i file, ?_, rfl, rfl, rfl, rfl,
      ?_, fun h => quotient_in_unit_interval _ _ h⟩
    · rw [get?_fileEntries, hfile]
      rfl
    · intro h0
      simp [fileEntry, h0]
  · simp only [files_list, ne_eq, not_true_eq_false, if_false]
    split
    · exact Or.inl rfl
    · exact Or.inr ⟨_, rfl⟩

/-- Witness for C24: the half-completed file of `showWithFile` is reported by
`router.get('/:id/files')` with the quotient of 500 and 1000 as progress, between 0 and 1. -/
theorem progress_is_quotient_witness :
    ∃ body, routes_files (.ok { result := "success",
                                torrents := [showWithFile false (1 / 2) 4] }) = .ok body
      ∧ ∃ e, body.files.get? 0 = some e
        ∧ e.index = 0 ∧ e.size = 1000 ∧ e.bytesCompleted = 500
        ∧ e.progress = (if 1000 > 0 then ((500 : Nat) : ℚ) / ((1000 : Nat) : ℚ) else 0)
        ∧ 0 ≤ e.progress ∧ e.progress ≤ 1 := by
  obtain ⟨body, hbody, _, e, he, h1, h2, h3, h4, _, h5⟩ :=
    (progress_is_quotient (showWithFile false (1 / 2) 4) [] 0
      { name := "Show/episode.mkv", length := 1000, bytesCompleted := 500 } rfl).1
  exact ⟨body, hbody, e, he, h1, h2, h3, h4, h5 (by decide)⟩

/-! ### File tree -/

/-- C30: for the two files `Src/readme.md` and `Src/constructor/index.js` (distinct names,
neither a directory of the other) the loop that builds `fileTree` throws, and the handler
answers 500: `current['constructor']` is the inherited `Object` function, so no directory node
is made and `current` becomes `undefined`. For a file named `Show/__proto__` the tree is built
but holds no node for it. A list without such names gets a node for each file, with its
index. -/
theorem fileTree_fails_on_inherited_names :
    (fileEntries sourceTreeTorrent).map (fun e => e.relativePath)
        = ["Src/readme.md", "Src/constructor/index.js"]
    ∧ (buildFileTree (fileEntries sourceTreeTorrent)).isNone = true
    ∧ (files_list (found sourceTreeTorrent)).status = 500
    ∧ ((buildFileTree (fileEntries protoTorrent)).bind
          (fun tree => followPath ["Show", "e1.mkv"] tree.1)).bind TreeNode.fileIndex = some 0
    ∧ (buildFileTree (fileEntries protoTorrent)).isSome = true
    ∧ ((buildFileTree (fileEntries protoTorrent)).bind
          (fun tree => followPath ["Show", "__proto__"] tree.1)).isNone = true
    ∧ (files_list (found seasonTorrent)).status = 200
    ∧ ((buildFileTree (fileEntries seasonTorrent)).bind
          (fun tree => followPath ["Show", "e1.mkv"] tree.1)).bind TreeNode.fileIndex = some 0
    ∧ ((buildFileTree (fileEntries seasonTorrent)).bind
          (fun tree => followPath ["Show", "e2.mkv"] tree.1)).bind TreeNode.fileIndex = some 1
    ∧ ((buildFileTree (fileEntries seasonTorrent)).bind
          (fun tree => followPath ["Show", "extras", "cast.txt"] tree.1)).bind TreeNode.fileIndex
        = some 2 := by
  refine ⟨?_, ?_, ?_, ?_, ?_, ?_, ?_, ?_, ?_, ?_⟩ <;> rfl

/-! ### Missing paths -/

/-- C23: for a known, finished torrent whose path does not exist, `download/:id` and
`:id/speed-download` of `routes/torrents.js` answer 500, while `download/:id` of
`api/torrents.js`, `:id/file/:fileIndex` and the browse handler answer 404. -/
theorem missing_path_answers_500_in_routes :
    routes_download_full (found (showTorrent "/data")) emptyFs none
      = .statFailed 500 "Download failed"
    ∧ routes_speedDownload_full (found (showTorrent "/data")) emptyFs
      = .statFailed 500 "Speed download failed"
    ∧ api_download_full (found (showTorrent "/data")) emptyFs
      = .statFailed 404 "Downloaded files not found on server"
    ∧ routes_fileDownload_full (found (showTorrent "/data")) (some 0) emptyFs none
      = .statFailed 404 "File not found on disk"
    ∧ files_browse_full "/srv/app" (found (showTorrent "/data")) "" lengthCompare emptyFs
      = .inaccessible 404 "Path not found or not accessible" := by
  refine ⟨?_, ?_, ?_, ?_, ?_⟩ <;> decide

/-! ### Symbolic links -/

theorem files_browse_cons (cwd subPath : String) (t : Torrent) (rest : List Torrent) :
    files_browse cwd (.ok { result := "success", torrents := t :: rest }) subPath
      = if browseGuard cwd t.downloadDir t.name subPath = true then
          .access (path_join (path_join t.downloadDir t.name) subPath)
        else .reply 403 .accessDenied := by
  by_cases h : browseGuard cwd t.downloadDir t.name subPath = true <;> simp [files_browse, h]

/-- C25, as stated, fails: with `/data/Show/link` a symbolic link to `/etc`, the sub-path
`link/passwd` is not rejected; the handler stats it and describes the file, whose resolved
location `/etc/passwd` is outside the torrent directory. -/
theorem browse_follows_symlink_out_of_root :
    symlinkFs.realpath "/data/Show" = "/data/Show"
    ∧ symlinkFs.realpath "/data/Show/link/passwd" = "/etc/passwd"
    ∧ startsWith "/etc/passwd" "/data/Show" = false
    ∧ files_browse "/srv/app" (found (showTorrent "/data")) "link/passwd"
        = .access "/data/Show/link/passwd"
    ∧ files_browse_full "/srv/app" (found (showTorrent "/data")) "link/passwd" lengthCompare
        symlinkFs = .fileInfo "link/passwd" "passwd" 1200 0 "" := by
  refine ⟨?_, ?_, ?_, ?_, ?_⟩ <;> decide

/-- C25 (amended): the browse guard decides on the paths as `path.join` and `path.resolve`
normalise them, without resolving symbolic links: whatever the filesystem, a known torrent's
request is rejected with 403 exactly when the normalised target does not start with the
normalised torrent directory, and otherwise the normalised target is what `fs.stat` gets. -/
theorem browse_guard_is_lexical (cwd subPath : String) (t : Torrent) (rest : List Torrent)
    (localeCompare : String → String → Int) (fs : FileSystem) :
    (files_browse_full cwd (.ok { result := "success", torrents := t :: rest }) subPath
        localeCompare fs = .early 403 .accessDenied
      ↔ startsWith
          (path_resolve cwd (path_join (path_join t.downloadDir t.name) subPath))
          (path_resolve cwd (path_join t.downloadDir t.name)) = false)
    ∧ (files_browse cwd (.ok { result := "success", torrents := t :: rest }) subPath
        = .access (path_join (path_join t.downloadDir t.name) subPath)
      ↔ startsWith
          (path_resolve cwd (path_join (path_join t.downloadDir t.name) subPath))
          (path_resolve cwd (path_join t.downloadDir t.name)) = true) := by
  have hg : browseGuard cwd t.downloadDir t.name subPath
      = startsWith
          (path_resolve cwd (path_join (path_join t.downloadDir t.name) subPath))
          (path_resolve cwd (path_join t.downloadDir t.name)) := rfl
  rw [← hg]
  constructor
  · unfold files_browse_full
    rw [files_browse_cons]
    by_cases h : browseGuard cwd t.downloadDir t.name subPath = true
    · simp only [h, if_true]
      constructor
      · intro hres
        split at hres
        · cases hres
        · split at hres
          · split at hres
            · cases hres
            · split at hres <;> cases hres
          · cases hres
      · intro hf; cases hf
    · simp [h]
  · rw [files_browse_cons]
    by_cases h : browseGuard cwd t.downloadDir t.name subPath = true <;> simp [h]

/-! ### Directory listings -/

theorem compareEntries_total (lc : String → String → Int)
    (htotal : ∀ a b : String, lc a b ≤ 0 ∨ lc b a ≤ 0) (a b : BrowseEntry) :
    compareEntries lc a b ≤ 0 ∨ compareEntries lc b a ≤ 0 := by
  unfold compareEntries
  cases ha : a.type <;> cases hb : b.type <;> simp [htotal]

theorem compareEntries_trans (lc : String → String → Int)
    (htrans : ∀ a b c : String, lc a b ≤ 0 → lc b c ≤ 0 → lc a c ≤ 0) (a b c : BrowseEntry)
    (hab : compareEntries lc a b ≤ 0) (hbc : compareEntries lc b c ≤ 0) :
    compareEntries lc a c ≤ 0 := by
  unfold compareEntries at *
  cases ha : a.type <;> cases hb : b.type <;> cases hc : c.type <;>
    simp [ha, hb, hc] at hab hbc ⊢
  · exact htrans _ _ _ hab hbc
  · exact htrans _ _ _ hab hbc

theorem allEntries_names (fs : FileSystem) (fullPath subPath : String) (entries : List Dirent)
    (raw : List BrowseEntry)
    (h : allEntries (entries.map (browseEntry fs fullPath subPath)) = some raw) :
    raw.map (fun e => e.name) = entries.map (fun d => d.name)
    ∧ raw.map (fun e => e.type)
        = entries.map (fun d => if d.isDirectory then EntryType.directory else EntryType.file) := by
  induction entries generalizing raw with
  | nil =>
    simp [allEntries] at h
    subst h
    simp
  | cons d ds ih =>
    simp only [List.map_cons] at h
    cases hd : browseEntry fs fullPath subPath d with
    | none => rw [hd] at h; simp [allEntries] at h
    | some e =>
      rw [hd] at h
      simp only [allEntries] at h
      cases hrest : allEntries (ds.map (browseEntry fs fullPath subPath)) with
      | none => rw [hrest] at h; cases h
      | some es =>
        rw [hrest] at h
        simp only [Option.some.injEq] at h
        subst h
        have he : e.name = d.name
            ∧ e.type = (if d.isDirectory then EntryType.directory else EntryType.file) := by
          unfold browseEntry at hd
          split at hd
          · cases hd
          · simp only [Option.some.injEq] at hd
            subst hd
            exact ⟨rfl, rfl⟩
        simp [he.1, he.2, (ih es hrest).1, (ih es hrest).2]

/-- C27: when the browsed path is a directory that can be read, the answer is a listing whose
`contents` is a permutation of the directory's entries, with every directory before every
file and, within each type, names in non-decreasing `localeCompare` order (for a
`localeCompare` that is a total preorder). -/
theorem listing_sorted_directories_first (cwd subPath fullPath : String)
    (rpc : Except Thrown RpcResult) (localeCompare : String → String → Int) (fs : FileSystem)
    (stats : Stats) (entries : List Dirent) (raw : List BrowseEntry)
    (htotal : ∀ a b : String, localeCompare a b ≤ 0 ∨ localeCompare b a ≤ 0)
    (htrans : ∀ a b c : String,
      localeCompare a b ≤ 0 → localeCompare b c ≤ 0 → localeCompare a c ≤ 0)
    (haccess : files_browse cwd rpc subPath = .access fullPath)
    (hstat : fs.stat fullPath = some stats) (hdir : stats.isDirectory = true)
    (hread : fs.readdir fullPath = some entries)
    (hall : allEntries (entries.map (browseEntry fs fullPath subPath)) = some raw) :
    ∃ contents : List BrowseEntry,
      files_browse_full cwd rpc subPath localeCompare fs = .listing subPath contents
      ∧ contents.Perm raw
      ∧ (contents.map (fun e => e.name)).Perm (entries.map (fun d => d.name))
      ∧ contents.length = entries.length
      ∧ contents.Pairwise (fun a b =>
          (a.type = .directory ∨ b.type = .file)
          ∧ (a.type = b.type → localeCompare a.name b.name ≤ 0)) := by
  refine ⟨sortContents localeCompare raw, ?_, ?_, ?_, ?_, ?_⟩
  · simp [files_browse_full, haccess, hstat, hdir, hread, hall]
  · exact List.perm_insertionSort _ raw
  · rw [← (allEntries_names fs fullPath subPath entries raw hall).1]
    exact (List.perm_insertionSort _ raw).map _
  · have h1 := (List.perm_insertionSort
      (fun a b => compareEntries localeCompare a b ≤ 0) raw).length_eq
    have h2 := congrArg List.length (allEntries_names fs fullPath subPath entries raw hall).1
    simp only [List.length_map] at h2
    unfold sortContents
    omega
  · haveI : IsTotal BrowseEntry (fun a b => compareEntries localeCompare a b ≤ 0) :=
      ⟨compareEntries_total localeCompare htotal⟩
    haveI : IsTrans BrowseEntry (fun a b => compareEntries localeCompare a b ≤ 0) :=
      ⟨compareEntries_trans localeCompare htrans⟩
    have hs := List.sorted_insertionSort
      (fun a b => compareEntries localeCompare a b ≤ 0) raw
    refine List.Pairwise.imp ?_ hs
    intro a b hab
    unfold compareEntries at hab
    cases ha : a.type <;> cases hb : b.type <;> simp [ha, hb] at hab ⊢
    · exact hab
    · exact hab

/-- Witness for C27: the listing of `/data/Show` on `seasonFs`, names compared by length. -/
theorem listing_sorted_directories_first_witness :
    ∃ contents : List BrowseEntry,
      files_browse_full "/srv/app" (found (showTorrent "/data")) "" lengthCompare seasonFs
        = .listing "" contents
      ∧ contents.Perm
          [{ name := "e2.mkv", type := .file, size := 20, modified := 7,
             extension := some ".mkv", relativePath := "e2.mkv" },
           { name := "extras", type := .directory, size := 4096, modified := 5,
             extension := none, relativePath := "extras" },
           { name := "e1.mkv", type := .file, size := 10, modified := 8,
             extension := some ".mkv", relativePath := "e1.mkv" },
           { name := "art", type := .directory, size := 4096, modified := 6,
             extension := none, relativePath := "art" }]
      ∧ (contents.map (fun e => e.name)).Perm ["e2.mkv", "extras", "e1.mkv", "art"]
      ∧ contents.length = 4
      ∧ contents.Pairwise (fun a b =>
          (a.type = .directory ∨ b.type = .file)
          ∧ (a.type = b.type → lengthCompare a.name b.name ≤ 0)) :=
  listing_sorted_directories_first "/srv/app" "" "/data/Show" (found (showTorrent "/data"))
    lengthCompare seasonFs { isDirectory := true, size := 4096, mtime := 0 }
    [{ name := "e2.mkv", isDirectory := false, isFile := true },
     { name := "extras", isDirectory := true, isFile := false },
     { name := "e1.mkv", isDirectory := false, isFile := true },
     { name := "art", isDirectory := true, isFile := false }]
    _
    (fun a b => by unfold lengthCompare; omega)
    (fun a b c h1 h2 => by unfold lengthCompare at *; omega)
    (by decide) (by decide) rfl (by decide) (by decide)

end NinjaSeeds
